import Mathlib

/-!
# flowGfwOmegaXi: shallow embedding and verified properties

Source: `PWGCF/Flow/Tasks/flowGfwOmegaXi.cxx` (struct `FlowGfwOmegaXi`).

Modelling conventions
* `double` quantities are exact rationals (`ℚ`).  The `float` locals `dnx` and `val` of the
  pt-differential fill helpers, which decide whether a profile is filled and with what, are
  rounded to single precision by `toFloat`.  The other `float` variables (track weights,
  vertex position, centrality) are kept as exact rationals; their rounding is not modelled.
* C++ `int` quantities are `Int`; container sizes are `Nat`.
* Calls on the flow-vector engine (`fGFW`) and fills of correlator profiles are recorded,
  in program order, as a list of `Effect`s.  QA histograms, which no modelled code reads
  back, are left out.
* The engine `GFW`, ROOT's `TF1`, the CCDB service and the math library are collaborators
  whose code is not part of the task file; they enter as the fields of `Env`.
-/

namespace FlowGfwOmegaXi

/-! ## ROOT `TAxis` -/

/-- ROOT axis: either `fNbins` equal bins on `[fXmin, fXmax]`, or variable bins given by the
array of the `fNbins + 1` ascending edges `fXbins`. -/
inductive TAxis where
  | fix (fNbins : Nat) (fXmin fXmax : ℚ)
  | var (fXbins : List ℚ)
  deriving DecidableEq, Repr

namespace TAxis

/-- Number of bins, `TAxis::GetNbins`. -/
def GetNbins : TAxis → Nat
  | fix n _ _ => n
  | var xs => xs.length - 1

/-- Lower edge of the axis, `TAxis::GetXmin`. -/
def GetXmin : TAxis → ℚ
  | fix _ lo _ => lo
  | var xs => xs.headD 0

/-- Upper edge of the axis, `TAxis::GetXmax`. -/
def GetXmax : TAxis → ℚ
  | fix _ _ hi => hi
  | var xs => xs.getLastD 0

/-- Conversion `int(q)` of C++: truncation towards zero. -/
def truncInt (q : ℚ) : Int :=
  if 0 ≤ q then Int.floor q else -Int.floor (-q)

/-- Index of the last element of the ascending array that is `≤ x`, `-1` when there is
none (`TMath::BinarySearch`). -/
def binarySearch (arr : List ℚ) (x : ℚ) : Int :=
  ((arr.takeWhile (fun e => decide (e ≤ x))).length : Int) - 1

/-- Bin of `x`, `TAxis::FindBin`: `0` is the underflow bin, `fNbins + 1` the overflow bin. -/
def FindBin (a : TAxis) (x : ℚ) : Int :=
  if x < a.GetXmin then 0
  else if ¬ (x < a.GetXmax) then (a.GetNbins : Int) + 1
  else
    match a with
    | fix n lo hi => 1 + truncInt ((n : ℚ) * (x - lo) / (hi - lo))
    | var xs => 1 + binarySearch xs x

/-- Centre of a bin, `TAxis::GetBinCenter`. -/
def GetBinCenter (a : TAxis) (bin : Int) : ℚ :=
  match a with
  | fix n lo hi =>
      let binwidth := (hi - lo) / (n : ℚ)
      lo + ((bin : ℚ) - 1) * binwidth + binwidth / 2
  | var xs =>
      if bin < 1 ∨ (a.GetNbins : Int) < bin then
        let binwidth := (a.GetXmax - a.GetXmin) / (a.GetNbins : ℚ)
        a.GetXmin + ((bin : ℚ) - 1) * binwidth + binwidth / 2
      else
        let lo := xs.getD (bin - 1).toNat 0
        let binwidth := xs.getD bin.toNat 0 - lo
        lo + binwidth / 2

end TAxis

/-! ## Correlator configurations, effects and profiles -/

/-- The fields of `GFW::CorrConfig` the task reads or sets: the correlator expression and
label given to `GetCorrelatorConfig`, and the pt-differential flag `pTDif`. -/
structure CorrConfig where
  expr : String
  Head : String
  pTDif : Bool
  deriving DecidableEq, Repr

/-- The file-scope arrays of jackknife profiles (`std::shared_ptr<...> refc22[20]`, ...). -/
inductive JkArray where
  | refc22 | refc24 | k0sc22 | k0sc24 | lambdac22 | lambdac24
  | xic22 | xic24 | omegac22 | omegac24
  deriving DecidableEq, Repr

/-- A profile object as the task addresses it when filling: a registry histogram by name
(`HIST("...")`), or whatever slot `idx` of a jackknife array points to (`refc22[j - 1]`,
...).  Which registry profile a slot holds, if any, is decided by the stores of `init`. -/
inductive Target where
  | hist (name : String)
  | slot (arr : JkArray) (idx : Int)
  deriving DecidableEq, Repr

/-- One weighted entry of a profile: coordinates (the last one is the centrality), the
profiled value and the weight. -/
structure ProfileFill where
  coords : List ℚ
  val : ℚ
  w : ℚ
  deriving DecidableEq, Repr

/-- Observable actions of the task, in program order. -/
inductive Effect where
  | gfwClear
  | gfwFill (eta : ℚ) (ptin : Int) (phi : ℚ) (weight : ℚ) (mask : Nat)
  | gfwCalculate (corrconf : CorrConfig) (bin : Int) (setHarmsToZero : Bool)
  | profFill (tar : Target) (entry : ProfileFill)
  deriving DecidableEq, Repr

/-- Content of a profile: the entries filled so far, oldest first. -/
abbrev Profile := List ProfileFill

/-- Entries that a run of effects adds to the profile `tar`. -/
def fillsFor (tar : Target) : List Effect → List ProfileFill
  | [] => []
  | Effect.profFill t e :: rest => if t = tar then e :: fillsFor tar rest else fillsFor tar rest
  | _ :: rest => fillsFor tar rest

/-- Profile `tar` after a run of effects. -/
def Profile.after (p : Profile) (tar : Target) (effs : List Effect) : Profile :=
  p ++ fillsFor tar effs

/-- Accumulated sum of weights of the entries selected by `cell` (`fBinEntries`). -/
def Profile.sumW (p : Profile) (cell : List ℚ → Bool) : ℚ :=
  ((p.filter (fun e => cell e.coords)).map (fun e => e.w)).sum

/-- Accumulated sum of weight times value of the entries selected by `cell` (`fArray`). -/
def Profile.sumVW (p : Profile) (cell : List ℚ → Bool) : ℚ :=
  ((p.filter (fun e => cell e.coords)).map (fun e => e.w * e.val)).sum

/-- PDG code of the K0 short. -/
def kK0Short : Int := 310
/-- PDG code of the Lambda. -/
def kLambda0 : Int := 3122
/-- PDG code of the Xi minus. -/
def kXiMinus : Int := 3312
/-- PDG code of the Omega minus. -/
def kOmegaMinus : Int := 3334

/-! ## Configuration -/

/-- Axis specification of the framework (`AxisSpec`, also the value of a
`ConfigurableAxis`): `nBins = none` for `VARIABLE_WIDTH` axes, whose `binEdges` are all the
edges; otherwise `binEdges` holds the two ends of the range. -/
structure AxisSpec where
  nBins : Option Nat
  binEdges : List ℚ
  deriving DecidableEq, Repr

/-- Axis of a histogram booked in the registry with the given specification. -/
def AxisSpec.toTAxis (a : AxisSpec) : TAxis :=
  match a.nBins with
  | some n => TAxis.fix n (a.binEdges.getD 0 0) (a.binEdges.getD 1 0)
  | none => TAxis.var a.binEdges

/-- The configurables of the task that the modelled code reads. -/
structure Config where
  cfgCutVertex : ℚ
  cfgCutPtPOIMin : ℚ
  cfgCutPtPOIMax : ℚ
  cfgCutPtMin : ℚ
  cfgCutPtMax : ℚ
  cfgCutEta : ℚ
  cfgCutChi2prTPCcls : ℚ
  cfgCutOccupancyHigh : Int
  cfgMassBins : List Int
  cfgDeltaPhiLocDen : Int
  cfgv0_radius : ℚ
  cfgv0_v0cospa : ℚ
  cfgv0_dcadautopv : ℚ
  cfgv0_dcav0dau : ℚ
  cfgv0_mk0swindow : ℚ
  cfgv0_mlambdawindow : ℚ
  cfgv0_ArmPodocut : ℚ
  cfgcasc_radius : ℚ
  cfgcasc_casccospa : ℚ
  cfgcasc_v0cospa : ℚ
  cfgcasc_dcav0topv : ℚ
  cfgcasc_dcabachtopv : ℚ
  cfgcasc_dcacascdau : ℚ
  cfgcasc_dcav0dau : ℚ
  cfgcasc_mlambdawindow : ℚ
  cfgtpcclusters : Int
  cfgitsclusters : Int
  cfgtpcclufindable : Int
  cfgtpccrossoverfindable : Int
  cfgCasc_rapidity : ℚ
  cfgNSigmatpctof : List ℚ
  cfgAcceptancePath : List String
  cfgEfficiencyPath : List String
  cfgLocDenParaXi : List ℚ
  cfgLocDenParaOmega : List ℚ
  cfgLocDenParaK0s : List ℚ
  cfgLocDenParaLambda : List ℚ
  cfgcheckDauTPC : Bool
  cfgcheckDauTOF : Bool
  cfgDoAccEffCorr : Bool
  cfgDoLocDenCorr : Bool
  cfgDoJackknife : Bool
  cfgOutputNUAWeights : Bool
  cfgOutputLocDenWeights : Bool
  cfgaxisPt : AxisSpec
  cfgaxisPtXi : AxisSpec
  cfgaxisPtOmega : AxisSpec
  cfgaxisPtV0 : AxisSpec
  cfgaxisOmegaMassforflow : AxisSpec
  cfgaxisXiMassforflow : AxisSpec
  cfgaxisK0sMassforflow : AxisSpec
  cfgaxisLambdaMassforflow : AxisSpec

/-- The default values of the configurables. -/
def defaultConfig : Config where
  cfgCutVertex := 10
  cfgCutPtPOIMin := 0.2
  cfgCutPtPOIMax := 10
  cfgCutPtMin := 0.2
  cfgCutPtMax := 10
  cfgCutEta := 0.8
  cfgCutChi2prTPCcls := 2.5
  cfgCutOccupancyHigh := 500
  cfgMassBins := [80, 32, 14, 16]
  cfgDeltaPhiLocDen := 3
  cfgv0_radius := 5
  cfgv0_v0cospa := 0.995
  cfgv0_dcadautopv := 0.1
  cfgv0_dcav0dau := 0.5
  cfgv0_mk0swindow := 0.1
  cfgv0_mlambdawindow := 0.04
  cfgv0_ArmPodocut := 0.2
  cfgcasc_radius := 0.5
  cfgcasc_casccospa := 0.999
  cfgcasc_v0cospa := 0.998
  cfgcasc_dcav0topv := 0.01
  cfgcasc_dcabachtopv := 0.01
  cfgcasc_dcacascdau := 0.3
  cfgcasc_dcav0dau := 1
  cfgcasc_mlambdawindow := 0.04
  cfgtpcclusters := 70
  cfgitsclusters := 1
  cfgtpcclufindable := 1
  cfgtpccrossoverfindable := 1
  cfgCasc_rapidity := 0.5
  cfgNSigmatpctof := [3, 3, 3, 3, 3, 3]
  cfgAcceptancePath := ["Users/f/fcui/NUA/NUAREFPartical", "Users/f/fcui/NUA/NUAK0s",
    "Users/f/fcui/NUA/NUALambda", "Users/f/fcui/NUA/NUAXi", "Users/f/fcui/NUA/NUAOmega"]
  cfgEfficiencyPath := ["PathtoRef"]
  cfgLocDenParaXi := [-0.000986187, -3.86861, -0.000912481, -3.29206, -0.000859271, -2.89389,
    -0.000817039, -2.61201, -0.000788792, -2.39079, -0.000780182, -2.19276, -0.000750457,
    -2.07205, -0.000720279, -1.96865, -0.00073247, -1.85642, -0.000695091, -1.82625,
    -0.000693332, -1.72679, -0.000681225, -1.74305, -0.000652818, -1.92608, -0.000618892,
    -2.31985]
  cfgLocDenParaOmega := [-0.000444324, -6.0424, -0.000566208, -5.42168, -0.000580338,
    -4.96967, -0.000721054, -4.41994, -0.000626394, -4.27934, -0.000652167, -3.9543,
    -0.000592327, -3.79053, -0.000544721, -3.73292, -0.000613419, -3.43849, -0.000402506,
    -3.47687, -0.000602687, -3.24491, -0.000460848, -3.056, -0.00039428, -2.35188,
    -0.00041908, -2.03642]
  cfgLocDenParaK0s := [-0.00043057, -3.2435, -0.000385085, -2.97687, -0.000350298, -2.81502,
    -0.000326159, -2.71091, -0.000299563, -2.65448, -0.000294284, -2.60865, -0.000277938,
    -2.589, -0.000277091, -2.56983, -0.000272783, -2.56825, -0.000252706, -2.58996,
    -0.000247834, -2.63158, -0.00024379, -2.76976, -0.000286468, -2.92484, -0.000310149,
    -3.27746]
  cfgLocDenParaLambda := [-0.000510948, -4.4846, -0.000460629, -4.14465, -0.000433729,
    -3.94173, -0.000412751, -3.81839, -0.000411211, -3.72502, -0.000401511, -3.68426,
    -0.000407461, -3.67005, -0.000379371, -3.71153, -0.000392828, -3.73214, -0.000403996,
    -3.80717, -0.000403376, -3.90917, -0.000354624, -4.34629, -0.000477606, -4.66307,
    -0.000541139, -4.61364]
  cfgcheckDauTPC := true
  cfgcheckDauTOF := false
  cfgDoAccEffCorr := false
  cfgDoLocDenCorr := false
  cfgDoJackknife := false
  cfgOutputNUAWeights := false
  cfgOutputLocDenWeights := false
  cfgaxisPt := ⟨none, [0.20, 0.25, 0.30, 0.35, 0.40, 0.45, 0.50, 0.55, 0.60, 0.65, 0.70,
    0.75, 0.80, 0.85, 0.90, 0.95, 1.00, 1.10, 1.20, 1.30, 1.40, 1.50, 1.60, 1.70, 1.80, 1.90,
    2.00, 2.20, 2.40, 2.60, 2.80, 3.00, 3.50, 4.00, 4.50, 5.00, 5.50, 6.00, 10.0]⟩
  cfgaxisPtXi := ⟨none, [0.9, 1.1, 1.3, 1.5, 1.7, 1.9, 2.1, 2.3, 2.5, 2.7, 2.9, 3.9, 4.9,
    5.9, 9.9]⟩
  cfgaxisPtOmega := ⟨none, [0.9, 1.1, 1.3, 1.5, 1.7, 1.9, 2.1, 2.3, 2.5, 2.7, 2.9, 3.9, 4.9,
    5.9, 9.9]⟩
  cfgaxisPtV0 := ⟨none, [0.9, 1.1, 1.3, 1.5, 1.7, 1.9, 2.1, 2.3, 2.5, 2.7, 2.9, 3.9, 4.9,
    5.9, 9.9]⟩
  cfgaxisOmegaMassforflow := ⟨some 16, [1.63, 1.71]⟩
  cfgaxisXiMassforflow := ⟨some 14, [1.3, 1.37]⟩
  cfgaxisK0sMassforflow := ⟨some 40, [0.4, 0.6]⟩
  cfgaxisLambdaMassforflow := ⟨some 32, [1.08, 1.16]⟩

/-! ## Members set by `init` -/

/-- Number of pt bins of the charged-particle axis, `nPtBins`. -/
def nPtBins (cfg : Config) : Int := (cfg.cfgaxisPt.binEdges.length : Int) - 1
/-- Charged-particle pt axis, `fPtAxis`. -/
def fPtAxis (cfg : Config) : TAxis := TAxis.var cfg.cfgaxisPt.binEdges
/-- Number of pt bins of the cascade axis, `nXiPtBins`. -/
def nXiPtBins (cfg : Config) : Int := (cfg.cfgaxisPtXi.binEdges.length : Int) - 1
/-- Cascade pt axis, `fXiPtAxis`. -/
def fXiPtAxis (cfg : Config) : TAxis := TAxis.var cfg.cfgaxisPtXi.binEdges
/-- Number of pt bins of the V0 axis, `nV0PtBins`. -/
def nV0PtBins (cfg : Config) : Int := (cfg.cfgaxisPtV0.binEdges.length : Int) - 1
/-- V0 pt axis, `fV0PtAxis`. -/
def fV0PtAxis (cfg : Config) : TAxis := TAxis.var cfg.cfgaxisPtV0.binEdges

/-- Entry `i` of `cfgmassbins` (a copy of `cfgMassBins`); reading a missing entry, undefined
in C++, yields `0` here. -/
def cfgmassbins (cfg : Config) (i : Nat) : Int := cfg.cfgMassBins.getD i 0

/-- Internal Omega mass axis, `fOmegaMass`. -/
def fOmegaMass (cfg : Config) : TAxis := TAxis.fix (cfgmassbins cfg 3).toNat 1.63 1.71
/-- Internal Xi mass axis, `fXiMass`. -/
def fXiMass (cfg : Config) : TAxis := TAxis.fix (cfgmassbins cfg 2).toNat 1.3 1.37
/-- Internal K0s mass axis, `fK0sMass`. -/
def fK0sMass (cfg : Config) : TAxis := TAxis.fix (cfgmassbins cfg 0).toNat 0.4 0.6
/-- Internal Lambda mass axis, `fLambdaMass`. -/
def fLambdaMass (cfg : Config) : TAxis := TAxis.fix (cfgmassbins cfg 1).toNat 1.08 1.16

/-- The catalog `corrconfigs`, in the order of the `push_back` calls of `init`. -/
def corrconfigs : List CorrConfig :=
  [ ⟨"poiP10dpt {2} refN10 {-2}", "Poi10Gap22dpta", true⟩,
    ⟨"poiN10dpt {2} refP10 {-2}", "Poi10Gap22dptb", true⟩,
    ⟨"poifulldpt reffull | poioldpt {2 2 -2 -2}", "Poi10Gap24dpt", true⟩,
    ⟨"poiXiPdpt {2} refN10 {-2}", "Xi10Gap22a", true⟩,
    ⟨"poiXiNdpt {2} refP10 {-2}", "Xi10Gap22b", true⟩,
    ⟨"poiXifulldpt reffull {2 2 -2 -2}", "Xi10Gap24", true⟩,
    ⟨"poiOmegaPdpt {2} refN10 {-2}", "Omega10Gap22a", true⟩,
    ⟨"poiOmegaNdpt {2} refP10 {-2}", "Omega10Gap22b", true⟩,
    ⟨"poiOmegafulldpt reffull {2 2 -2 -2}", "Xi10Gap24", true⟩,
    ⟨"poiK0sPdpt {2} refN10 {-2}", "K0short10Gap22a", true⟩,
    ⟨"poiK0sNdpt {2} refP10 {-2}", "K0short10Gap22b", true⟩,
    ⟨"poiK0sfulldpt reffull {2 2 -2 -2}", "Xi10Gap24", true⟩,
    ⟨"poiLambdaPdpt {2} refN10 {-2}", "Lambda10Gap22a", true⟩,
    ⟨"poiLambdaNdpt {2} refP10 {-2}", "Lambda10Gap22b", true⟩,
    ⟨"poiLambdafulldpt reffull {2 2 -2 -2}", "Xi10Gap24a", true⟩,
    ⟨"refP10 {2} refN10 {-2}", "Ref10Gap22a", false⟩,
    ⟨"reffull reffull {2 2 -2 -2}", "Ref10Gap24", false⟩,
    ⟨"poiXiPdptMC {2} refN10MC {-2}", "MCXi10Gap22a", true⟩,
    ⟨"poiXiNdptMC {2} refP10MC {-2}", "MCXi10Gap22b", true⟩,
    ⟨"poiOmegaPdptMC {2} refN10MC {-2}", "MCOmega10Gap22a", true⟩,
    ⟨"poiOmegaNdptMC {2} refP10MC {-2}", "MCOmega10Gap22b", true⟩,
    ⟨"poiK0sPdptMC {2} refN10MC {-2}", "MCK0s10Gap22a", true⟩,
    ⟨"poiK0sNdptMC {2} refP10MC {-2}", "MCK0s10Gap22b", true⟩,
    ⟨"poiLambdaPdptMC {2} refN10MC {-2}", "MCLambda10Gap22a", true⟩,
    ⟨"poiLambdaNdptMC {2} refP10MC {-2}", "MCLambda10Gap22b", true⟩,
    ⟨"refP10MC {2} refN10MC {-2}", "MCRef10Gap22a", false⟩ ]

/-- Catalog entry `corrconfigs.at(k)`; the catalog has 26 entries. -/
def corrconfigsAt (k : Fin 26) : CorrConfig := corrconfigs.get ⟨k.val, k.isLt⟩

/-! ## Single-precision values

The helpers `fillProfilepT`, `fillProfilepTMC` and `fillProfilepTMass` keep the denominator
and the ratio in locals declared `float`; `fillProfile` keeps them in `double`.  A `double` is
taken as an exact rational; the narrowing to `float` is `toFloat`. -/

/-- Nearest integer, ties to the even one (the rounding mode of the conversion). -/
def roundHalfEven (q : ℚ) : Int :=
  if q - Int.floor q < 1 / 2 then Int.floor q
  else if 1 / 2 < q - Int.floor q then Int.floor q + 1
  else if Int.floor q % 2 = 0 then Int.floor q
  else Int.floor q + 1

/-- Conversion to `float` of a non-negative value: below the smallest normal number
`2^-126` the value is rounded to a multiple of `2^-149` (subnormal numbers and zero), from
there on to 24 significant bits.  The exponent is not bounded above: for values from
`(2^25 - 1) · 2^103` on, which the machine conversion sends to `+inf`, the result is the
rounding to 24 bits and not an infinity. -/
def toFloatAbs (a : ℚ) : ℚ :=
  if a < 2 ^ (-126 : Int) then (roundHalfEven (a * 2 ^ (149 : Int)) : ℚ) * 2 ^ (-149 : Int)
  else (roundHalfEven (a / 2 ^ (Int.log 2 a - 23)) : ℚ) * 2 ^ (Int.log 2 a - 23)

/-- Conversion of a `double` to `float` (IEEE 754 binary32, round to nearest, ties to
even), as done by the assignments `dnx = ...` and `val = ...` to `float` locals. -/
def toFloat (q : ℚ) : ℚ :=
  if q < 0 then -toFloatAbs (-q) else toFloatAbs q

/-- The value lies in the range that the conversion to `float` sends to a finite number:
its magnitude is below `(2^25 - 1) · 2^103 = FLT_MAX + 2^103`. -/
def inFloatRange (q : ℚ) : Prop := |q| < (2 ^ 25 - 1) * 2 ^ 103

/-! ## Fill helpers

`calcRe corrconf bin flag` stands for `fGFW->Calculate(corrconf, bin, flag).real()` in the
current state of the engine. -/

/-- The overload of `fillProfile` taking `HIST("name")`. -/
def fillProfile (calcRe : CorrConfig → Int → Bool → ℚ) (corrconf : CorrConfig)
    (tarName : String) (cent : ℚ) : List Effect :=
  let dnx := calcRe corrconf 0 true
  Effect.gfwCalculate corrconf 0 true ::
    (if dnx = 0 then []
     else if corrconf.pTDif = false then
       let val := calcRe corrconf 0 false / dnx
       Effect.gfwCalculate corrconf 0 false ::
         (if |val| < 1 then [Effect.profFill (Target.hist tarName) ⟨[cent], val, dnx⟩]
          else [])
     else [])

/-- The overload of `fillProfile` taking a `shared_ptr<TProfile>`. -/
def fillProfilePtr (calcRe : CorrConfig → Int → Bool → ℚ) (corrconf : CorrConfig)
    (TProfile : Target) (cent : ℚ) : List Effect :=
  let dnx := calcRe corrconf 0 true
  Effect.gfwCalculate corrconf 0 true ::
    (if dnx = 0 then []
     else if corrconf.pTDif = false then
       let val := calcRe corrconf 0 false / dnx
       Effect.gfwCalculate corrconf 0 false ::
         (if |val| < 1 then [Effect.profFill TProfile ⟨[cent], val, dnx⟩] else [])
     else [])

/-- Helper `fillProfilepT`; `dnx` and `val` are `float` locals. -/
def fillProfilepT (cfg : Config) (calcRe : CorrConfig → Int → Bool → ℚ) (corrconf : CorrConfig)
    (tarName : String) (ptbin : Int) (cent : ℚ) : List Effect :=
  let dnx := toFloat (calcRe corrconf (ptbin - 1) true)
  Effect.gfwCalculate corrconf (ptbin - 1) true ::
    (if dnx = 0 then []
     else
       let val := toFloat (calcRe corrconf (ptbin - 1) false / dnx)
       Effect.gfwCalculate corrconf (ptbin - 1) false ::
         (if |val| < 1 then
            [Effect.profFill (Target.hist tarName)
              ⟨[(fPtAxis cfg).GetBinCenter ptbin, cent], val, dnx⟩]
          else []))

/-- The pt axis chosen by `fillProfilepTMC` for a species, `none` for the error branch. -/
def ptAxisOfPDG (cfg : Config) (PDGCode : Int) : Option TAxis :=
  if PDGCode = kXiMinus then some (fXiPtAxis cfg)
  else if PDGCode = kOmegaMinus then some (fXiPtAxis cfg)
  else if PDGCode = kK0Short then some (fV0PtAxis cfg)
  else if PDGCode = kLambda0 then some (fV0PtAxis cfg)
  else none

/-- Helper `fillProfilepTMC`; `dnx` and `val` are `float` locals. -/
def fillProfilepTMC (cfg : Config) (calcRe : CorrConfig → Int → Bool → ℚ)
    (corrconf : CorrConfig) (tarName : String) (ptbin : Int) (PDGCode : Int) (cent : ℚ) :
    List Effect :=
  match ptAxisOfPDG cfg PDGCode with
  | none => []
  | some fpt =>
    let dnx := toFloat (calcRe corrconf (ptbin - 1) true)
    Effect.gfwCalculate corrconf (ptbin - 1) true ::
      (if dnx = 0 then []
       else
         let val := toFloat (calcRe corrconf (ptbin - 1) false / dnx)
         Effect.gfwCalculate corrconf (ptbin - 1) false ::
           (if |val| < 1 then
              [Effect.profFill (Target.hist tarName) ⟨[fpt.GetBinCenter ptbin, cent], val, dnx⟩]
            else []))

/-- The locals `nMassBins`, `nptbins`, `fpt`, `fMass` that `fillProfilepTMass` selects for a
species. -/
structure MassBinning where
  nMassBins : Int
  nptbins : Int
  fpt : TAxis
  fMass : TAxis

/-- Species dispatch at the head of `fillProfilepTMass` (the same in both overloads);
`none` for the error branch. -/
def massBinningOfPDG (cfg : Config) (PDGCode : Int) : Option MassBinning :=
  if PDGCode = kXiMinus then
    some ⟨cfgmassbins cfg 2, nXiPtBins cfg, fXiPtAxis cfg, fXiMass cfg⟩
  else if PDGCode = kOmegaMinus then
    some ⟨cfgmassbins cfg 3, nXiPtBins cfg, fXiPtAxis cfg, fOmegaMass cfg⟩
  else if PDGCode = kK0Short then
    some ⟨cfgmassbins cfg 0, nV0PtBins cfg, fV0PtAxis cfg, fK0sMass cfg⟩
  else if PDGCode = kLambda0 then
    some ⟨cfgmassbins cfg 1, nV0PtBins cfg, fV0PtAxis cfg, fLambdaMass cfg⟩
  else none

/-- The values `1, 2, ..., n` of a loop `for (int i = 1; i <= n; i++)`. -/
def loopFromOne (n : Int) : List Int :=
  (List.range n.toNat).map (fun k : Nat => (k : Int) + 1)

/-- Body of the mass-bin loop of `fillProfilepTMass` (the same in both overloads), for the
profile `tar`; `dnx` and `val` are `float` locals.  The parameter `cent` is a
`const float&`; the callers pass the `float` centrality of the collision, which the
conversion leaves as it is. -/
def massBinStep (calcRe : CorrConfig → Int → Bool → ℚ) (corrconf : CorrConfig) (tar : Target)
    (mb : MassBinning) (ptbin : Int) (cent : ℚ) (massbin : Int) : List Effect :=
  let dnx := toFloat (calcRe corrconf ((ptbin - 1) + ((massbin - 1) * mb.nptbins)) true)
  Effect.gfwCalculate corrconf ((ptbin - 1) + ((massbin - 1) * mb.nptbins)) true ::
    (if dnx = 0 then []
     else
       let val :=
         toFloat (calcRe corrconf ((ptbin - 1) + ((massbin - 1) * mb.nptbins)) false / dnx)
       Effect.gfwCalculate corrconf ((ptbin - 1) + ((massbin - 1) * mb.nptbins)) false ::
         (if |val| < 1 then
            [Effect.profFill tar
              ⟨[mb.fpt.GetBinCenter ptbin, mb.fMass.GetBinCenter massbin, cent], val, dnx⟩]
          else []))

/-- The overload of `fillProfilepTMass` taking `HIST("name")`. -/
def fillProfilepTMass (cfg : Config) (calcRe : CorrConfig → Int → Bool → ℚ)
    (corrconf : CorrConfig) (tarName : String) (ptbin : Int) (PDGCode : Int) (cent : ℚ) :
    List Effect :=
  match massBinningOfPDG cfg PDGCode with
  | none => []
  | some mb =>
    (loopFromOne mb.nMassBins).flatMap
      (fun massbin => massBinStep calcRe corrconf (Target.hist tarName) mb ptbin cent massbin)

/-- The overload of `fillProfilepTMass` taking a `shared_ptr<TProfile3D>`. -/
def fillProfilepTMassPtr (cfg : Config) (calcRe : CorrConfig → Int → Bool → ℚ)
    (corrconf : CorrConfig) (TProfile3D : Target) (ptbin : Int) (PDGCode : Int) (cent : ℚ) :
    List Effect :=
  match massBinningOfPDG cfg PDGCode with
  | none => []
  | some mb =>
    (loopFromOne mb.nMassBins).flatMap
      (fun massbin => massBinStep calcRe corrconf TProfile3D mb ptbin cent massbin)

/-! ## Collaborators and input tables -/

/-- Acceptance-weight object (`GFWWeights`); the task only calls `getNUA(phi, eta, vtxz)`. -/
structure GFWWeights where
  getNUA : ℚ → ℚ → ℚ → ℚ

/-- ROOT one-dimensional histogram: its axis and the weighted entries filled so far. -/
structure TH1D where
  fXaxis : TAxis
  entries : List (ℚ × ℚ)

namespace TH1D

/-- Weighted fill, `TH1::Fill(x, w)`. -/
def Fill (h : TH1D) (x w : ℚ) : TH1D := { h with entries := h.entries ++ [(x, w)] }

/-- Bin of `x`, `TH1::FindBin`. -/
def FindBin (h : TH1D) (x : ℚ) : Int := h.fXaxis.FindBin x

/-- Content of a bin, `TH1::GetBinContent`. -/
def GetBinContent (h : TH1D) (bin : Int) : ℚ :=
  ((h.entries.filter (fun e => decide (h.fXaxis.FindBin e.1 = bin))).map (fun e => e.2)).sum

/-- Sum of the bin contents over a range of bins, `TH1::Integral(binx1, binx2)`. -/
def Integral (h : TH1D) (binx1 binx2 : Int) : ℚ :=
  let nx : Int := (h.fXaxis.GetNbins : Int) + 2
  let b1 := if binx1 < 0 then 0 else binx1
  let b2 := if nx ≤ binx2 ∨ binx2 < b1 then nx - 1 else binx2
  ((List.range (b2 - b1 + 1).toNat).map (fun k : Nat => h.GetBinContent (b1 + (k : Int)))).sum

end TH1D

/-- Collaborators of the task whose code lies outside the task file.  `G` is the state of
the flow-vector engine. -/
structure Env (G : Type) where
  gfwClear : G → G
  gfwFill : G → ℚ → Int → ℚ → ℚ → Nat → G
  gfwCalculate : G → CorrConfig → Int → Bool → ℚ
  ccdbAcceptance : String → Nat → GFWWeights
  ccdbEfficiency : String → Nat → TH1D
  fMultPVCutLow : ℚ → ℚ
  fMultPVCutHigh : ℚ → ℚ
  fT0AV0AMean : ℚ → ℚ
  fT0AV0ASigma : ℚ → ℚ
  sqrt : ℚ → ℚ
  exp : ℚ → ℚ
  constrainAngle : ℚ → ℚ → ℚ
  TwoPI : ℚ
  PI : ℚ
  MassK0Short : ℚ
  MassLambda : ℚ
  MassLambda0 : ℚ

/-- State of the engine after a run of effects: `Clear` and `Fill` act on it, `Calculate`
is a `const` read. -/
def gfwRun {G : Type} (E : Env G) (g : G) : List Effect → G
  | [] => g
  | Effect.gfwClear :: rest => gfwRun E (E.gfwClear g) rest
  | Effect.gfwFill eta ptin phi weight mask :: rest =>
      gfwRun E (E.gfwFill g eta ptin phi weight mask) rest
  | _ :: rest => gfwRun E g rest

/-- Row of the filtered track table `AodTracks`. -/
structure Track where
  eta : ℚ
  pt : ℚ
  phi : ℚ
  tpcChi2NCl : ℚ
  hasTPC : Bool
  hasITS : Bool

/-- Row of `DaughterTracks`. -/
structure DaughterTrack where
  pt : ℚ
  tpcNSigmaPi : ℚ
  tpcNSigmaKa : ℚ
  tpcNSigmaPr : ℚ
  tofNSigmaPi : ℚ
  tofNSigmaKa : ℚ
  tofNSigmaPr : ℚ
  tpcNClsFound : Int
  tpcNClsFindable : Int
  tpcCrossedRowsOverFindableCls : ℚ
  itsNCls : Int
  hasTPC : Bool

/-- Row of `aod::V0Datas` with its two daughters. -/
structure V0 where
  posTrack : DaughterTrack
  negTrack : DaughterTrack
  alpha : ℚ
  qtarm : ℚ
  mK0Short : ℚ
  mLambda : ℚ
  pt : ℚ
  eta : ℚ
  phi : ℚ
  v0radius : ℚ
  v0cosPA : ℚ
  dcaV0daughters : ℚ
  dcapostopv : ℚ
  dcanegtopv : ℚ

/-- Row of `aod::CascDataExt` with its three daughters; `casccosPA`, `v0cosPA` and
`dcav0topv` are the values for the position of the collision being processed. -/
structure Cascade where
  bachelor : DaughterTrack
  posTrack : DaughterTrack
  negTrack : DaughterTrack
  sign : Int
  mOmega : ℚ
  mXi : ℚ
  yOmega : ℚ
  yXi : ℚ
  mLambda : ℚ
  pt : ℚ
  eta : ℚ
  phi : ℚ
  cascradius : ℚ
  casccosPA : ℚ
  v0cosPA : ℚ
  dcav0topv : ℚ
  dcabachtopv : ℚ
  dcacascdaughters : ℚ
  dcaV0daughters : ℚ

/-- Row of the filtered collision table `AodCollisions`, with the timestamp of its bunch
crossing. -/
structure Collision where
  alias_kTVXinTRD : Bool
  kNoTimeFrameBorder : Bool
  kNoITSROFrameBorder : Bool
  kNoSameBunchPileup : Bool
  kIsGoodZvtxFT0vsPV : Bool
  kNoCollInTimeRangeStandard : Bool
  kIsGoodITSLayersAll : Bool
  numContrib : Int
  posZ : ℚ
  covZZ : ℚ
  multNTracksPV : Int
  trackOccupancyInTimeRange : Int
  multFV0A : ℚ
  multFT0A : ℚ
  centFT0C : ℚ
  sel8 : Bool
  timestamp : Nat

/-- Generated particle (`aod::McParticles` joined with `aod::ParticlesToTracks`). -/
structure McParticle where
  isPhysicalPrimary : Bool
  has_tracks : Bool
  tracks : List Track
  pdgCode : Int
  eta : ℚ
  pt : ℚ
  phi : ℚ

/-- The members of the task that event processing mutates. -/
structure Members where
  mAcceptance : List GFWWeights
  mEfficiency : List TH1D
  correctionsLoaded : Bool

/-! ## Calibration and weights -/

/-- Method `loadCorrections`: the objects fetched for the five paths are appended to
`mAcceptance` and `mEfficiency`. -/
def loadCorrections {G : Type} (E : Env G) (cfg : Config) (m : Members) (timestamp : Nat) :
    Members :=
  if m.correctionsLoaded then m
  else
    let acc :=
      if cfg.cfgAcceptancePath.length = 5 then
        m.mAcceptance ++
          (List.range 5).map (fun i => E.ccdbAcceptance (cfg.cfgAcceptancePath.getD i "") timestamp)
      else m.mAcceptance
    let eff :=
      if cfg.cfgEfficiencyPath.length = 5 then
        m.mEfficiency ++
          (List.range 5).map (fun i => E.ccdbEfficiency (cfg.cfgEfficiencyPath.getD i "") timestamp)
      else m.mEfficiency
    ⟨acc, eff, true⟩

/-- Method `setCurrentParticleWeights`: the result and the values of the reference
parameters `weight_nue`, `weight_nua` on return. -/
def setCurrentParticleWeights (m : Members) (weight_nue weight_nua : ℚ) (pt phi eta : ℚ)
    (vtxz : ℚ) (ispecies : Nat) : Bool × ℚ × ℚ :=
  let eff : ℚ :=
    if m.mEfficiency.length = 5 then
      match m.mEfficiency.get? ispecies with
      | some h => h.GetBinContent (h.FindBin pt)
      | none => 1
    else 1
  if eff = 0 then (false, weight_nue, weight_nua)
  else
    let nue := 1 / eff
    let nua :=
      if m.mAcceptance.length = 5 then
        match m.mAcceptance.get? ispecies with
        | some a => a.getNUA phi eta vtxz
        | none => 1
      else 1
    (true, nue, nua)

/-- Method `setCurrentLocalDensityWeights`: the result and the value of the reference
parameter `weight_loc` on return. -/
def setCurrentLocalDensityWeights {G : Type} (E : Env G) (cfg : Config) (pt : ℚ)
    (locDensity : ℚ) (ispecies : Int) : Bool × ℚ :=
  let cfgLocDenPara : List (List ℚ) :=
    [cfg.cfgLocDenParaK0s, cfg.cfgLocDenParaLambda, cfg.cfgLocDenParaXi, cfg.cfgLocDenParaOmega]
  let ptbin := (fXiPtAxis cfg).FindBin pt
  if ptbin = 0 ∨ ptbin = ((fXiPtAxis cfg).GetNbins : Int) + 1 then (true, 1)
  else
    let paraA := (cfgLocDenPara.getD (ispecies - 1).toNat []).getD (2 * ptbin - 2).toNat 0
    let paraB := (cfgLocDenPara.getD (ispecies - 1).toNat []).getD (2 * ptbin - 1).toNat 0
    let density := locDensity * 200 / ((2 * cfg.cfgDeltaPhiLocDen + 1 : Int) : ℚ)
    let eff := E.exp (paraA * density + paraB)
    (true, 1 / eff)

/-! ## Event selection -/

/-- Method `eventSelected`. -/
def eventSelected {G : Type} (E : Env G) (cfg : Config) (collision : Collision)
    (centrality : ℚ) : Bool :=
  if collision.alias_kTVXinTRD then false
  else if !collision.kNoTimeFrameBorder then false
  else if !collision.kNoITSROFrameBorder then false
  else if !collision.kNoSameBunchPileup then false
  else if !collision.kIsGoodZvtxFT0vsPV then false
  else if !collision.kNoCollInTimeRangeStandard then false
  else if !collision.kIsGoodITSLayersAll then false
  else
    let vtxz : ℚ :=
      if collision.numContrib > 1 then
        if E.sqrt collision.covZZ > 0.25 ∧ collision.numContrib < 20 then -999
        else collision.posZ
      else -999
    if |vtxz| > cfg.cfgCutVertex then false
    else if (collision.multNTracksPV : ℚ) < E.fMultPVCutLow centrality then false
    else if (collision.multNTracksPV : ℚ) > E.fMultPVCutHigh centrality then false
    else if collision.trackOccupancyInTimeRange > cfg.cfgCutOccupancyHigh then false
    else if |collision.multFV0A - E.fT0AV0AMean collision.multFT0A|
        > 5 * E.fT0AV0ASigma collision.multFT0A then false
    else true

/-! ## `processData` -/

/-- Entry `i` of `cfgNSigma` (a copy of `cfgNSigmatpctof`). -/
def cfgNSigma (cfg : Config) (i : Nat) : ℚ := cfg.cfgNSigmatpctof.getD i 0

/-- The locals `weff`, `wacc`, `wloc` of `processData`, declared before the particle loops. -/
structure Weights where
  weff : ℚ
  wacc : ℚ
  wloc : ℚ

/-- The locals that the reference-track loop of `processData` carries from one track to the
next. -/
structure TrackLoopState where
  weff : ℚ
  wacc : ℚ
  hLocalDensity : TH1D
  nch : ℚ

/-- Body of the loop over `tracks` in `processData`: the locals after the iteration and the
effects of the iteration. -/
def trackStep {G : Type} (E : Env G) (cfg : Config) (m : Members) (vtxz : ℚ)
    (s : TrackLoopState) (track : Track) : TrackLoopState × List Effect :=
  let r : Bool × ℚ × ℚ :=
    if cfg.cfgDoAccEffCorr then
      setCurrentParticleWeights m s.weff s.wacc track.pt track.phi track.eta vtxz 0
    else (true, s.weff, s.wacc)
  if r.1 = false then (s, [])
  else
    let weff := r.2.1
    let wacc := r.2.2
    let ptbin := (fPtAxis cfg).FindBin track.pt - 1
    let refFill : List Effect :=
      if track.pt > cfg.cfgCutPtMin ∧ track.pt < cfg.cfgCutPtMax then
        [Effect.gfwFill track.eta ptbin track.phi (wacc * weff) 1]
      else []
    if track.pt > cfg.cfgCutPtPOIMin ∧ track.pt < cfg.cfgCutPtPOIMax then
      let poiFill : List Effect := [Effect.gfwFill track.eta ptbin track.phi (wacc * weff) 32]
      if cfg.cfgDoLocDenCorr then
        (⟨weff, wacc,
            (s.hLocalDensity.Fill track.phi (wacc * weff)).Fill
              (E.constrainAngle track.phi (-E.TwoPI)) (wacc * weff),
            s.nch + 1⟩,
          refFill ++ poiFill)
      else (⟨weff, wacc, s.hLocalDensity, s.nch⟩, refFill ++ poiFill)
    else (⟨weff, wacc, s.hLocalDensity, s.nch⟩, refFill)

/-- The loop over `tracks` in `processData`. -/
def trackLoop {G : Type} (E : Env G) (cfg : Config) (m : Members) (vtxz : ℚ) :
    TrackLoopState → List Track → TrackLoopState × List Effect
  | s, [] => (s, [])
  | s, track :: rest =>
      let r := trackStep E cfg m vtxz s track
      let r2 := trackLoop E cfg m vtxz r.1 rest
      (r2.1, r.2 ++ r2.2)

/-- The block repeated for each species before its `fGFW->Fill`: the weights after the calls
of `setCurrentParticleWeights` (result ignored) and `setCurrentLocalDensityWeights`. -/
def candWeights {G : Type} (E : Env G) (cfg : Config) (m : Members) (hLocalDensity : TH1D)
    (vtxz : ℚ) (w : Weights) (pt phi eta : ℚ) (ispecies : Nat) : Weights :=
  let w1 : Weights :=
    if cfg.cfgDoAccEffCorr then
      let r := setCurrentParticleWeights m w.weff w.wacc pt phi eta vtxz ispecies
      ⟨r.2.1, r.2.2, w.wloc⟩
    else w
  if cfg.cfgDoLocDenCorr then
    let phibin := hLocalDensity.FindBin (E.constrainAngle phi (-E.PI))
    if phibin > -900 then
      let density :=
        hLocalDensity.Integral (phibin - cfg.cfgDeltaPhiLocDen) (phibin + cfg.cfgDeltaPhiLocDen)
      ⟨w1.weff, w1.wacc, (setCurrentLocalDensityWeights E cfg pt density (ispecies : Int)).2⟩
    else w1
  else w1

/-- K0short candidate selection of `processData`. -/
def v0IsK0s {G : Type} (E : Env G) (cfg : Config) (v0 : V0) : Bool :=
  decide (v0.qtarm / |v0.alpha| > cfg.cfgv0_ArmPodocut ∧
    |v0.mK0Short - E.MassK0Short| < cfg.cfgv0_mk0swindow ∧
    (cfg.cfgcheckDauTPC = false ∨
      (|v0.posTrack.tpcNSigmaPi| < cfgNSigma cfg 0 ∧ |v0.negTrack.tpcNSigmaPi| < cfgNSigma cfg 0)) ∧
    (cfg.cfgcheckDauTOF = false ∨
      ((|v0.posTrack.tofNSigmaPi| < cfgNSigma cfg 3 ∨ v0.posTrack.pt < 0.4) ∧
        (|v0.negTrack.tofNSigmaPi| < cfgNSigma cfg 3 ∨ v0.negTrack.pt < 0.4))))

/-- Lambda and anti-Lambda candidate selection of `processData`. -/
def v0IsLambda {G : Type} (E : Env G) (cfg : Config) (v0 : V0) : Bool :=
  decide ((|v0.mLambda - E.MassLambda| < cfg.cfgv0_mlambdawindow ∧
    (cfg.cfgcheckDauTPC = false ∨
      (|v0.posTrack.tpcNSigmaPr| < cfgNSigma cfg 1 ∧ |v0.negTrack.tpcNSigmaPi| < cfgNSigma cfg 0)) ∧
    (cfg.cfgcheckDauTOF = false ∨
      ((|v0.posTrack.tofNSigmaPr| < cfgNSigma cfg 4 ∨ v0.posTrack.pt < 0.4) ∧
        (|v0.negTrack.tofNSigmaPi| < cfgNSigma cfg 3 ∨ v0.negTrack.pt < 0.4)))) ∨
   (|v0.mLambda - E.MassLambda| < cfg.cfgv0_mlambdawindow ∧
    (cfg.cfgcheckDauTPC = false ∨
      (|v0.negTrack.tpcNSigmaPr| < cfgNSigma cfg 1 ∧ |v0.posTrack.tpcNSigmaPi| < cfgNSigma cfg 0)) ∧
    (cfg.cfgcheckDauTOF = false ∨
      ((|v0.negTrack.tofNSigmaPr| < cfgNSigma cfg 4 ∨ v0.negTrack.pt < 0.4) ∧
        (|v0.posTrack.tofNSigmaPi| < cfgNSigma cfg 3 ∨ v0.posTrack.pt < 0.4)))))

/-- Track-quality and topological cuts on a V0: `true` when no `continue` is taken. -/
def v0PassesCuts (cfg : Config) (v0 : V0) : Bool :=
  if v0.posTrack.tpcNClsFound < cfg.cfgtpcclusters then false
  else if v0.negTrack.tpcNClsFound < cfg.cfgtpcclusters then false
  else if v0.posTrack.tpcNClsFindable < cfg.cfgtpcclufindable then false
  else if v0.negTrack.tpcNClsFindable < cfg.cfgtpcclufindable then false
  else if v0.posTrack.tpcCrossedRowsOverFindableCls < (cfg.cfgtpccrossoverfindable : ℚ) then false
  else if v0.posTrack.itsNCls < cfg.cfgitsclusters then false
  else if v0.negTrack.itsNCls < cfg.cfgitsclusters then false
  else if v0.v0radius < cfg.cfgv0_radius then false
  else if v0.v0cosPA < cfg.cfgv0_v0cospa then false
  else if v0.dcaV0daughters > cfg.cfgv0_dcav0dau then false
  else if |v0.dcapostopv| < cfg.cfgv0_dcadautopv then false
  else if |v0.dcanegtopv| < cfg.cfgv0_dcadautopv then false
  else true

/-- Body of the loop over `V0s` in `processData`. -/
def v0Step {G : Type} (E : Env G) (cfg : Config) (m : Members) (hLocalDensity : TH1D)
    (vtxz : ℚ) (w : Weights) (v0 : V0) : Weights × List Effect :=
  let isK0s := v0IsK0s E cfg v0
  let isLambda := v0IsLambda E cfg v0
  if isK0s = false ∧ isLambda = false then (w, [])
  else if v0PassesCuts cfg v0 = false then (w, [])
  else
    let rK : Weights × List Effect :=
      if isK0s then
        let wK := candWeights E cfg m hLocalDensity vtxz w v0.pt v0.phi v0.eta 1
        (wK, [Effect.gfwFill v0.eta
          ((fV0PtAxis cfg).FindBin v0.pt - 1
            + (((fK0sMass cfg).FindBin v0.mK0Short - 1) * nV0PtBins cfg))
          v0.phi (wK.wacc * wK.weff * wK.wloc) 8])
      else (w, [])
    let rL : Weights × List Effect :=
      if isLambda then
        let wL := candWeights E cfg m hLocalDensity vtxz rK.1 v0.pt v0.phi v0.eta 2
        (wL, [Effect.gfwFill v0.eta
          ((fV0PtAxis cfg).FindBin v0.pt - 1
            + (((fLambdaMass cfg).FindBin v0.mLambda - 1) * nV0PtBins cfg))
          v0.phi (wL.wacc * wL.weff * wL.wloc) 16])
      else (rK.1, [])
    (rL.1, rK.2 ++ rL.2)

/-- The loop over `V0s` in `processData`. -/
def v0Loop {G : Type} (E : Env G) (cfg : Config) (m : Members) (hLocalDensity : TH1D)
    (vtxz : ℚ) : Weights → List V0 → Weights × List Effect
  | w, [] => (w, [])
  | w, v0 :: rest =>
      let r := v0Step E cfg m hLocalDensity vtxz w v0
      let r2 := v0Loop E cfg m hLocalDensity vtxz r.1 rest
      (r2.1, r.2 ++ r2.2)

/-- Omega and anti-Omega candidate selection of `processData`. -/
def cascIsOmega (cfg : Config) (casc : Cascade) : Bool :=
  decide ((casc.sign < 0 ∧ casc.mOmega > 1.63 ∧ casc.mOmega < 1.71 ∧
    |casc.yOmega| < cfg.cfgCasc_rapidity ∧
    (cfg.cfgcheckDauTPC = false ∨
      (|casc.bachelor.tpcNSigmaKa| < cfgNSigma cfg 2 ∧
        |casc.posTrack.tpcNSigmaPr| < cfgNSigma cfg 1 ∧
        |casc.negTrack.tpcNSigmaPi| < cfgNSigma cfg 0)) ∧
    (cfg.cfgcheckDauTOF = false ∨
      ((|casc.bachelor.tofNSigmaKa| < cfgNSigma cfg 5 ∨ casc.bachelor.pt < 0.4) ∧
        (|casc.posTrack.tofNSigmaPr| < cfgNSigma cfg 4 ∨ casc.posTrack.pt < 0.4) ∧
        (|casc.negTrack.tofNSigmaPi| < cfgNSigma cfg 3 ∨ casc.negTrack.pt < 0.4)))) ∨
   (casc.sign > 0 ∧ casc.mOmega > 1.63 ∧ casc.mOmega < 1.71 ∧
    |casc.yOmega| < cfg.cfgCasc_rapidity ∧
    (cfg.cfgcheckDauTPC = false ∨
      (|casc.bachelor.tpcNSigmaKa| < cfgNSigma cfg 2 ∧
        |casc.negTrack.tpcNSigmaPr| < cfgNSigma cfg 1 ∧
        |casc.posTrack.tpcNSigmaPi| < cfgNSigma cfg 0)) ∧
    (cfg.cfgcheckDauTOF = false ∨
      ((|casc.bachelor.tofNSigmaKa| < cfgNSigma cfg 5 ∨ casc.bachelor.pt < 0.4) ∧
        (|casc.negTrack.tofNSigmaPr| < cfgNSigma cfg 4 ∨ casc.negTrack.pt < 0.4) ∧
        (|casc.posTrack.tofNSigmaPi| < cfgNSigma cfg 3 ∨ casc.posTrack.pt < 0.4)))))

/-- Xi and anti-Xi candidate selection of `processData`. -/
def cascIsXi (cfg : Config) (casc : Cascade) : Bool :=
  decide ((casc.sign < 0 ∧ casc.mXi > 1.30 ∧ casc.mXi < 1.37 ∧
    |casc.yXi| < cfg.cfgCasc_rapidity ∧
    (cfg.cfgcheckDauTPC = false ∨
      (|casc.bachelor.tpcNSigmaPi| < cfgNSigma cfg 0 ∧
        |casc.posTrack.tpcNSigmaPr| < cfgNSigma cfg 1 ∧
        |casc.negTrack.tpcNSigmaPi| < cfgNSigma cfg 0)) ∧
    (cfg.cfgcheckDauTOF = false ∨
      ((|casc.bachelor.tofNSigmaPi| < cfgNSigma cfg 3 ∨ casc.bachelor.pt < 0.4) ∧
        (|casc.posTrack.tofNSigmaPr| < cfgNSigma cfg 4 ∨ casc.posTrack.pt < 0.4) ∧
        (|casc.negTrack.tofNSigmaPi| < cfgNSigma cfg 3 ∨ casc.negTrack.pt < 0.4)))) ∨
   (casc.sign > 0 ∧ casc.mXi > 1.30 ∧ casc.mXi < 1.37 ∧
    |casc.yXi| < cfg.cfgCasc_rapidity ∧
    (cfg.cfgcheckDauTPC = false ∨
      (|casc.bachelor.tpcNSigmaPi| < cfgNSigma cfg 0 ∧
        |casc.negTrack.tpcNSigmaPr| < cfgNSigma cfg 1 ∧
        |casc.posTrack.tpcNSigmaPi| < cfgNSigma cfg 0)) ∧
    (cfg.cfgcheckDauTOF = false ∨
      ((|casc.bachelor.tofNSigmaPi| < cfgNSigma cfg 3 ∨ casc.bachelor.pt < 0.4) ∧
        (|casc.negTrack.tofNSigmaPr| < cfgNSigma cfg 4 ∨ casc.negTrack.pt < 0.4) ∧
        (|casc.posTrack.tofNSigmaPi| < cfgNSigma cfg 3 ∨ casc.posTrack.pt < 0.4)))))

/-- Topological and track-quality cuts on a cascade: `true` when no `continue` is taken. -/
def cascPassesCuts {G : Type} (E : Env G) (cfg : Config) (casc : Cascade) : Bool :=
  if casc.cascradius < cfg.cfgcasc_radius then false
  else if casc.casccosPA < cfg.cfgcasc_casccospa then false
  else if casc.v0cosPA < cfg.cfgcasc_v0cospa then false
  else if |casc.dcav0topv| < cfg.cfgcasc_dcav0topv then false
  else if |casc.dcabachtopv| < cfg.cfgcasc_dcabachtopv then false
  else if casc.dcacascdaughters > cfg.cfgcasc_dcacascdau then false
  else if casc.dcaV0daughters > cfg.cfgcasc_dcav0dau then false
  else if |casc.mLambda - E.MassLambda0| > cfg.cfgcasc_mlambdawindow then false
  else if casc.bachelor.tpcNClsFound < cfg.cfgtpcclusters then false
  else if casc.posTrack.tpcNClsFound < cfg.cfgtpcclusters then false
  else if casc.negTrack.tpcNClsFound < cfg.cfgtpcclusters then false
  else if casc.bachelor.itsNCls < cfg.cfgitsclusters then false
  else if casc.posTrack.itsNCls < cfg.cfgitsclusters then false
  else if casc.negTrack.itsNCls < cfg.cfgitsclusters then false
  else true

/-- Body of the loop over `Cascades` in `processData`. -/
def cascStep {G : Type} (E : Env G) (cfg : Config) (m : Members) (hLocalDensity : TH1D)
    (vtxz : ℚ) (w : Weights) (casc : Cascade) : Weights × List Effect :=
  if cfg.cfgcheckDauTPC = true ∧
      (casc.posTrack.hasTPC = false ∨ casc.negTrack.hasTPC = false ∨
        casc.bachelor.hasTPC = false) then (w, [])
  else
    let isOmega := cascIsOmega cfg casc
    let isXi := cascIsXi cfg casc
    if isXi = false ∧ isOmega = false then (w, [])
    else if cascPassesCuts E cfg casc = false then (w, [])
    else
      let rO : Weights × List Effect :=
        if isOmega then
          let wO := candWeights E cfg m hLocalDensity vtxz w casc.pt casc.phi casc.eta 4
          (wO, [Effect.gfwFill casc.eta
            ((fXiPtAxis cfg).FindBin casc.pt - 1
              + (((fOmegaMass cfg).FindBin casc.mOmega - 1) * nXiPtBins cfg))
            casc.phi (wO.wacc * wO.weff * wO.wloc) 4])
        else (w, [])
      let rX : Weights × List Effect :=
        if isXi then
          let wX := candWeights E cfg m hLocalDensity vtxz rO.1 casc.pt casc.phi casc.eta 3
          (wX, [Effect.gfwFill casc.eta
            ((fXiPtAxis cfg).FindBin casc.pt - 1
              + (((fXiMass cfg).FindBin casc.mXi - 1) * nXiPtBins cfg))
            casc.phi (wX.wacc * wX.weff * wX.wloc) 2])
        else (rO.1, [])
      (rX.1, rO.2 ++ rX.2)

/-- The loop over `Cascades` in `processData`. -/
def cascLoop {G : Type} (E : Env G) (cfg : Config) (m : Members) (hLocalDensity : TH1D)
    (vtxz : ℚ) : Weights → List Cascade → Weights × List Effect
  | w, [] => (w, [])
  | w, casc :: rest =>
      let r := cascStep E cfg m hLocalDensity vtxz w casc
      let r2 := cascLoop E cfg m hLocalDensity vtxz r.1 rest
      (r2.1, r.2 ++ r2.2)

/-- The full-sample profile fills of `processData` (from `fillProfile(corrconfigs.at(15),
HIST("c22"), cent)` to the end of the loop over `nXiPtBins`). -/
def fillFullSample (cfg : Config) (calcRe : CorrConfig → Int → Bool → ℚ) (cent : ℚ) :
    List Effect :=
  fillProfile calcRe (corrconfigsAt 15) "c22" cent ++
  fillProfile calcRe (corrconfigsAt 16) "c24" cent ++
  (loopFromOne (nPtBins cfg)).flatMap (fun i =>
    fillProfilepT cfg calcRe (corrconfigsAt 0) "c22dpt" i cent ++
    fillProfilepT cfg calcRe (corrconfigsAt 1) "c22dpt" i cent ++
    fillProfilepT cfg calcRe (corrconfigsAt 2) "c24dpt" i cent) ++
  (loopFromOne (nV0PtBins cfg)).flatMap (fun i =>
    fillProfilepTMass cfg calcRe (corrconfigsAt 9) "K0sc22dpt" i kK0Short cent ++
    fillProfilepTMass cfg calcRe (corrconfigsAt 10) "K0sc22dpt" i kK0Short cent ++
    fillProfilepTMass cfg calcRe (corrconfigsAt 11) "K0sc24dpt" i kK0Short cent ++
    fillProfilepTMass cfg calcRe (corrconfigsAt 12) "Lambdac22dpt" i kLambda0 cent ++
    fillProfilepTMass cfg calcRe (corrconfigsAt 13) "Lambdac22dpt" i kLambda0 cent ++
    fillProfilepTMass cfg calcRe (corrconfigsAt 14) "Lambdac24dpt" i kLambda0 cent) ++
  (loopFromOne (nXiPtBins cfg)).flatMap (fun i =>
    fillProfilepTMass cfg calcRe (corrconfigsAt 3) "Xic22dpt" i kXiMinus cent ++
    fillProfilepTMass cfg calcRe (corrconfigsAt 4) "Xic22dpt" i kXiMinus cent ++
    fillProfilepTMass cfg calcRe (corrconfigsAt 5) "Xic24dpt" i kXiMinus cent ++
    fillProfilepTMass cfg calcRe (corrconfigsAt 6) "Omegac22dpt" i kOmegaMinus cent ++
    fillProfilepTMass cfg calcRe (corrconfigsAt 7) "Omegac22dpt" i kOmegaMinus cent ++
    fillProfilepTMass cfg calcRe (corrconfigsAt 8) "Omegac24dpt" i kOmegaMinus cent)

/-- Condition of the `continue` in the jackknife loop: subsample `j` is left out. -/
def jackknifeSkips (eventrdm : ℚ) (j : Int) : Bool :=
  decide (eventrdm > ((j - 1 : Int) : ℚ) ∧ eventrdm < (j : ℚ))

/-- Fills of subsample `j` in the jackknife loop of `processData` (the loop body after the
`continue`). -/
def fillSubsample (cfg : Config) (calcRe : CorrConfig → Int → Bool → ℚ) (cent : ℚ) (j : Int) :
    List Effect :=
  fillProfilePtr calcRe (corrconfigsAt 15) (Target.slot JkArray.refc22 (j - 1)) cent ++
  fillProfilePtr calcRe (corrconfigsAt 16) (Target.slot JkArray.refc24 (j - 1)) cent ++
  (loopFromOne (nV0PtBins cfg)).flatMap (fun i =>
    fillProfilepTMassPtr cfg calcRe (corrconfigsAt 9) (Target.slot JkArray.k0sc22 (j - 1)) i
      kK0Short cent ++
    fillProfilepTMassPtr cfg calcRe (corrconfigsAt 10) (Target.slot JkArray.k0sc22 (j - 1)) i
      kK0Short cent ++
    fillProfilepTMassPtr cfg calcRe (corrconfigsAt 11) (Target.slot JkArray.k0sc24 (j - 1)) i
      kK0Short cent ++
    fillProfilepTMassPtr cfg calcRe (corrconfigsAt 12) (Target.slot JkArray.lambdac22 (j - 1)) i
      kLambda0 cent ++
    fillProfilepTMassPtr cfg calcRe (corrconfigsAt 13) (Target.slot JkArray.lambdac22 (j - 1)) i
      kLambda0 cent ++
    fillProfilepTMassPtr cfg calcRe (corrconfigsAt 14) (Target.slot JkArray.lambdac24 (j - 1)) i
      kLambda0 cent) ++
  (loopFromOne (nXiPtBins cfg)).flatMap (fun i =>
    fillProfilepTMassPtr cfg calcRe (corrconfigsAt 3) (Target.slot JkArray.xic22 (j - 1)) i
      kXiMinus cent ++
    fillProfilepTMassPtr cfg calcRe (corrconfigsAt 4) (Target.slot JkArray.xic22 (j - 1)) i
      kXiMinus cent ++
    fillProfilepTMassPtr cfg calcRe (corrconfigsAt 5) (Target.slot JkArray.xic24 (j - 1)) i
      kXiMinus cent ++
    fillProfilepTMassPtr cfg calcRe (corrconfigsAt 6) (Target.slot JkArray.omegac22 (j - 1)) i
      kOmegaMinus cent ++
    fillProfilepTMassPtr cfg calcRe (corrconfigsAt 7) (Target.slot JkArray.omegac22 (j - 1)) i
      kOmegaMinus cent ++
    fillProfilepTMassPtr cfg calcRe (corrconfigsAt 8) (Target.slot JkArray.omegac24 (j - 1)) i
      kOmegaMinus cent)

/-- The jackknife loop of `processData`, `for (int j = 1; j <= 10; j++)`, for the scaled
draw `eventrdm = 10 * fRdm->Rndm()`. -/
def fillJackknife (cfg : Config) (calcRe : CorrConfig → Int → Bool → ℚ) (cent : ℚ)
    (eventrdm : ℚ) : List Effect :=
  (loopFromOne 10).flatMap (fun j =>
    if jackknifeSkips eventrdm j then [] else fillSubsample cfg calcRe cent j)

/-- Method `processData` for one collision: its effects in program order and the members
afterwards.  `g0` is the state of the engine on entry and `rndm` the value returned by
`fRdm->Rndm()`. -/
def processData {G : Type} (E : Env G) (cfg : Config) (m : Members) (g0 : G) (rndm : ℚ)
    (collision : Collision) (tracks : List Track) (Cascades : List Cascade) (V0s : List V0) :
    List Effect × Members :=
  let nTot : Int := tracks.length
  if nTot < 1 then ([], m)
  else
    let cent := collision.centFT0C
    if collision.sel8 = false then ([Effect.gfwClear], m)
    else if eventSelected E cfg collision cent then ([Effect.gfwClear], m)
    else
      let hLocalDensity : TH1D := ⟨TAxis.fix 400 (-E.TwoPI) E.TwoPI, []⟩
      let m1 := loadCorrections E cfg m collision.timestamp
      let vtxz := collision.posZ
      let t := trackLoop E cfg m1 vtxz ⟨1, 1, hLocalDensity, 0⟩ tracks
      let v := v0Loop E cfg m1 t.1.hLocalDensity vtxz ⟨t.1.weff, t.1.wacc, 1⟩ V0s
      let c := cascLoop E cfg m1 t.1.hLocalDensity vtxz v.1 Cascades
      let fills : List Effect := Effect.gfwClear :: (t.2 ++ v.2 ++ c.2)
      let calcRe := E.gfwCalculate (gfwRun E g0 fills)
      let eventrdm := 10 * rndm
      (fills ++ fillFullSample cfg calcRe cent ++
        (if cfg.cfgDoJackknife then fillJackknife cfg calcRe cent eventrdm else []), m1)

/-! ## `processMC` -/

/-- The loop over `collisionsRec` in `processMC`: `none` when the method returns from inside
the loop, otherwise the value of `cent` after it. -/
def mcCentLoop {G : Type} (E : Env G) (cfg : Config) : ℚ → List Collision → Option ℚ
  | cent, [] => some cent
  | cent, collision :: rest =>
      if collision.sel8 = false then none
      else if eventSelected E cfg collision cent then none
      else mcCentLoop E cfg collision.centFT0C rest

/-- Body of the loop over the tracks of a generated particle in `processMC`. -/
def mcTrackStep (cfg : Config) (track : Track) : List Effect :=
  if track.pt < cfg.cfgCutPtPOIMin ∨ track.pt > cfg.cfgCutPtPOIMax then []
  else if |track.eta| > 0.8 then []
  else if (track.hasTPC && track.hasITS) = false then []
  else if track.tpcChi2NCl > cfg.cfgCutChi2prTPCcls then []
  else
    let ptbin := (fPtAxis cfg).FindBin track.pt - 1
    if track.pt > cfg.cfgCutPtMin ∧ track.pt < cfg.cfgCutPtMax then
      [Effect.gfwFill track.eta ptbin track.phi 1 64]
    else []

/-- Body of the first loop over `tracksGen` in `processMC` (reference particles). -/
def mcRefStep (cfg : Config) (mcParticle : McParticle) : List Effect :=
  if mcParticle.isPhysicalPrimary = false then []
  else if mcParticle.has_tracks then mcParticle.tracks.flatMap (mcTrackStep cfg)
  else []

/-- Body of the second loop over `tracksGen` in `processMC` (generated cascades). -/
def mcCascStep (cfg : Config) (cascGen : McParticle) : List Effect :=
  if cascGen.isPhysicalPrimary = false then []
  else
    let pdgCode : Int := |cascGen.pdgCode|
    if pdgCode ≠ kXiMinus ∧ pdgCode ≠ kOmegaMinus then []
    else if |cascGen.eta| > 0.8 then []
    else
      (if pdgCode = kXiMinus then
        [Effect.gfwFill cascGen.eta ((fXiPtAxis cfg).FindBin cascGen.pt - 1) cascGen.phi 1 128]
       else []) ++
      (if pdgCode = kOmegaMinus then
        [Effect.gfwFill cascGen.eta ((fXiPtAxis cfg).FindBin cascGen.pt - 1) cascGen.phi 1 256]
       else [])

/-- Body of the third loop over `tracksGen` in `processMC` (generated V0s). -/
def mcV0Step (cfg : Config) (v0Gen : McParticle) : List Effect :=
  if v0Gen.isPhysicalPrimary = false then []
  else
    let pdgCode : Int := |v0Gen.pdgCode|
    if pdgCode ≠ kK0Short ∧ pdgCode ≠ kLambda0 then []
    else if |v0Gen.eta| > 0.8 then []
    else
      (if pdgCode = kK0Short then
        [Effect.gfwFill v0Gen.eta ((fXiPtAxis cfg).FindBin v0Gen.pt - 1) v0Gen.phi 1 512]
       else []) ++
      (if pdgCode = kLambda0 then
        [Effect.gfwFill v0Gen.eta ((fXiPtAxis cfg).FindBin v0Gen.pt - 1) v0Gen.phi 1 1024]
       else [])

/-- The profile fills at the end of `processMC`. -/
def fillMC (cfg : Config) (calcRe : CorrConfig → Int → Bool → ℚ) (cent : ℚ) : List Effect :=
  fillProfile calcRe (corrconfigsAt 25) "MC/c22MC" cent ++
  (loopFromOne (nV0PtBins cfg)).flatMap (fun i =>
    fillProfilepTMC cfg calcRe (corrconfigsAt 21) "MC/K0sc22dptMC" i kK0Short cent ++
    fillProfilepTMC cfg calcRe (corrconfigsAt 22) "MC/K0sc22dptMC" i kK0Short cent ++
    fillProfilepTMC cfg calcRe (corrconfigsAt 23) "MC/Lambdac22dptMC" i kLambda0 cent ++
    fillProfilepTMC cfg calcRe (corrconfigsAt 24) "MC/Lambdac22dptMC" i kLambda0 cent) ++
  (loopFromOne (nXiPtBins cfg)).flatMap (fun i =>
    fillProfilepTMC cfg calcRe (corrconfigsAt 17) "MC/Xic22dptMC" i kXiMinus cent ++
    fillProfilepTMC cfg calcRe (corrconfigsAt 18) "MC/Xic22dptMC" i kXiMinus cent ++
    fillProfilepTMC cfg calcRe (corrconfigsAt 19) "MC/Omegac22dptMC" i kOmegaMinus cent ++
    fillProfilepTMC cfg calcRe (corrconfigsAt 20) "MC/Omegac22dptMC" i kOmegaMinus cent)

/-- Method `processMC` for one generated collision: its effects in program order. -/
def processMC {G : Type} (E : Env G) (cfg : Config) (g0 : G) (tracksGen : List McParticle)
    (collisionsRec : List Collision) : List Effect :=
  match mcCentLoop E cfg (-1) collisionsRec with
  | none => [Effect.gfwClear]
  | some cent =>
    if cent < 0 then [Effect.gfwClear]
    else
      let fills : List Effect :=
        Effect.gfwClear ::
          (tracksGen.flatMap (mcRefStep cfg) ++ tracksGen.flatMap (mcCascStep cfg) ++
            tracksGen.flatMap (mcV0Step cfg))
      let calcRe := E.gfwCalculate (gfwRun E g0 fills)
      fills ++ fillMC cfg calcRe cent

/-! ## `init`: regions, correlator catalog, jackknife profiles -/

/-- The calls that `init` makes on the engine, from the first `AddRegion` to
`CreateRegions`. -/
inductive GfwInitCall where
  | AddRegion (name : String) (etaMin etaMax : ℚ) (nBins : Int) (mask : Nat)
  | GetCorrelatorConfig (expr : String) (head : String) (ptDif : Bool)
  | CreateRegions

/-- The engine calls of `init` in program order; the result of every
`GetCorrelatorConfig` is pushed into `corrconfigs`. -/
def initGfwCalls (cfg : Config) : List GfwInitCall :=
  let nXiptMassBins := nXiPtBins cfg * cfgmassbins cfg 2
  let nOmegaptMassBins := nXiPtBins cfg * cfgmassbins cfg 3
  let nK0sptMassBins := nV0PtBins cfg * cfgmassbins cfg 0
  let nLambdaptMassBins := nV0PtBins cfg * cfgmassbins cfg 1
  [ GfwInitCall.AddRegion "reffull" (-0.8) 0.8 1 1,
    GfwInitCall.AddRegion "refN10" (-0.8) (-0.4) 1 1,
    GfwInitCall.AddRegion "refP10" 0.4 0.8 1 1,
    GfwInitCall.AddRegion "poiN10dpt" (-0.8) (-0.4) (nPtBins cfg) 32,
    GfwInitCall.AddRegion "poiP10dpt" 0.4 0.8 (nPtBins cfg) 32,
    GfwInitCall.AddRegion "poifulldpt" (-0.8) 0.8 (nPtBins cfg) 32,
    GfwInitCall.AddRegion "poioldpt" (-0.8) 0.8 (nPtBins cfg) 1,
    GfwInitCall.AddRegion "poiXiPdpt" 0.4 0.8 nXiptMassBins 2,
    GfwInitCall.AddRegion "poiXiNdpt" (-0.8) (-0.4) nXiptMassBins 2,
    GfwInitCall.AddRegion "poiXifulldpt" (-0.8) 0.8 nXiptMassBins 2,
    GfwInitCall.AddRegion "poiXiP" 0.4 0.8 1 2,
    GfwInitCall.AddRegion "poiXiN" (-0.8) (-0.4) 1 2,
    GfwInitCall.AddRegion "poiOmegaPdpt" 0.4 0.8 nOmegaptMassBins 4,
    GfwInitCall.AddRegion "poiOmegaNdpt" (-0.8) (-0.4) nOmegaptMassBins 4,
    GfwInitCall.AddRegion "poiOmegafulldpt" (-0.8) 0.8 nOmegaptMassBins 4,
    GfwInitCall.AddRegion "poiOmegaP" 0.4 0.8 1 4,
    GfwInitCall.AddRegion "poiOmegaN" (-0.8) (-0.4) 1 4,
    GfwInitCall.AddRegion "poiK0sPdpt" 0.4 0.8 nK0sptMassBins 8,
    GfwInitCall.AddRegion "poiK0sNdpt" (-0.8) (-0.4) nK0sptMassBins 8,
    GfwInitCall.AddRegion "poiK0sfulldpt" (-0.8) 0.8 nK0sptMassBins 8,
    GfwInitCall.AddRegion "poiK0sP" 0.4 0.8 1 8,
    GfwInitCall.AddRegion "poiK0sN" (-0.8) 0.4 1 8,
    GfwInitCall.AddRegion "poiLambdaPdpt" 0.4 0.8 nLambdaptMassBins 16,
    GfwInitCall.AddRegion "poiLambdaNdpt" (-0.8) (-0.4) nLambdaptMassBins 16,
    GfwInitCall.AddRegion "poiLambdafulldpt" (-0.8) 0.8 nLambdaptMassBins 16,
    GfwInitCall.AddRegion "poiLambdaP" 0.4 0.8 1 16,
    GfwInitCall.AddRegion "poiLambdaN" (-0.8) (-0.4) 1 16,
    GfwInitCall.AddRegion "refN10MC" (-0.8) (-0.4) 1 64,
    GfwInitCall.AddRegion "refP10MC" 0.4 0.8 1 64,
    GfwInitCall.AddRegion "poiXiPdptMC" 0.4 0.8 nXiptMassBins 128,
    GfwInitCall.AddRegion "poiXiNdptMC" (-0.8) (-0.4) nXiptMassBins 128,
    GfwInitCall.AddRegion "poiOmegaPdptMC" 0.4 0.8 nOmegaptMassBins 256,
    GfwInitCall.AddRegion "poiOmegaNdptMC" (-0.8) (-0.4) nOmegaptMassBins 256,
    GfwInitCall.AddRegion "poiK0sPdptMC" 0.4 0.8 nK0sptMassBins 512,
    GfwInitCall.AddRegion "poiK0sNdptMC" (-0.8) (-0.4) nK0sptMassBins 512,
    GfwInitCall.AddRegion "poiLambdaPdptMC" 0.4 0.8 nLambdaptMassBins 1024,
    GfwInitCall.AddRegion "poiLambdaNdptMC" (-0.8) (-0.4) nLambdaptMassBins 1024,
    GfwInitCall.GetCorrelatorConfig "poiP10dpt {2} refN10 {-2}" "Poi10Gap22dpta" true,
    GfwInitCall.GetCorrelatorConfig "poiN10dpt {2} refP10 {-2}" "Poi10Gap22dptb" true,
    GfwInitCall.GetCorrelatorConfig "poifulldpt reffull | poioldpt {2 2 -2 -2}"
      "Poi10Gap24dpt" true,
    GfwInitCall.GetCorrelatorConfig "poiXiPdpt {2} refN10 {-2}" "Xi10Gap22a" true,
    GfwInitCall.GetCorrelatorConfig "poiXiNdpt {2} refP10 {-2}" "Xi10Gap22b" true,
    GfwInitCall.GetCorrelatorConfig "poiXifulldpt reffull {2 2 -2 -2}" "Xi10Gap24" true,
    GfwInitCall.GetCorrelatorConfig "poiOmegaPdpt {2} refN10 {-2}" "Omega10Gap22a" true,
    GfwInitCall.GetCorrelatorConfig "poiOmegaNdpt {2} refP10 {-2}" "Omega10Gap22b" true,
    GfwInitCall.GetCorrelatorConfig "poiOmegafulldpt reffull {2 2 -2 -2}" "Xi10Gap24" true,
    GfwInitCall.GetCorrelatorConfig "poiK0sPdpt {2} refN10 {-2}" "K0short10Gap22a" true,
    GfwInitCall.GetCorrelatorConfig "poiK0sNdpt {2} refP10 {-2}" "K0short10Gap22b" true,
    GfwInitCall.GetCorrelatorConfig "poiK0sfulldpt reffull {2 2 -2 -2}" "Xi10Gap24" true,
    GfwInitCall.GetCorrelatorConfig "poiLambdaPdpt {2} refN10 {-2}" "Lambda10Gap22a" true,
    GfwInitCall.GetCorrelatorConfig "poiLambdaNdpt {2} refP10 {-2}" "Lambda10Gap22b" true,
    GfwInitCall.GetCorrelatorConfig "poiLambdafulldpt reffull {2 2 -2 -2}" "Xi10Gap24a" true,
    GfwInitCall.GetCorrelatorConfig "refP10 {2} refN10 {-2}" "Ref10Gap22a" false,
    GfwInitCall.GetCorrelatorConfig "reffull reffull {2 2 -2 -2}" "Ref10Gap24" false,
    GfwInitCall.GetCorrelatorConfig "poiXiPdptMC {2} refN10MC {-2}" "MCXi10Gap22a" true,
    GfwInitCall.GetCorrelatorConfig "poiXiNdptMC {2} refP10MC {-2}" "MCXi10Gap22b" true,
    GfwInitCall.GetCorrelatorConfig "poiOmegaPdptMC {2} refN10MC {-2}" "MCOmega10Gap22a" true,
    GfwInitCall.GetCorrelatorConfig "poiOmegaNdptMC {2} refP10MC {-2}" "MCOmega10Gap22b" true,
    GfwInitCall.GetCorrelatorConfig "poiK0sPdptMC {2} refN10MC {-2}" "MCK0s10Gap22a" true,
    GfwInitCall.GetCorrelatorConfig "poiK0sNdptMC {2} refP10MC {-2}" "MCK0s10Gap22b" true,
    GfwInitCall.GetCorrelatorConfig "poiLambdaPdptMC {2} refN10MC {-2}" "MCLambda10Gap22a" true,
    GfwInitCall.GetCorrelatorConfig "poiLambdaNdptMC {2} refP10MC {-2}" "MCLambda10Gap22b" true,
    GfwInitCall.GetCorrelatorConfig "refP10MC {2} refN10MC {-2}" "MCRef10Gap22a" false,
    GfwInitCall.CreateRegions ]

/-- A region of the engine as declared by `AddRegion(name, etamin, etamax, ptbinnum,
bitmask)`. -/
structure Region where
  name : String
  etaMin : ℚ
  etaMax : ℚ
  nBins : Int
  mask : Nat

/-- The region declared by a call, if the call is an `AddRegion`. -/
def GfwInitCall.region? : GfwInitCall → Option Region
  | GfwInitCall.AddRegion name etaMin etaMax nBins mask => some ⟨name, etaMin, etaMax, nBins, mask⟩
  | _ => none

/-- The config returned by a call, if the call is a `GetCorrelatorConfig`. -/
def GfwInitCall.config? : GfwInitCall → Option CorrConfig
  | GfwInitCall.GetCorrelatorConfig expr head ptDif => some ⟨expr, head, ptDif⟩
  | _ => none

/-- The regions declared by `init`, in the order of the `AddRegion` calls. -/
def regions (cfg : Config) : List Region := (initGfwCalls cfg).filterMap GfwInitCall.region?

/-- The region declared under a name (the first one, should there be several). -/
def regionNamed (cfg : Config) (name : String) : Option Region :=
  (regions cfg).find? (fun r => decide (r.name = name))

/-- Modelled from the spec: the engine's reading of a correlator expression (`GFW.cxx` is
not part of the task file).  The expression is cut into words at blanks, commas, the
overlap bar and the braces; the flag of a word tells whether it stands inside braces (a
harmonic) or outside (the name of a region). -/
def scanExpr : List Char → Bool → List Char → List (Bool × String)
  | [], inBrace, cur => if cur.isEmpty then [] else [(inBrace, String.mk cur)]
  | c :: rest, inBrace, cur =>
    let word : List (Bool × String) := if cur.isEmpty then [] else [(inBrace, String.mk cur)]
    if c = Char.ofNat 123 then word ++ scanExpr rest true []
    else if c = Char.ofNat 125 then word ++ scanExpr rest false []
    else if c = Char.ofNat 32 ∨ c = Char.ofNat 44 ∨ c = Char.ofNat 124 then
      word ++ scanExpr rest inBrace []
    else scanExpr rest inBrace (cur ++ [c])

/-- Names of the regions that a correlator expression refers to, in order. -/
def exprRegions (expr : String) : List String :=
  ((scanExpr expr.toList false []).filter (fun w => !w.1)).map (fun w => w.2)

/-- The harmonics of a correlator expression, as written, in order; their number is the
number of particles of the correlator. -/
def exprHarmonics (expr : String) : List String :=
  ((scanExpr expr.toList false []).filter (fun w => w.1)).map (fun w => w.2)

/-- The slots assigned by the jackknife block of `init`: array, index `i - 1` and name of
the profile booked in the registry, in program order. -/
def initJackknife (cfg : Config) : List (JkArray × Int × String) :=
  if cfg.cfgDoJackknife then
    (loopFromOne (nPtBins cfg)).flatMap (fun i =>
      [ (JkArray.refc22, i - 1, "Jackknife/REF/c22_" ++ toString i),
        (JkArray.refc24, i - 1, "Jackknife/REF/c24_" ++ toString i),
        (JkArray.xic22, i - 1, "Jackknife/Xi/Xic22dpt_" ++ toString i),
        (JkArray.omegac22, i - 1, "Jackknife/Omega/Omegac22dpt_" ++ toString i),
        (JkArray.k0sc22, i - 1, "Jackknife/K0s/K0sc22dpt_" ++ toString i),
        (JkArray.lambdac22, i - 1, "Jackknife/Lambda/Lambdac22dpt_" ++ toString i),
        (JkArray.xic24, i - 1, "Jackknife/Xi/Xic24dpt_" ++ toString i),
        (JkArray.omegac24, i - 1, "Jackknife/Omega/Omegac24dpt_" ++ toString i),
        (JkArray.k0sc24, i - 1, "Jackknife/K0s/K0sc24dpt_" ++ toString i),
        (JkArray.lambdac24, i - 1, "Jackknife/Lambda/Lambdac24dpt_" ++ toString i) ])
  else []

/-- Indices at which the jackknife block of `init` stores a profile into array `arr`. -/
def bookedSlots (cfg : Config) (arr : JkArray) : List Int :=
  ((initJackknife cfg).filter (fun s => decide (s.1 = arr))).map (fun s => s.2.1)

/-! ## Concrete collaborators for closed examples -/

/-- An engine without state whose `Calculate` always returns `0`, with trivial stand-ins for
the other collaborators. -/
def nullEnv : Env Unit where
  gfwClear := fun g => g
  gfwFill := fun g _ _ _ _ _ => g
  gfwCalculate := fun _ _ _ _ => 0
  ccdbAcceptance := fun _ _ => ⟨fun _ _ _ => 1⟩
  ccdbEfficiency := fun _ _ => ⟨TAxis.fix 1 0 1, []⟩
  fMultPVCutLow := fun _ => 0
  fMultPVCutHigh := fun _ => 0
  fT0AV0AMean := fun _ => 0
  fT0AV0ASigma := fun _ => 0
  sqrt := fun _ => 0
  exp := fun _ => 1
  constrainAngle := fun phi _ => phi
  TwoPI := 6.283185307179586
  PI := 3.141592653589793
  MassK0Short := 0.497611
  MassLambda := 1.115683
  MassLambda0 := 1.115683

/-- A `Calculate` that returns the numerator `num` and the denominator `den` for every
correlator and bin. -/
def constCalc (num den : ℚ) : CorrConfig → Int → Bool → ℚ :=
  fun _ _ setHarmsToZero => if setHarmsToZero then den else num

/-- The species binning of `fillProfilepTMass` for K0s under the default configuration. -/
def k0sBinning : MassBinning :=
  ⟨cfgmassbins defaultConfig 0, nV0PtBins defaultConfig, fV0PtAxis defaultConfig,
    fK0sMass defaultConfig⟩

/-- A daughter track that passes every track-quality and PID requirement of the default
configuration. -/
def goodDaughter : DaughterTrack :=
  { pt := 1, tpcNSigmaPi := 0, tpcNSigmaKa := 0, tpcNSigmaPr := 0, tofNSigmaPi := 0,
    tofNSigmaKa := 0, tofNSigmaPr := 0, tpcNClsFound := 100, tpcNClsFindable := 100,
    tpcCrossedRowsOverFindableCls := 1, itsNCls := 5, hasTPC := true }

/-- A V0 of transverse momentum `pt` and K0s mass hypothesis `mass` that passes the K0short
selection and the topological cuts of the default configuration, and is no Lambda. -/
def k0sCandidate (pt mass : ℚ) : V0 :=
  { posTrack := goodDaughter, negTrack := goodDaughter, alpha := 1, qtarm := 0.5,
    mK0Short := mass, mLambda := 1.3, pt := pt, eta := 0.5, phi := 1, v0radius := 10,
    v0cosPA := 0.999, dcaV0daughters := 0.1, dcapostopv := 0.5, dcanegtopv := 0.5 }

/-- Members before any calibration object is loaded. -/
def noCalibration : Members := ⟨[], [], false⟩

/-- The collaborators of `nullEnv` with an engine whose `Calculate` returns the numerator
`num` and the denominator `den` everywhere. -/
def constEnv (num den : ℚ) : Env Unit :=
  { nullEnv with gfwCalculate := fun _ => constCalc num den }

/-- The default configuration with the jackknife switched on. -/
def jackknifeConfig : Config := { defaultConfig with cfgDoJackknife := true }

/-- Length of each file-scope jackknife array (`refc22[20]`, ..., `omegac24[20]`). -/
def jkArrayLength : Int := 20

/-- The jackknife switched on with a pt axis of three bins. -/
def coarsePtConfig : Config := { jackknifeConfig with cfgaxisPt := ⟨none, [0.2, 1, 3, 10]⟩ }

/-- Effects that are a call of `fGFW->Fill`. -/
def Effect.isGfwFill : Effect → Bool
  | Effect.gfwFill _ _ _ _ _ => true
  | _ => false

/-- Effects that read the engine (`fGFW->Calculate`) or fill a profile. -/
def Effect.isReadOrProfile : Effect → Bool
  | Effect.gfwCalculate _ _ _ => true
  | Effect.profFill _ _ => true
  | _ => false

/-- Effects that use the flow vectors of the engine: `fGFW->Fill` and `fGFW->Calculate`. -/
def Effect.isEngineUse : Effect → Bool
  | Effect.gfwFill _ _ _ _ _ => true
  | Effect.gfwCalculate _ _ _ => true
  | _ => false

/-- In a run of effects, every use of the engine comes after a `Clear` of the same run. -/
def clearPrecedesEveryUse (effs : List Effect) : Prop :=
  ∀ (pre : List Effect) (e : Effect) (post : List Effect),
    effs = pre ++ e :: post → e.isEngineUse = true → Effect.gfwClear ∈ pre

/-- A collision that passes `sel8` and for which `eventSelected` returns `false` with the
collaborators of `nullEnv`. -/
def passingCollision : Collision :=
  { alias_kTVXinTRD := true, kNoTimeFrameBorder := true, kNoITSROFrameBorder := true,
    kNoSameBunchPileup := true, kIsGoodZvtxFT0vsPV := true, kNoCollInTimeRangeStandard := true,
    kIsGoodITSLayersAll := true, numContrib := 100, posZ := 1, covZZ := 0,
    multNTracksPV := 0, trackOccupancyInTimeRange := 0, multFV0A := 0, multFT0A := 0,
    centFT0C := 35, sel8 := true, timestamp := 0 }

/-- A reference track inside the default pt ranges. -/
def sampleTrack : Track :=
  { eta := 0.5, pt := 1, phi := 1, tpcChi2NCl := 1, hasTPC := true, hasITS := true }

/-! ## The engine as the specification describes it -/

/-- A complex number with rational real and imaginary parts. -/
structure QC where
  re : ℚ
  im : ℚ
  deriving DecidableEq

namespace QC

/-- The number `0`. -/
def zero : QC := ⟨0, 0⟩
/-- The number `1`. -/
def one : QC := ⟨1, 0⟩
/-- A rational number as a complex number. -/
def ofRat (q : ℚ) : QC := ⟨q, 0⟩
/-- Sum. -/
def add (a b : QC) : QC := ⟨a.re + b.re, a.im + b.im⟩
/-- Difference. -/
def sub (a b : QC) : QC := ⟨a.re - b.re, a.im - b.im⟩
/-- Product. -/
def mul (a b : QC) : QC := ⟨a.re * b.re - a.im * b.im, a.re * b.im + a.im * b.re⟩
/-- Complex conjugate. -/
def conj (a : QC) : QC := ⟨a.re, -a.im⟩
/-- Product with a rational number. -/
def smul (q : ℚ) (a : QC) : QC := ⟨q * a.re, q * a.im⟩
/-- Squared modulus. -/
def normSq (a : QC) : ℚ := a.re * a.re + a.im * a.im
/-- Power with a natural exponent. -/
def npow (a : QC) : Nat → QC
  | 0 => one
  | n + 1 => mul (npow a n) a
/-- Power with an integer exponent of a number of modulus one: a negative exponent is the
power of the conjugate. -/
def phasePow (a : QC) (n : Int) : QC :=
  if 0 ≤ n then npow a n.toNat else npow (conj a) (-n).toNat

end QC

/-- Modelled from the spec: one `fill` call on the FlowVectorTable (section 4.2; `GFW.cxx`
is not part of the task file): pseudorapidity, kinematic bin, azimuth, weight and tag
mask of the particle. -/
structure FillCall where
  eta : ℚ
  kinematicBin : Int
  phi : ℚ
  weight : ℚ
  tagMask : Nat

/-- Modelled from the spec: a region receives a fill when its tag is set in the tag mask and
the pseudorapidity lies in its inclusion range (section 3, Region). -/
def Region.accepts (r : Region) (f : FillCall) : Bool :=
  decide (f.tagMask &&& r.mask ≠ 0 ∧ r.etaMin ≤ f.eta ∧ f.eta ≤ r.etaMax)

/-- Modelled from the spec: the moment `Q[n][p] = Σ weight^p · exp(i·n·phi)` of a region
after the fills of an event, aggregated over the kinematic bins (section 3, FlowVectorTable
entry).  `cis phi` stands for `exp(i·phi)`. -/
def flowVector (cis : ℚ → QC) (fills : List FillCall) (r : Region) (n : Int) (p : Nat) : QC :=
  ((fills.filter r.accepts).map
    (fun f => QC.smul (f.weight ^ p) (QC.phasePow (cis f.phi) n))).foldr QC.add QC.zero

/-- Modelled from the spec: numerator of the 2-particle correlator of regions `A` and `B`
with harmonics `n` and `-n`: `Q[n]` of `A` times the conjugate of `Q[n]` of `B`, minus the
pair self-term `Q[0][2]` when the two factors are the same region (section 4.3). -/
def numerator2 (cis : ℚ → QC) (fills : List FillCall) (A B : Region) (n : Nat) : QC :=
  QC.sub
    (QC.mul (flowVector cis fills A n 1) (QC.conj (flowVector cis fills B n 1)))
    (if A.name = B.name then flowVector cis fills A 0 2 else QC.zero)

/-- Modelled from the spec: denominator of the 2-particle correlator of regions `A` and
`B`: `Q[0][1]·(Q[0][1] - 1)` when the two factors are the same region,
`Q[0][1]_A · Q[0][1]_B` otherwise (section 4.3). -/
def denominator2 (cis : ℚ → QC) (fills : List FillCall) (A B : Region) : ℚ :=
  if A.name = B.name then
    (flowVector cis fills A 0 1).re * ((flowVector cis fills A 0 1).re - 1)
  else (flowVector cis fills A 0 1).re * (flowVector cis fills B 0 1).re

/-- A stand-in for `exp(i·phi)` that sends every azimuth to the point `3/5 + 4/5 i` of the
unit circle. -/
def fixedCis : ℚ → QC := fun _ => ⟨3 / 5, 4 / 5⟩

/-- The region `reffull` as declared in `init`. -/
def regReffull : Region := ⟨"reffull", -0.8, 0.8, 1, 1⟩
/-- The region `refN10` as declared in `init`. -/
def regRefN10 : Region := ⟨"refN10", -0.8, -0.4, 1, 1⟩
/-- The region `refP10` as declared in `init`. -/
def regRefP10 : Region := ⟨"refP10", 0.4, 0.8, 1, 1⟩

/-- A unit-weight reference fill at pseudorapidity `eta`. -/
def unitFill (eta : ℚ) : FillCall := ⟨eta, 0, 1, 1, 1⟩

/-! ## Predicates on effects -/

/-- The effect is no `fGFW->Fill`, or its weight is `1`. -/
def Effect.fillWeightIsOne : Effect → Bool
  | Effect.gfwFill _ _ _ weight _ => decide (weight = 1)
  | _ => true

/-- The effect stays within a pathway: a `fGFW->Fill` uses one of the tag masks `masks`, a
`fGFW->Calculate` evaluates one of the correlators `confs`, and a profile fill goes to a
target that satisfies `ok`. -/
def Effect.within (masks : List Nat) (confs : List CorrConfig) (ok : Target → Bool) :
    Effect → Bool
  | Effect.gfwClear => true
  | Effect.gfwFill _ _ _ _ mask => decide (mask ∈ masks)
  | Effect.gfwCalculate corrconf _ _ => decide (corrconf ∈ confs)
  | Effect.profFill tar _ => ok tar

/-- Names of the correlator profiles that `processData` fills through `HIST`. -/
def dataProfiles : List String :=
  ["c22", "c24", "c22dpt", "c24dpt", "K0sc22dpt", "K0sc24dpt", "Lambdac22dpt", "Lambdac24dpt",
   "Xic22dpt", "Xic24dpt", "Omegac22dpt", "Omegac24dpt"]

/-- Names of the correlator profiles that `processMC` fills. -/
def mcProfiles : List String :=
  ["MC/c22MC", "MC/K0sc22dptMC", "MC/Lambdac22dptMC", "MC/Xic22dptMC", "MC/Omegac22dptMC"]

/-- Profiles of the reconstructed pathway: the full-sample profiles and the jackknife
slots. -/
def isDataTarget : Target → Bool
  | Target.hist name => dataProfiles.contains name
  | Target.slot _ _ => true

/-- Profiles of the generated pathway. -/
def isMcTarget : Target → Bool
  | Target.hist name => mcProfiles.contains name
  | Target.slot _ _ => false

/-- Tag masks of the `fGFW->Fill` calls of `processData`. -/
def dataMasks : List Nat := [1, 32, 8, 16, 4, 2]

/-- Tag masks of the `fGFW->Fill` calls of `processMC`. -/
def mcMasks : List Nat := [64, 128, 256, 512, 1024]

/-- The correlators of the reconstructed pathway: catalog entries 0 to 16 (`// Data`). -/
def dataConfigs : List CorrConfig := corrconfigs.take 17

/-- The correlators of the generated pathway: catalog entries 17 to 25 (`// MC`). -/
def mcConfigs : List CorrConfig := corrconfigs.drop 17

/-- Name and tag of every declared region (neither depends on the configuration). -/
def regionTags : List (String × Nat) := (regions defaultConfig).map (fun r => (r.name, r.mask))

/-- Tags of the regions that a correlator expression refers to. -/
def exprTags (expr : String) : List Nat :=
  (exprRegions expr).flatMap (fun name =>
    (regionTags.filter (fun t => decide (t.1 = name))).map (fun t => t.2))

/-! ## Inputs for the weight examples -/

/-- The default configuration with the acceptance and efficiency correction switched on. -/
def accEffConfig : Config := { defaultConfig with cfgDoAccEffCorr := true }

/-- An efficiency histogram with two bins on `[0, 10]`, of contents `1/2` and `1`. -/
def refEfficiency : TH1D := ⟨TAxis.fix 2 0 10, [(2.5, 0.5), (7.5, 1)]⟩

/-- An efficiency histogram with two bins on `[0, 10]`, both empty (content `0`). -/
def zeroEfficiency : TH1D := ⟨TAxis.fix 2 0 10, []⟩

/-- Members after a load that found five efficiency histograms (for charged particles, K0s,
Lambda, Xi, Omega) and no acceptance object. -/
def loadedEfficiency : Members :=
  ⟨[], [refEfficiency, zeroEfficiency, zeroEfficiency, zeroEfficiency, zeroEfficiency], true⟩

/-- A reference track of transverse momentum `pt`. -/
def trackOfPt (pt : ℚ) : Track :=
  { eta := 0.5, pt := pt, phi := 1, tpcChi2NCl := 1, hasTPC := true, hasITS := true }

/-- The `fGFW->Fill` calls of a run of effects. -/
def gfwFillsOf (effs : List Effect) : List Effect := effs.filter Effect.isGfwFill

/-- Names of the declared regions, in the order of the `AddRegion` calls (they do not depend
on the configuration). -/
def regionNames : List String := (regions defaultConfig).map (fun r => r.name)

/-- The correlator is built from two regions on opposite sides of the eta gap: its
expression names two regions, the first and the second, both declared, one with eta range
`[0.4, 0.8]` and the other with `[-0.8, -0.4]`, `0.8` apart. -/
def etaGapPair (cfg : Config) (c : CorrConfig) : Prop :=
  ∃ (a b : String) (ra rb : Region),
    exprRegions c.expr = [a, b] ∧ regionNamed cfg a = some ra ∧ regionNamed cfg b = some rb ∧
      ((ra.etaMin = 0.4 ∧ ra.etaMax = 0.8 ∧ rb.etaMin = -0.8 ∧ rb.etaMax = -0.4 ∧
          ra.etaMin - rb.etaMax = 0.8) ∨
        (ra.etaMin = -0.8 ∧ ra.etaMax = -0.4 ∧ rb.etaMin = 0.4 ∧ rb.etaMax = 0.8 ∧
          rb.etaMin - ra.etaMax = 0.8))

/-- Draws for which the jackknife loop leaves out subsample `j`. -/
def exclusionSet (j : Int) : Set ℚ := {eventrdm | jackknifeSkips eventrdm j = true}

/-- A run of effects that changes no profile: every profile has the same entries, and so the
same accumulated sums in every cell, before and after. -/
def leavesProfilesUnchanged (effs : List Effect) : Prop :=
  ∀ (p : Profile) (tar : Target),
    p.after tar effs = p ∧
      ∀ cell : List ℚ → Bool,
        (p.after tar effs).sumW cell = p.sumW cell ∧
          (p.after tar effs).sumVW cell = p.sumVW cell

/-- A run of effects that adds the weight `w` and the weighted value `vw` to the cells of
profile `tar` that contain `coords`, and changes nothing else in `tar`. -/
def addsToCell (effs : List Effect) (tar : Target) (coords : List ℚ) (vw w : ℚ) : Prop :=
  ∀ (p : Profile) (cell : List ℚ → Bool),
    (p.after tar effs).sumW cell = p.sumW cell + (if cell coords then w else 0) ∧
      (p.after tar effs).sumVW cell = p.sumVW cell + (if cell coords then vw else 0)

/-! ## Sides of regions, bins of correlators and further inputs -/

/-- The side of the eta acceptance that the name of a region marks. -/
inductive Side where
  | negative
  | positive
  | full
  deriving DecidableEq, Repr

/-- The eta range that goes with a side: `[-0.8, -0.4]`, `[0.4, 0.8]`, `[-0.8, 0.8]`. -/
def rangeOfSide : Side → ℚ × ℚ
  | Side.negative => (-0.8, -0.4)
  | Side.positive => (0.4, 0.8)
  | Side.full => (-0.8, 0.8)

/-- The rest of `s` after the leading characters `front`, `none` when `s` does not start
with them. -/
def stripFront? : List Char → List Char → Option (List Char)
  | [], s => some s
  | _ :: _, [] => none
  | c :: cs, d :: ds => if c = d then stripFront? cs ds else none

/-- The name `s` without the leading word `front`, or `s` itself when it does not start with
it. -/
def withoutFront (front : String) (s : List Char) : List Char :=
  (stripFront? front.toList s).getD s

/-- The side marked by the name of a region: after the kind (`ref`, `poi`) and the species
(`Xi`, `Omega`, `K0s`, `Lambda`) comes `N`, `P`, `full` or `ol`. -/
def regionSide (name : String) : Option Side :=
  let s :=
    withoutFront "Lambda" (withoutFront "K0s" (withoutFront "Omega" (withoutFront "Xi"
      (withoutFront "poi" (withoutFront "ref" name.toList)))))
  match s with
  | [] => none
  | c :: _ =>
    if c = 'N' then some Side.negative
    else if c = 'P' then some Side.positive
    else if (stripFront? "full".toList s).isSome ∨ (stripFront? "ol".toList s).isSome then
      some Side.full
    else none

/-- Name and eta range of every declared region (neither depends on the configuration). -/
def regionRanges : List (String × ℚ × ℚ) :=
  (regions defaultConfig).map (fun r => (r.name, r.etaMin, r.etaMax))

/-- The target is no jackknife slot, or its index is one of the `j - 1` of the jackknife loop
`j = 1..10`. -/
def slotOfJackknifeLoop : Target → Bool
  | Target.hist _ => true
  | Target.slot _ idx => decide (∃ j ∈ loopFromOne 10, idx = j - 1)

/-- A collision that passes `sel8` and for which `eventSelected` returns `true` with the
collaborators of `nullEnv`. -/
def selectedCollision : Collision := { passingCollision with alias_kTVXinTRD := false }

/-- The default configuration with a V0 pt axis of two bins, different from the Xi pt
axis. -/
def splitAxesConfig : Config := { defaultConfig with cfgaxisPtV0 := ⟨none, [0.9, 1.9, 9.9]⟩ }

/-- A generated physical primary of the given PDG code and transverse momentum, without
reconstructed tracks. -/
def generatedParticle (pdgCode : Int) (pt : ℚ) : McParticle :=
  { isPhysicalPrimary := true, has_tracks := false, tracks := [], pdgCode := pdgCode,
    eta := 0.5, pt := pt, phi := 1 }

/-- Collaborators whose lower multiplicity cut grows with the centrality:
`fMultPVCutLow(c) = c`, `fMultPVCutHigh(c) = 1000`. -/
def centralityEnv : Env Unit :=
  { nullEnv with fMultPVCutLow := fun c => c, fMultPVCutHigh := fun _ => 1000 }

/-- A reconstructed collision of centrality `35` with `10` tracks at the primary vertex that
sets no rejection bit. -/
def lowMultCollision : Collision :=
  { passingCollision with alias_kTVXinTRD := false, multNTracksPV := 10 }

/-! ## Basic facts about effect lists -/

theorem fillsFor_append (tar : Target) (a b : List Effect) :
    fillsFor tar (a ++ b) = fillsFor tar a ++ fillsFor tar b := by
  induction a with
  | nil => rfl
  | cons e rest ih =>
    cases e <;> simp [fillsFor, ih]
    split <;> simp

theorem fillsFor_flatMap {α : Type} (tar : Target) (l : List α) (f : α → List Effect) :
    fillsFor tar (l.flatMap f) = l.flatMap (fun x => fillsFor tar (f x)) := by
  induction l with
  | nil => rfl
  | cons x rest ih => simp [List.flatMap_cons, fillsFor_append, ih]

theorem sumW_append (p q : Profile) (cell : List ℚ → Bool) :
    Profile.sumW (p ++ q) cell = Profile.sumW p cell + Profile.sumW q cell := by
  simp [Profile.sumW, List.filter_append]

theorem sumVW_append (p q : Profile) (cell : List ℚ → Bool) :
    Profile.sumVW (p ++ q) cell = Profile.sumVW p cell + Profile.sumVW q cell := by
  simp [Profile.sumVW, List.filter_append]

/-! ## Facts about the conversion to `float` -/

theorem toFloat_zero : toFloat 0 = 0 := by
  norm_num [toFloat, toFloatAbs, roundHalfEven]

theorem log_two_eq (a : ℚ) (e : Int) (h1 : (2 : ℚ) ^ e ≤ a) (h2 : a < (2 : ℚ) ^ (e + 1)) :
    Int.log 2 a = e := by
  have ha : 0 < a := lt_of_lt_of_le (zpow_pos (by norm_num) e) h1
  apply le_antisymm
  · have := (Int.lt_zpow_iff_log_lt (b := 2) (by norm_num) ha (x := e + 1)).1
      (by exact_mod_cast h2)
    omega
  · exact (Int.zpow_le_iff_le_log (b := 2) (by norm_num) ha).1 (by exact_mod_cast h1)

theorem toFloatAbs_normal (a : ℚ) (e : Int) (h1 : (2 : ℚ) ^ e ≤ a)
    (h2 : a < (2 : ℚ) ^ (e + 1)) (hn : ¬ a < 2 ^ (-126 : Int)) :
    toFloatAbs a = (roundHalfEven (a / 2 ^ (e - 23)) : ℚ) * 2 ^ (e - 23) := by
  unfold toFloatAbs
  rw [if_neg hn, log_two_eq a e h1 h2]

theorem floor_le_roundHalfEven (q : ℚ) : Int.floor q ≤ roundHalfEven q := by
  unfold roundHalfEven
  split_ifs <;> omega

theorem one_le_toFloatAbs (a : ℚ) (ha : 1 ≤ a) : 1 ≤ toFloatAbs a := by
  have hpos : 0 < a := lt_of_lt_of_le one_pos ha
  have hn : ¬ a < 2 ^ (-126 : Int) := by
    have : (2 : ℚ) ^ (-126 : Int) ≤ 1 := by norm_num
    linarith
  have he : (0 : Int) ≤ Int.log 2 a :=
    (Int.zpow_le_iff_le_log (b := 2) (by norm_num) hpos).1 (by simpa using ha)
  have hle : ((2 : ℕ) : ℚ) ^ Int.log 2 a ≤ a := Int.zpow_log_le_self (b := 2) (by norm_num) hpos
  have hle2 : (2 : ℚ) ^ Int.log 2 a ≤ a := by exact_mod_cast hle
  have hq : (0 : ℚ) < 2 ^ (Int.log 2 a - 23) := zpow_pos (by norm_num) _
  have hsplit : (2 : ℚ) ^ Int.log 2 a = 2 ^ (23 : Int) * 2 ^ (Int.log 2 a - 23) := by
    rw [← zpow_add₀ (by norm_num : (2 : ℚ) ≠ 0)]
    congr 1
    ring
  have hy : ((2 ^ 23 : Int) : ℚ) ≤ a / 2 ^ (Int.log 2 a - 23) := by
    rw [le_div_iff₀ hq]
    have : ((2 ^ 23 : Int) : ℚ) = 2 ^ (23 : Int) := by norm_num
    rw [this, ← hsplit]
    exact hle2
  have hfl : (2 ^ 23 : Int) ≤ Int.floor (a / 2 ^ (Int.log 2 a - 23)) := Int.le_floor.2 hy
  have hr : (2 ^ 23 : Int) ≤ roundHalfEven (a / 2 ^ (Int.log 2 a - 23)) :=
    le_trans hfl (floor_le_roundHalfEven _)
  have hrq : ((2 ^ 23 : Int) : ℚ) ≤ (roundHalfEven (a / 2 ^ (Int.log 2 a - 23)) : ℚ) := by
    exact_mod_cast hr
  unfold toFloatAbs
  rw [if_neg hn]
  have h1 : (1 : ℚ) ≤ 2 ^ Int.log 2 a := one_le_zpow₀ (by norm_num) he
  calc (1 : ℚ) ≤ 2 ^ Int.log 2 a := h1
    _ = ((2 ^ 23 : Int) : ℚ) * 2 ^ (Int.log 2 a - 23) := by
      rw [hsplit]; norm_num
    _ ≤ (roundHalfEven (a / 2 ^ (Int.log 2 a - 23)) : ℚ) * 2 ^ (Int.log 2 a - 23) :=
      mul_le_mul_of_nonneg_right hrq hq.le

theorem one_le_abs_toFloat (q : ℚ) (h : 1 ≤ |q|) : 1 ≤ |toFloat q| := by
  unfold toFloat
  by_cases hq : q < 0
  · rw [if_pos hq, abs_neg]
    have : 1 ≤ -q := by rwa [abs_of_neg hq] at h
    exact le_trans (one_le_toFloatAbs _ this) (le_abs_self _)
  · rw [if_neg hq]
    have : 1 ≤ q := by rwa [abs_of_nonneg (not_lt.1 hq)] at h
    exact le_trans (one_le_toFloatAbs _ this) (le_abs_self _)

theorem toFloat_normal (a : ℚ) (e : Int) (h1 : (2 : ℚ) ^ e ≤ a) (h2 : a < (2 : ℚ) ^ (e + 1))
    (hn : ¬ a < 2 ^ (-126 : Int)) :
    toFloat a = (roundHalfEven (a / 2 ^ (e - 23)) : ℚ) * 2 ^ (e - 23) := by
  have ha : ¬ a < 0 := not_lt.2 (le_trans (zpow_pos (by norm_num) e).le h1)
  unfold toFloat
  rw [if_neg ha]
  exact toFloatAbs_normal a e h1 h2 hn

theorem toFloat_16777219 : toFloat 16777219 = 16777220 := by
  rw [toFloat_normal 16777219 24 (by norm_num) (by norm_num) (by norm_num)]
  norm_num [roundHalfEven]

theorem toFloat_below_one : toFloat (16777219 / 16777220) = 16777215 / 16777216 := by
  rw [toFloat_normal (16777219 / 16777220) (-1) (by norm_num) (by norm_num) (by norm_num)]
  norm_num [roundHalfEven]

theorem toFloat_100000000 : toFloat 100000000 = 100000000 := by
  rw [toFloat_normal 100000000 26 (by norm_num) (by norm_num) (by norm_num)]
  norm_num [roundHalfEven]

theorem toFloat_rounds_to_one : toFloat (99999999 / 100000000) = 1 := by
  rw [toFloat_normal (99999999 / 100000000) (-1) (by norm_num) (by norm_num) (by norm_num)]
  norm_num [roundHalfEven]

theorem toFloat_tiny : toFloat (4 / 10 ^ 50) = 0 := by
  unfold toFloat toFloatAbs
  rw [if_neg (by norm_num), if_pos (by norm_num)]
  norm_num [roundHalfEven]

theorem toFloat_quarter : toFloat (1 / 4) = 1 / 4 := by
  rw [toFloat_normal (1 / 4) (-2) (by norm_num) (by norm_num) (by norm_num)]
  norm_num [roundHalfEven]

theorem toFloat_four : toFloat 4 = 4 := by
  rw [toFloat_normal 4 2 (by norm_num) (by norm_num) (by norm_num)]
  norm_num [roundHalfEven]

theorem toFloat_two : toFloat 2 = 2 := by
  rw [toFloat_normal 2 1 (by norm_num) (by norm_num) (by norm_num)]
  norm_num [roundHalfEven]

theorem toFloat_neg_one : toFloat (-1) = -1 := by
  unfold toFloat
  rw [if_pos (by norm_num)]
  have h := toFloatAbs_normal 1 0 (by norm_num) (by norm_num) (by norm_num)
  norm_num [roundHalfEven] at h
  norm_num [h]

/-! ## What each helper does, case by case -/

theorem fillProfile_zero (calcRe : CorrConfig → Int → Bool → ℚ) (corrconf : CorrConfig)
    (tarName : String) (cent : ℚ) (h : calcRe corrconf 0 true = 0) :
    fillProfile calcRe corrconf tarName cent = [Effect.gfwCalculate corrconf 0 true] := by
  simp [fillProfile, h]

theorem fillProfilePtr_zero (calcRe : CorrConfig → Int → Bool → ℚ) (corrconf : CorrConfig)
    (tar : Target) (cent : ℚ) (h : calcRe corrconf 0 true = 0) :
    fillProfilePtr calcRe corrconf tar cent = [Effect.gfwCalculate corrconf 0 true] := by
  simp [fillProfilePtr, h]

theorem fillProfilepT_zero (cfg : Config) (calcRe : CorrConfig → Int → Bool → ℚ)
    (corrconf : CorrConfig) (tarName : String) (ptbin : Int) (cent : ℚ)
    (h : calcRe corrconf (ptbin - 1) true = 0) :
    fillProfilepT cfg calcRe corrconf tarName ptbin cent
      = [Effect.gfwCalculate corrconf (ptbin - 1) true] := by
  simp [fillProfilepT, h, toFloat_zero]

theorem fillProfilepTMC_zero (cfg : Config) (calcRe : CorrConfig → Int → Bool → ℚ)
    (corrconf : CorrConfig) (tarName : String) (ptbin PDGCode : Int) (cent : ℚ)
    (h : calcRe corrconf (ptbin - 1) true = 0) :
    fillProfilepTMC cfg calcRe corrconf tarName ptbin PDGCode cent
      = if (ptAxisOfPDG cfg PDGCode).isSome then [Effect.gfwCalculate corrconf (ptbin - 1) true]
        else [] := by
  unfold fillProfilepTMC
  cases ptAxisOfPDG cfg PDGCode <;> simp [h, toFloat_zero]

theorem massBinStep_zero (calcRe : CorrConfig → Int → Bool → ℚ) (corrconf : CorrConfig)
    (tar : Target) (mb : MassBinning) (ptbin : Int) (cent : ℚ) (massbin : Int)
    (h : calcRe corrconf ((ptbin - 1) + ((massbin - 1) * mb.nptbins)) true = 0) :
    massBinStep calcRe corrconf tar mb ptbin cent massbin
      = [Effect.gfwCalculate corrconf ((ptbin - 1) + ((massbin - 1) * mb.nptbins)) true] := by
  simp [massBinStep, h, toFloat_zero]

theorem fillProfile_fills (calcRe : CorrConfig → Int → Bool → ℚ) (corrconf : CorrConfig)
    (tarName : String) (cent : ℚ) (tar : Target) :
    fillsFor tar (fillProfile calcRe corrconf tarName cent)
      = if Target.hist tarName = tar ∧ calcRe corrconf 0 true ≠ 0 ∧ corrconf.pTDif = false ∧
            |calcRe corrconf 0 false / calcRe corrconf 0 true| < 1 then
          [⟨[cent], calcRe corrconf 0 false / calcRe corrconf 0 true, calcRe corrconf 0 true⟩]
        else [] := by
  unfold fillProfile
  by_cases h0 : calcRe corrconf 0 true = 0
  · simp [h0, fillsFor]
  · by_cases hp : corrconf.pTDif = false
    · by_cases hv : |calcRe corrconf 0 false / calcRe corrconf 0 true| < 1
      · by_cases ht : Target.hist tarName = tar <;> simp [h0, hp, hv, ht, fillsFor]
      · simp [h0, hp, hv, fillsFor]
    · simp [h0, hp, fillsFor]

theorem fillProfilePtr_fills (calcRe : CorrConfig → Int → Bool → ℚ) (corrconf : CorrConfig)
    (TProfile : Target) (cent : ℚ) (tar : Target) :
    fillsFor tar (fillProfilePtr calcRe corrconf TProfile cent)
      = if TProfile = tar ∧ calcRe corrconf 0 true ≠ 0 ∧ corrconf.pTDif = false ∧
            |calcRe corrconf 0 false / calcRe corrconf 0 true| < 1 then
          [⟨[cent], calcRe corrconf 0 false / calcRe corrconf 0 true, calcRe corrconf 0 true⟩]
        else [] := by
  unfold fillProfilePtr
  by_cases h0 : calcRe corrconf 0 true = 0
  · simp [h0, fillsFor]
  · by_cases hp : corrconf.pTDif = false
    · by_cases hv : |calcRe corrconf 0 false / calcRe corrconf 0 true| < 1
      · by_cases ht : TProfile = tar <;> simp [h0, hp, hv, ht, fillsFor]
      · simp [h0, hp, hv, fillsFor]
    · simp [h0, hp, fillsFor]

theorem fillProfilepT_fills (cfg : Config) (calcRe : CorrConfig → Int → Bool → ℚ)
    (corrconf : CorrConfig) (tarName : String) (ptbin : Int) (cent : ℚ) (tar : Target) :
    fillsFor tar (fillProfilepT cfg calcRe corrconf tarName ptbin cent)
      = if Target.hist tarName = tar ∧ toFloat (calcRe corrconf (ptbin - 1) true) ≠ 0 ∧
            |toFloat (calcRe corrconf (ptbin - 1) false
              / toFloat (calcRe corrconf (ptbin - 1) true))| < 1 then
          [⟨[(fPtAxis cfg).GetBinCenter ptbin, cent],
            toFloat (calcRe corrconf (ptbin - 1) false
              / toFloat (calcRe corrconf (ptbin - 1) true)),
            toFloat (calcRe corrconf (ptbin - 1) true)⟩]
        else [] := by
  unfold fillProfilepT
  by_cases h0 : toFloat (calcRe corrconf (ptbin - 1) true) = 0
  · simp [h0, fillsFor]
  · by_cases hv : |toFloat (calcRe corrconf (ptbin - 1) false
        / toFloat (calcRe corrconf (ptbin - 1) true))| < 1
    · by_cases ht : Target.hist tarName = tar <;> simp [h0, hv, ht, fillsFor]
    · simp [h0, hv, fillsFor]

theorem fillProfilepTMC_fills (cfg : Config) (calcRe : CorrConfig → Int → Bool → ℚ)
    (corrconf : CorrConfig) (tarName : String) (ptbin PDGCode : Int) (cent : ℚ) (tar : Target) :
    fillsFor tar (fillProfilepTMC cfg calcRe corrconf tarName ptbin PDGCode cent)
      = match ptAxisOfPDG cfg PDGCode with
        | none => []
        | some fpt =>
          if Target.hist tarName = tar ∧ toFloat (calcRe corrconf (ptbin - 1) true) ≠ 0 ∧
              |toFloat (calcRe corrconf (ptbin - 1) false
                / toFloat (calcRe corrconf (ptbin - 1) true))| < 1 then
            [⟨[fpt.GetBinCenter ptbin, cent],
              toFloat (calcRe corrconf (ptbin - 1) false
                / toFloat (calcRe corrconf (ptbin - 1) true)),
              toFloat (calcRe corrconf (ptbin - 1) true)⟩]
          else [] := by
  unfold fillProfilepTMC
  cases ptAxisOfPDG cfg PDGCode with
  | none => simp [fillsFor]
  | some fpt =>
    by_cases h0 : toFloat (calcRe corrconf (ptbin - 1) true) = 0
    · simp [h0, fillsFor]
    · by_cases hv : |toFloat (calcRe corrconf (ptbin - 1) false
          / toFloat (calcRe corrconf (ptbin - 1) true))| < 1
      · by_cases ht : Target.hist tarName = tar <;> simp [h0, hv, ht, fillsFor]
      · simp [h0, hv, fillsFor]

theorem massBinStep_fills (calcRe : CorrConfig → Int → Bool → ℚ) (corrconf : CorrConfig)
    (tar0 : Target) (mb : MassBinning) (ptbin : Int) (cent : ℚ) (massbin : Int) (tar : Target) :
    fillsFor tar (massBinStep calcRe corrconf tar0 mb ptbin cent massbin)
      = if tar0 = tar ∧
            toFloat (calcRe corrconf ((ptbin - 1) + ((massbin - 1) * mb.nptbins)) true) ≠ 0 ∧
            |toFloat (calcRe corrconf ((ptbin - 1) + ((massbin - 1) * mb.nptbins)) false
              / toFloat (calcRe corrconf ((ptbin - 1) + ((massbin - 1) * mb.nptbins)) true))|
              < 1 then
          [⟨[mb.fpt.GetBinCenter ptbin, mb.fMass.GetBinCenter massbin, cent],
            toFloat (calcRe corrconf ((ptbin - 1) + ((massbin - 1) * mb.nptbins)) false
              / toFloat (calcRe corrconf ((ptbin - 1) + ((massbin - 1) * mb.nptbins)) true)),
            toFloat (calcRe corrconf ((ptbin - 1) + ((massbin - 1) * mb.nptbins)) true)⟩]
        else [] := by
  unfold massBinStep
  by_cases h0 :
      toFloat (calcRe corrconf ((ptbin - 1) + ((massbin - 1) * mb.nptbins)) true) = 0
  · simp [h0, fillsFor]
  · by_cases hv : |toFloat (calcRe corrconf ((ptbin - 1) + ((massbin - 1) * mb.nptbins)) false
        / toFloat (calcRe corrconf ((ptbin - 1) + ((massbin - 1) * mb.nptbins)) true))| < 1
    · by_cases ht : tar0 = tar <;> simp [h0, hv, ht, fillsFor]
    · simp [h0, hv, fillsFor]

theorem fillProfilepTMass_fills (cfg : Config) (calcRe : CorrConfig → Int → Bool → ℚ)
    (corrconf : CorrConfig) (tarName : String) (ptbin PDGCode : Int) (cent : ℚ) (tar : Target) :
    fillsFor tar (fillProfilepTMass cfg calcRe corrconf tarName ptbin PDGCode cent)
      = match massBinningOfPDG cfg PDGCode with
        | none => []
        | some mb =>
          (loopFromOne mb.nMassBins).flatMap (fun massbin =>
            fillsFor tar
              (massBinStep calcRe corrconf (Target.hist tarName) mb ptbin cent massbin)) := by
  unfold fillProfilepTMass
  cases massBinningOfPDG cfg PDGCode with
  | none => simp [fillsFor]
  | some mb => simp [fillsFor_flatMap]

theorem fillProfilepTMassPtr_fills (cfg : Config) (calcRe : CorrConfig → Int → Bool → ℚ)
    (corrconf : CorrConfig) (TProfile3D : Target) (ptbin PDGCode : Int) (cent : ℚ)
    (tar : Target) :
    fillsFor tar (fillProfilepTMassPtr cfg calcRe corrconf TProfile3D ptbin PDGCode cent)
      = match massBinningOfPDG cfg PDGCode with
        | none => []
        | some mb =>
          (loopFromOne mb.nMassBins).flatMap (fun massbin =>
            fillsFor tar (massBinStep calcRe corrconf TProfile3D mb ptbin cent massbin)) := by
  unfold fillProfilepTMassPtr
  cases massBinningOfPDG cfg PDGCode with
  | none => simp [fillsFor]
  | some mb => simp [fillsFor_flatMap]

theorem leavesProfilesUnchanged_of_fillsFor (effs : List Effect)
    (h : ∀ tar, fillsFor tar effs = []) : leavesProfilesUnchanged effs := by
  intro p tar
  have hp : p.after tar effs = p := by simp [Profile.after, h tar]
  exact ⟨hp, fun cell => by rw [hp]; exact ⟨rfl, rfl⟩⟩

theorem addsToCell_of_fillsFor (effs : List Effect) (tar : Target) (coords : List ℚ)
    (val w : ℚ) (h : fillsFor tar effs = [⟨coords, val, w⟩]) :
    addsToCell effs tar coords (w * val) w := by
  intro p cell
  constructor
  · rw [Profile.after, h, sumW_append]
    by_cases hc : cell coords = true <;> simp [Profile.sumW, hc]
  · rw [Profile.after, h, sumVW_append]
    by_cases hc : cell coords = true <;> simp [Profile.sumVW, hc]

/-! ## Kinds of effects produced by each part of the task -/

theorem trackStep_isGfwFill {G : Type} (E : Env G) (cfg : Config) (m : Members) (vtxz : ℚ)
    (s : TrackLoopState) (track : Track) :
    ∀ e ∈ (trackStep E cfg m vtxz s track).2, e.isGfwFill = true := by
  have h : ((trackStep E cfg m vtxz s track).2.all Effect.isGfwFill) = true := by
    unfold trackStep
    simp only
    split_ifs <;> simp [Effect.isGfwFill]
  exact List.all_eq_true.mp h

theorem trackLoop_isGfwFill {G : Type} (E : Env G) (cfg : Config) (m : Members) (vtxz : ℚ)
    (tracks : List Track) :
    ∀ (s : TrackLoopState), ∀ e ∈ (trackLoop E cfg m vtxz s tracks).2, e.isGfwFill = true := by
  induction tracks with
  | nil => intro s e he; simp [trackLoop] at he
  | cons track rest ih =>
    intro s e he
    simp only [trackLoop, List.mem_append] at he
    rcases he with he | he
    · exact trackStep_isGfwFill E cfg m vtxz s track e he
    · exact ih _ e he

theorem v0Step_isGfwFill {G : Type} (E : Env G) (cfg : Config) (m : Members)
    (hLocalDensity : TH1D) (vtxz : ℚ) (w : Weights) (v0 : V0) :
    ∀ e ∈ (v0Step E cfg m hLocalDensity vtxz w v0).2, e.isGfwFill = true := by
  have h : ((v0Step E cfg m hLocalDensity vtxz w v0).2.all Effect.isGfwFill) = true := by
    unfold v0Step
    simp only
    split_ifs <;> simp [Effect.isGfwFill]
  exact List.all_eq_true.mp h

theorem v0Loop_isGfwFill {G : Type} (E : Env G) (cfg : Config) (m : Members)
    (hLocalDensity : TH1D) (vtxz : ℚ) (V0s : List V0) :
    ∀ (w : Weights), ∀ e ∈ (v0Loop E cfg m hLocalDensity vtxz w V0s).2,
      e.isGfwFill = true := by
  induction V0s with
  | nil => intro w e he; simp [v0Loop] at he
  | cons v0 rest ih =>
    intro w e he
    simp only [v0Loop, List.mem_append] at he
    rcases he with he | he
    · exact v0Step_isGfwFill E cfg m hLocalDensity vtxz w v0 e he
    · exact ih _ e he

theorem cascStep_isGfwFill {G : Type} (E : Env G) (cfg : Config) (m : Members)
    (hLocalDensity : TH1D) (vtxz : ℚ) (w : Weights) (casc : Cascade) :
    ∀ e ∈ (cascStep E cfg m hLocalDensity vtxz w casc).2, e.isGfwFill = true := by
  have h : ((cascStep E cfg m hLocalDensity vtxz w casc).2.all Effect.isGfwFill) = true := by
    unfold cascStep
    simp only
    split_ifs <;> simp [Effect.isGfwFill]
  exact List.all_eq_true.mp h

theorem cascLoop_isGfwFill {G : Type} (E : Env G) (cfg : Config) (m : Members)
    (hLocalDensity : TH1D) (vtxz : ℚ) (Cascades : List Cascade) :
    ∀ (w : Weights), ∀ e ∈ (cascLoop E cfg m hLocalDensity vtxz w Cascades).2,
      e.isGfwFill = true := by
  induction Cascades with
  | nil => intro w e he; simp [cascLoop] at he
  | cons casc rest ih =>
    intro w e he
    simp only [cascLoop, List.mem_append] at he
    rcases he with he | he
    · exact cascStep_isGfwFill E cfg m hLocalDensity vtxz w casc e he
    · exact ih _ e he

theorem fillProfile_isReadOrProfile (calcRe : CorrConfig → Int → Bool → ℚ)
    (corrconf : CorrConfig) (tarName : String) (cent : ℚ) :
    ∀ e ∈ fillProfile calcRe corrconf tarName cent, e.isReadOrProfile = true := by
  have h : ((fillProfile calcRe corrconf tarName cent).all Effect.isReadOrProfile) = true := by
    unfold fillProfile
    simp only
    split_ifs <;> simp [Effect.isReadOrProfile]
  exact List.all_eq_true.mp h

theorem fillProfilePtr_isReadOrProfile (calcRe : CorrConfig → Int → Bool → ℚ)
    (corrconf : CorrConfig) (tar : Target) (cent : ℚ) :
    ∀ e ∈ fillProfilePtr calcRe corrconf tar cent, e.isReadOrProfile = true := by
  have h : ((fillProfilePtr calcRe corrconf tar cent).all Effect.isReadOrProfile) = true := by
    unfold fillProfilePtr
    simp only
    split_ifs <;> simp [Effect.isReadOrProfile]
  exact List.all_eq_true.mp h

theorem fillProfilepT_isReadOrProfile (cfg : Config) (calcRe : CorrConfig → Int → Bool → ℚ)
    (corrconf : CorrConfig) (tarName : String) (ptbin : Int) (cent : ℚ) :
    ∀ e ∈ fillProfilepT cfg calcRe corrconf tarName ptbin cent, e.isReadOrProfile = true := by
  have h : ((fillProfilepT cfg calcRe corrconf tarName ptbin cent).all
      Effect.isReadOrProfile) = true := by
    unfold fillProfilepT
    simp only
    split_ifs <;> simp [Effect.isReadOrProfile]
  exact List.all_eq_true.mp h

theorem fillProfilepTMC_isReadOrProfile (cfg : Config) (calcRe : CorrConfig → Int → Bool → ℚ)
    (corrconf : CorrConfig) (tarName : String) (ptbin PDGCode : Int) (cent : ℚ) :
    ∀ e ∈ fillProfilepTMC cfg calcRe corrconf tarName ptbin PDGCode cent,
      e.isReadOrProfile = true := by
  have h : ((fillProfilepTMC cfg calcRe corrconf tarName ptbin PDGCode cent).all
      Effect.isReadOrProfile) = true := by
    unfold fillProfilepTMC
    cases ptAxisOfPDG cfg PDGCode with
    | none => simp
    | some fpt =>
      simp only
      split_ifs <;> simp [Effect.isReadOrProfile]
  exact List.all_eq_true.mp h

theorem massBinStep_isReadOrProfile (calcRe : CorrConfig → Int → Bool → ℚ)
    (corrconf : CorrConfig) (tar : Target) (mb : MassBinning) (ptbin : Int) (cent : ℚ)
    (massbin : Int) :
    ∀ e ∈ massBinStep calcRe corrconf tar mb ptbin cent massbin, e.isReadOrProfile = true := by
  have h : ((massBinStep calcRe corrconf tar mb ptbin cent massbin).all
      Effect.isReadOrProfile) = true := by
    unfold massBinStep
    simp only
    split_ifs <;> simp [Effect.isReadOrProfile]
  exact List.all_eq_true.mp h

theorem fillProfilepTMass_isReadOrProfile (cfg : Config)
    (calcRe : CorrConfig → Int → Bool → ℚ) (corrconf : CorrConfig) (tarName : String)
    (ptbin PDGCode : Int) (cent : ℚ) :
    ∀ e ∈ fillProfilepTMass cfg calcRe corrconf tarName ptbin PDGCode cent,
      e.isReadOrProfile = true := by
  intro e he
  unfold fillProfilepTMass at he
  cases hmb : massBinningOfPDG cfg PDGCode with
  | none => simp [hmb] at he
  | some mb =>
    simp only [hmb, List.mem_flatMap] at he
    obtain ⟨massbin, -, hm⟩ := he
    exact massBinStep_isReadOrProfile _ _ _ _ _ _ _ e hm

theorem fillProfilepTMassPtr_isReadOrProfile (cfg : Config)
    (calcRe : CorrConfig → Int → Bool → ℚ) (corrconf : CorrConfig) (tar : Target)
    (ptbin PDGCode : Int) (cent : ℚ) :
    ∀ e ∈ fillProfilepTMassPtr cfg calcRe corrconf tar ptbin PDGCode cent,
      e.isReadOrProfile = true := by
  intro e he
  unfold fillProfilepTMassPtr at he
  cases hmb : massBinningOfPDG cfg PDGCode with
  | none => simp [hmb] at he
  | some mb =>
    simp only [hmb, List.mem_flatMap] at he
    obtain ⟨massbin, -, hm⟩ := he
    exact massBinStep_isReadOrProfile _ _ _ _ _ _ _ e hm

theorem fillFullSample_isReadOrProfile (cfg : Config) (calcRe : CorrConfig → Int → Bool → ℚ)
    (cent : ℚ) : ∀ e ∈ fillFullSample cfg calcRe cent, e.isReadOrProfile = true := by
  intro e he
  simp only [fillFullSample, List.mem_append, List.mem_flatMap] at he
  rcases he with (((he | he) | ⟨i, -, he⟩) | ⟨i, -, he⟩) | ⟨i, -, he⟩
  · exact fillProfile_isReadOrProfile _ _ _ _ e he
  · exact fillProfile_isReadOrProfile _ _ _ _ e he
  · rcases he with (he | he) | he <;> exact fillProfilepT_isReadOrProfile _ _ _ _ _ _ e he
  · rcases he with ((((he | he) | he) | he) | he) | he <;>
      exact fillProfilepTMass_isReadOrProfile _ _ _ _ _ _ _ e he
  · rcases he with ((((he | he) | he) | he) | he) | he <;>
      exact fillProfilepTMass_isReadOrProfile _ _ _ _ _ _ _ e he

theorem fillSubsample_isReadOrProfile (cfg : Config) (calcRe : CorrConfig → Int → Bool → ℚ)
    (cent : ℚ) (j : Int) :
    ∀ e ∈ fillSubsample cfg calcRe cent j, e.isReadOrProfile = true := by
  intro e he
  simp only [fillSubsample, List.mem_append, List.mem_flatMap] at he
  rcases he with ((he | he) | ⟨i, -, he⟩) | ⟨i, -, he⟩
  · exact fillProfilePtr_isReadOrProfile _ _ _ _ e he
  · exact fillProfilePtr_isReadOrProfile _ _ _ _ e he
  · rcases he with ((((he | he) | he) | he) | he) | he <;>
      exact fillProfilepTMassPtr_isReadOrProfile _ _ _ _ _ _ _ e he
  · rcases he with ((((he | he) | he) | he) | he) | he <;>
      exact fillProfilepTMassPtr_isReadOrProfile _ _ _ _ _ _ _ e he

theorem fillJackknife_isReadOrProfile (cfg : Config) (calcRe : CorrConfig → Int → Bool → ℚ)
    (cent eventrdm : ℚ) :
    ∀ e ∈ fillJackknife cfg calcRe cent eventrdm, e.isReadOrProfile = true := by
  intro e he
  simp only [fillJackknife, List.mem_flatMap] at he
  obtain ⟨j, -, he⟩ := he
  split_ifs at he
  · simp at he
  · exact fillSubsample_isReadOrProfile _ _ _ _ e he

theorem fillMC_isReadOrProfile (cfg : Config) (calcRe : CorrConfig → Int → Bool → ℚ)
    (cent : ℚ) : ∀ e ∈ fillMC cfg calcRe cent, e.isReadOrProfile = true := by
  intro e he
  simp only [fillMC, List.mem_append, List.mem_flatMap] at he
  rcases he with (he | ⟨i, -, he⟩) | ⟨i, -, he⟩
  · exact fillProfile_isReadOrProfile _ _ _ _ e he
  · rcases he with ((he | he) | he) | he <;>
      exact fillProfilepTMC_isReadOrProfile _ _ _ _ _ _ _ e he
  · rcases he with ((he | he) | he) | he <;>
      exact fillProfilepTMC_isReadOrProfile _ _ _ _ _ _ _ e he

theorem mcFills_isGfwFill (cfg : Config) (tracksGen : List McParticle) :
    ∀ e ∈ tracksGen.flatMap (mcRefStep cfg) ++ tracksGen.flatMap (mcCascStep cfg) ++
        tracksGen.flatMap (mcV0Step cfg), e.isGfwFill = true := by
  intro e he
  simp only [List.mem_append, List.mem_flatMap] at he
  rcases he with (⟨p, -, he⟩ | ⟨p, -, he⟩) | ⟨p, -, he⟩
  · unfold mcRefStep at he
    split_ifs at he
    · simp at he
    · simp only [List.mem_flatMap] at he
      obtain ⟨track, -, ht⟩ := he
      have h : ((mcTrackStep cfg track).all Effect.isGfwFill) = true := by
        unfold mcTrackStep
        simp only
        split_ifs <;> simp [Effect.isGfwFill]
      exact List.all_eq_true.mp h e ht
    · simp at he
  · have h : ((mcCascStep cfg p).all Effect.isGfwFill) = true := by
      unfold mcCascStep
      simp only
      split_ifs <;> simp [Effect.isGfwFill]
    exact List.all_eq_true.mp h e he
  · have h : ((mcV0Step cfg p).all Effect.isGfwFill) = true := by
      unfold mcV0Step
      simp only
      split_ifs <;> simp [Effect.isGfwFill]
    exact List.all_eq_true.mp h e he

theorem count_clear_of_isGfwFill (effs : List Effect) (h : ∀ e ∈ effs, e.isGfwFill = true) :
    effs.count Effect.gfwClear = 0 := by
  rw [List.count_eq_zero]
  intro hc
  have := h _ hc
  simp [Effect.isGfwFill] at this

theorem count_clear_of_isReadOrProfile (effs : List Effect)
    (h : ∀ e ∈ effs, e.isReadOrProfile = true) : effs.count Effect.gfwClear = 0 := by
  rw [List.count_eq_zero]
  intro hc
  have := h _ hc
  simp [Effect.isReadOrProfile] at this

theorem clearPrecedesEveryUse_nil : clearPrecedesEveryUse [] := by
  intro pre e post h
  simp at h

theorem clearPrecedesEveryUse_cons_clear (rest : List Effect) :
    clearPrecedesEveryUse (Effect.gfwClear :: rest) := by
  intro pre e post h hu
  cases pre with
  | nil =>
    simp only [List.nil_append, List.cons.injEq] at h
    rw [← h.1] at hu
    simp [Effect.isEngineUse] at hu
  | cons x pre2 =>
    simp only [List.cons_append, List.cons.injEq] at h
    rw [← h.1]
    exact List.mem_cons_self _ _

/-! ## C1: a zero denominator is skipped -/

/-- C1. In every fill helper, when the denominator `Calculate(config, bin, kTRUE).real()` is
exactly `0` the helper stops at that bin after the denominator call: the numerator is not
requested, so no quotient is formed, and nothing is filled.  For `fillProfile` (both
overloads), `fillProfilepT` and the body of the mass-bin loop of `fillProfilepTMass` (both
overloads) the only effect is the denominator call; `fillProfilepTMC` makes that call or
none; and every entry a whole call of `fillProfilepTMass` fills has a non-zero weight. -/
theorem zero_denominator_is_skipped :
    (∀ (calcRe : CorrConfig → Int → Bool → ℚ) (corrconf : CorrConfig) (tarName : String)
        (cent : ℚ), calcRe corrconf 0 true = 0 →
        fillProfile calcRe corrconf tarName cent = [Effect.gfwCalculate corrconf 0 true]) ∧
    (∀ (calcRe : CorrConfig → Int → Bool → ℚ) (corrconf : CorrConfig) (TProfile : Target)
        (cent : ℚ), calcRe corrconf 0 true = 0 →
        fillProfilePtr calcRe corrconf TProfile cent = [Effect.gfwCalculate corrconf 0 true]) ∧
    (∀ (cfg : Config) (calcRe : CorrConfig → Int → Bool → ℚ) (corrconf : CorrConfig)
        (tarName : String) (ptbin : Int) (cent : ℚ), calcRe corrconf (ptbin - 1) true = 0 →
        fillProfilepT cfg calcRe corrconf tarName ptbin cent
          = [Effect.gfwCalculate corrconf (ptbin - 1) true]) ∧
    (∀ (cfg : Config) (calcRe : CorrConfig → Int → Bool → ℚ) (corrconf : CorrConfig)
        (tarName : String) (ptbin PDGCode : Int) (cent : ℚ),
        calcRe corrconf (ptbin - 1) true = 0 →
        fillProfilepTMC cfg calcRe corrconf tarName ptbin PDGCode cent
            = [Effect.gfwCalculate corrconf (ptbin - 1) true] ∨
          fillProfilepTMC cfg calcRe corrconf tarName ptbin PDGCode cent = []) ∧
    (∀ (calcRe : CorrConfig → Int → Bool → ℚ) (corrconf : CorrConfig) (tar : Target)
        (mb : MassBinning) (ptbin : Int) (cent : ℚ) (massbin : Int),
        calcRe corrconf ((ptbin - 1) + ((massbin - 1) * mb.nptbins)) true = 0 →
        massBinStep calcRe corrconf tar mb ptbin cent massbin
          = [Effect.gfwCalculate corrconf ((ptbin - 1) + ((massbin - 1) * mb.nptbins)) true]) ∧
    (∀ (cfg : Config) (calcRe : CorrConfig → Int → Bool → ℚ) (corrconf : CorrConfig)
        (tarName : String) (TProfile3D : Target) (ptbin PDGCode : Int) (cent : ℚ)
        (tar : Target) (entry : ProfileFill),
        (entry ∈ fillsFor tar (fillProfilepTMass cfg calcRe corrconf tarName ptbin PDGCode cent)
            → entry.w ≠ 0) ∧
          (entry ∈ fillsFor tar
              (fillProfilepTMassPtr cfg calcRe corrconf TProfile3D ptbin PDGCode cent)
            → entry.w ≠ 0)) := by
  refine ⟨fillProfile_zero, fillProfilePtr_zero, fillProfilepT_zero, ?_, massBinStep_zero, ?_⟩
  · intro cfg calcRe corrconf tarName ptbin PDGCode cent h
    rw [fillProfilepTMC_zero cfg calcRe corrconf tarName ptbin PDGCode cent h]
    cases (ptAxisOfPDG cfg PDGCode).isSome <;> simp
  · intro cfg calcRe corrconf tarName TProfile3D ptbin PDGCode cent tar entry
    constructor
    · rw [fillProfilepTMass_fills]
      cases massBinningOfPDG cfg PDGCode with
      | none => simp
      | some mb =>
        simp only [List.mem_flatMap, massBinStep_fills]
        rintro ⟨massbin, -, hm⟩
        split at hm
        · rename_i hc
          simp only [List.mem_singleton] at hm
          rw [hm]
          exact hc.2.1
        · simp at hm
    · rw [fillProfilepTMassPtr_fills]
      cases massBinningOfPDG cfg PDGCode with
      | none => simp
      | some mb =>
        simp only [List.mem_flatMap, massBinStep_fills]
        rintro ⟨massbin, -, hm⟩
        split at hm
        · rename_i hc
          simp only [List.mem_singleton] at hm
          rw [hm]
          exact hc.2.1
        · simp at hm

/-- C1, at a concrete input: with an engine whose denominator is `0` everywhere (numerator
`7`), each helper makes the denominator call only. -/
theorem zero_denominator_is_skipped_witness :
    fillProfile (constCalc 7 0) (corrconfigsAt 15) "c22" 35
        = [Effect.gfwCalculate (corrconfigsAt 15) 0 true] ∧
      fillProfilepT defaultConfig (constCalc 7 0) (corrconfigsAt 0) "c22dpt" 3 35
        = [Effect.gfwCalculate (corrconfigsAt 0) (3 - 1) true] ∧
      massBinStep (constCalc 7 0) (corrconfigsAt 9) (Target.slot JkArray.k0sc22 0) k0sBinning
          3 35 2
        = [Effect.gfwCalculate (corrconfigsAt 9) ((3 - 1) + ((2 - 1) * k0sBinning.nptbins))
            true] :=
  ⟨zero_denominator_is_skipped.1 (constCalc 7 0) (corrconfigsAt 15) "c22" 35 rfl,
    zero_denominator_is_skipped.2.2.1 defaultConfig (constCalc 7 0) (corrconfigsAt 0) "c22dpt"
      3 35 rfl,
    zero_denominator_is_skipped.2.2.2.2.1 (constCalc 7 0) (corrconfigsAt 9)
      (Target.slot JkArray.k0sc22 0) k0sBinning 3 35 2 rfl⟩

/-! ## C2: a ratio of absolute value at least one is suppressed -/

theorem not_leavesProfilesUnchanged_of_fill (effs : List Effect) (tar : Target)
    (entry : ProfileFill) (h : fillsFor tar effs = [entry]) :
    ¬ leavesProfilesUnchanged effs := by
  intro hc
  have h1 := (hc [] tar).1
  rw [Profile.after, h] at h1
  simp at h1

theorem fillProfile_unchanged (calcRe : CorrConfig → Int → Bool → ℚ) (corrconf : CorrConfig)
    (tarName : String) (cent : ℚ)
    (hv : 1 ≤ |calcRe corrconf 0 false / calcRe corrconf 0 true|) :
    leavesProfilesUnchanged (fillProfile calcRe corrconf tarName cent) := by
  apply leavesProfilesUnchanged_of_fillsFor
  intro tar
  rw [fillProfile_fills, if_neg]
  intro hc
  exact absurd hc.2.2.2 (not_lt.mpr hv)

theorem fillProfilePtr_unchanged (calcRe : CorrConfig → Int → Bool → ℚ)
    (corrconf : CorrConfig) (TProfile : Target) (cent : ℚ)
    (hv : 1 ≤ |calcRe corrconf 0 false / calcRe corrconf 0 true|) :
    leavesProfilesUnchanged (fillProfilePtr calcRe corrconf TProfile cent) := by
  apply leavesProfilesUnchanged_of_fillsFor
  intro tar
  rw [fillProfilePtr_fills, if_neg]
  intro hc
  exact absurd hc.2.2.2 (not_lt.mpr hv)

theorem fillProfilepT_unchanged_iff (cfg : Config) (calcRe : CorrConfig → Int → Bool → ℚ)
    (corrconf : CorrConfig) (tarName : String) (ptbin : Int) (cent : ℚ) :
    leavesProfilesUnchanged (fillProfilepT cfg calcRe corrconf tarName ptbin cent) ↔
      (toFloat (calcRe corrconf (ptbin - 1) true) = 0 ∨
        1 ≤ |toFloat (calcRe corrconf (ptbin - 1) false
              / toFloat (calcRe corrconf (ptbin - 1) true))|) := by
  constructor
  · intro h
    by_contra hc
    push_neg at hc
    have hf := fillProfilepT_fills cfg calcRe corrconf tarName ptbin cent (Target.hist tarName)
    rw [if_pos ⟨rfl, hc.1, hc.2⟩] at hf
    exact not_leavesProfilesUnchanged_of_fill _ _ _ hf h
  · intro h
    apply leavesProfilesUnchanged_of_fillsFor
    intro tar
    rw [fillProfilepT_fills, if_neg]
    rintro ⟨-, h0, hv⟩
    rcases h with h | h
    · exact h0 h
    · exact absurd hv (not_lt.2 h)

theorem fillProfilepTMC_unchanged_iff (cfg : Config) (calcRe : CorrConfig → Int → Bool → ℚ)
    (corrconf : CorrConfig) (tarName : String) (ptbin PDGCode : Int) (cent : ℚ) :
    leavesProfilesUnchanged (fillProfilepTMC cfg calcRe corrconf tarName ptbin PDGCode cent) ↔
      (ptAxisOfPDG cfg PDGCode = none ∨ toFloat (calcRe corrconf (ptbin - 1) true) = 0 ∨
        1 ≤ |toFloat (calcRe corrconf (ptbin - 1) false
              / toFloat (calcRe corrconf (ptbin - 1) true))|) := by
  constructor
  · intro h
    by_contra hc
    push_neg at hc
    have hf := fillProfilepTMC_fills cfg calcRe corrconf tarName ptbin PDGCode cent
      (Target.hist tarName)
    cases hax : ptAxisOfPDG cfg PDGCode with
    | none => exact hc.1 hax
    | some fpt =>
      rw [hax] at hf
      simp only at hf
      rw [if_pos ⟨trivial, hc.2.1, hc.2.2⟩] at hf
      exact not_leavesProfilesUnchanged_of_fill _ _ _ hf h
  · intro h
    apply leavesProfilesUnchanged_of_fillsFor
    intro tar
    rw [fillProfilepTMC_fills]
    cases hax : ptAxisOfPDG cfg PDGCode with
    | none => rfl
    | some fpt =>
      simp only
      rw [if_neg]
      rintro ⟨-, h0, hv⟩
      rcases h with h | h | h
      · rw [hax] at h
        cases h
      · exact h0 h
      · exact absurd hv (not_lt.2 h)

theorem massBinStep_unchanged_iff (calcRe : CorrConfig → Int → Bool → ℚ)
    (corrconf : CorrConfig) (tar : Target) (mb : MassBinning) (ptbin : Int) (cent : ℚ)
    (massbin : Int) :
    leavesProfilesUnchanged (massBinStep calcRe corrconf tar mb ptbin cent massbin) ↔
      (toFloat (calcRe corrconf ((ptbin - 1) + ((massbin - 1) * mb.nptbins)) true) = 0 ∨
        1 ≤ |toFloat (calcRe corrconf ((ptbin - 1) + ((massbin - 1) * mb.nptbins)) false
              / toFloat (calcRe corrconf ((ptbin - 1) + ((massbin - 1) * mb.nptbins)) true))|)
      := by
  constructor
  · intro h
    by_contra hc
    push_neg at hc
    have hf := massBinStep_fills calcRe corrconf tar mb ptbin cent massbin tar
    rw [if_pos ⟨rfl, hc.1, hc.2⟩] at hf
    exact not_leavesProfilesUnchanged_of_fill _ _ _ hf h
  · intro h
    apply leavesProfilesUnchanged_of_fillsFor
    intro tar2
    rw [massBinStep_fills, if_neg]
    rintro ⟨-, h0, hv⟩
    rcases h with h | h
    · exact h0 h
    · exact absurd hv (not_lt.2 h)

theorem unit_ratio_fillProfilepT :
    fillProfilepT defaultConfig (constCalc 16777219 16777219) (corrconfigsAt 0) "c22dpt" 3 35
      = [Effect.gfwCalculate (corrconfigsAt 0) (3 - 1) true,
         Effect.gfwCalculate (corrconfigsAt 0) (3 - 1) false,
         Effect.profFill (Target.hist "c22dpt")
           ⟨[(fPtAxis defaultConfig).GetBinCenter 3, 35], 16777215 / 16777216, 16777220⟩] := by
  unfold fillProfilepT
  simp only [constCalc, if_true, Bool.false_eq_true, if_false, toFloat_16777219,
    toFloat_below_one]
  norm_num [abs_lt]

theorem unit_ratio_massBinStep :
    massBinStep (constCalc (-16777219) 16777219) (corrconfigsAt 9)
        (Target.slot JkArray.k0sc22 0) k0sBinning 3 35 2
      = [Effect.gfwCalculate (corrconfigsAt 9) ((3 - 1) + ((2 - 1) * k0sBinning.nptbins)) true,
         Effect.gfwCalculate (corrconfigsAt 9) ((3 - 1) + ((2 - 1) * k0sBinning.nptbins)) false,
         Effect.profFill (Target.slot JkArray.k0sc22 0)
           ⟨[k0sBinning.fpt.GetBinCenter 3, k0sBinning.fMass.GetBinCenter 2, 35],
             -(16777215 / 16777216), 16777220⟩] := by
  have hneg : toFloat (-16777219 / 16777220) = -(16777215 / 16777216) := by
    have h := toFloat_below_one
    unfold toFloat at h ⊢
    rw [if_neg (by norm_num)] at h
    rw [if_pos (by norm_num)]
    have e : -(-16777219 / 16777220 : ℚ) = 16777219 / 16777220 := by norm_num
    rw [e, h]
  unfold massBinStep
  simp only [constCalc, if_true, Bool.false_eq_true, if_false, toFloat_16777219, hneg]
  norm_num [abs_lt]

/-- C2 fails for the helpers that keep the denominator and the ratio in `float` locals.  The
engine returns numerator and denominator `16777219`: the denominator is not `0` and the
ratio is exactly `1`.  `fillProfilepT` stores the denominator as the `float` `16777220` and
the ratio `16777219 / 16777220` as the `float` `16777215 / 16777216 < 1`, and fills its
profile with that value and weight, so the profile does change.  The same happens in the
mass-bin loop of `fillProfilepTMass` with numerator `-16777219` (ratio exactly `-1`). -/
theorem unit_ratio_is_pushed_in_single_precision :
    constCalc 16777219 16777219 (corrconfigsAt 0) (3 - 1) true ≠ 0 ∧
    |constCalc 16777219 16777219 (corrconfigsAt 0) (3 - 1) false
        / constCalc 16777219 16777219 (corrconfigsAt 0) (3 - 1) true| = 1 ∧
    fillProfilepT defaultConfig (constCalc 16777219 16777219) (corrconfigsAt 0) "c22dpt" 3 35
      = [Effect.gfwCalculate (corrconfigsAt 0) (3 - 1) true,
         Effect.gfwCalculate (corrconfigsAt 0) (3 - 1) false,
         Effect.profFill (Target.hist "c22dpt")
           ⟨[(fPtAxis defaultConfig).GetBinCenter 3, 35], 16777215 / 16777216, 16777220⟩] ∧
    ¬ leavesProfilesUnchanged
        (fillProfilepT defaultConfig (constCalc 16777219 16777219) (corrconfigsAt 0) "c22dpt"
          3 35) ∧
    |constCalc (-16777219) 16777219 (corrconfigsAt 9) ((3 - 1) + ((2 - 1) * k0sBinning.nptbins))
          false
        / constCalc (-16777219) 16777219 (corrconfigsAt 9)
            ((3 - 1) + ((2 - 1) * k0sBinning.nptbins)) true| = 1 ∧
    ¬ leavesProfilesUnchanged
        (massBinStep (constCalc (-16777219) 16777219) (corrconfigsAt 9)
          (Target.slot JkArray.k0sc22 0) k0sBinning 3 35 2) := by
  refine ⟨by norm_num [constCalc], by norm_num [constCalc], unit_ratio_fillProfilepT, ?_,
    by norm_num [constCalc], ?_⟩
  · apply not_leavesProfilesUnchanged_of_fill _ (Target.hist "c22dpt")
    rw [unit_ratio_fillProfilepT]
    rfl
  · apply not_leavesProfilesUnchanged_of_fill _ (Target.slot JkArray.k0sc22 0)
    rw [unit_ratio_massBinStep]
    rfl

/-- C2, amended.  The overloads of `fillProfile` compute in `double`: for a non-zero
denominator `dnx` and a numerator `num` with `1 ≤ |num / dnx|` (the values `1` and `-1`
included) they push nothing.  `fillProfilepT`, `fillProfilepTMC` and the body of the
mass-bin loop of `fillProfilepTMass` (both overloads) compute in `float`: with
`d = float(dnx)` the stored denominator, for `dnx` in the range of `float`, they push
nothing exactly when `d = 0` or `1 ≤ |float(num / d)|` (for `fillProfilepTMC` also when the
PDG code is none of the four species); this is the case whenever `1 ≤ |num / d|`, and so
whenever `dnx` is a `float` already and `1 ≤ |num / dnx|`.  Pushing nothing means that
every profile, the target included, has the same entries and the same accumulated sums of
weights and of weighted values before and after. -/
theorem computed_ratio_at_least_one_is_suppressed :
    (∀ (calcRe : CorrConfig → Int → Bool → ℚ) (corrconf : CorrConfig) (tarName : String)
        (cent : ℚ), calcRe corrconf 0 true ≠ 0 →
        1 ≤ |calcRe corrconf 0 false / calcRe corrconf 0 true| →
        leavesProfilesUnchanged (fillProfile calcRe corrconf tarName cent)) ∧
    (∀ (calcRe : CorrConfig → Int → Bool → ℚ) (corrconf : CorrConfig) (TProfile : Target)
        (cent : ℚ), calcRe corrconf 0 true ≠ 0 →
        1 ≤ |calcRe corrconf 0 false / calcRe corrconf 0 true| →
        leavesProfilesUnchanged (fillProfilePtr calcRe corrconf TProfile cent)) ∧
    (∀ (cfg : Config) (calcRe : CorrConfig → Int → Bool → ℚ) (corrconf : CorrConfig)
        (tarName : String) (ptbin : Int) (cent : ℚ),
        inFloatRange (calcRe corrconf (ptbin - 1) true) →
        (leavesProfilesUnchanged (fillProfilepT cfg calcRe corrconf tarName ptbin cent) ↔
          (toFloat (calcRe corrconf (ptbin - 1) true) = 0 ∨
            1 ≤ |toFloat (calcRe corrconf (ptbin - 1) false
                  / toFloat (calcRe corrconf (ptbin - 1) true))|)) ∧
        (1 ≤ |calcRe corrconf (ptbin - 1) false / toFloat (calcRe corrconf (ptbin - 1) true)| →
          leavesProfilesUnchanged (fillProfilepT cfg calcRe corrconf tarName ptbin cent)) ∧
        (toFloat (calcRe corrconf (ptbin - 1) true) = calcRe corrconf (ptbin - 1) true →
          1 ≤ |calcRe corrconf (ptbin - 1) false / calcRe corrconf (ptbin - 1) true| →
          leavesProfilesUnchanged (fillProfilepT cfg calcRe corrconf tarName ptbin cent))) ∧
    (∀ (cfg : Config) (calcRe : CorrConfig → Int → Bool → ℚ) (corrconf : CorrConfig)
        (tarName : String) (ptbin PDGCode : Int) (cent : ℚ),
        inFloatRange (calcRe corrconf (ptbin - 1) true) →
        (leavesProfilesUnchanged
            (fillProfilepTMC cfg calcRe corrconf tarName ptbin PDGCode cent) ↔
          (ptAxisOfPDG cfg PDGCode = none ∨ toFloat (calcRe corrconf (ptbin - 1) true) = 0 ∨
            1 ≤ |toFloat (calcRe corrconf (ptbin - 1) false
                  / toFloat (calcRe corrconf (ptbin - 1) true))|)) ∧
        (1 ≤ |calcRe corrconf (ptbin - 1) false / toFloat (calcRe corrconf (ptbin - 1) true)| →
          leavesProfilesUnchanged
            (fillProfilepTMC cfg calcRe corrconf tarName ptbin PDGCode cent)) ∧
        (toFloat (calcRe corrconf (ptbin - 1) true) = calcRe corrconf (ptbin - 1) true →
          1 ≤ |calcRe corrconf (ptbin - 1) false / calcRe corrconf (ptbin - 1) true| →
          leavesProfilesUnchanged
            (fillProfilepTMC cfg calcRe corrconf tarName ptbin PDGCode cent))) ∧
    (∀ (calcRe : CorrConfig → Int → Bool → ℚ) (corrconf : CorrConfig) (tar : Target)
        (mb : MassBinning) (ptbin : Int) (cent : ℚ) (massbin : Int),
        inFloatRange (calcRe corrconf ((ptbin - 1) + ((massbin - 1) * mb.nptbins)) true) →
        (leavesProfilesUnchanged (massBinStep calcRe corrconf tar mb ptbin cent massbin) ↔
          (toFloat (calcRe corrconf ((ptbin - 1) + ((massbin - 1) * mb.nptbins)) true) = 0 ∨
            1 ≤ |toFloat (calcRe corrconf ((ptbin - 1) + ((massbin - 1) * mb.nptbins)) false
                  / toFloat
                      (calcRe corrconf ((ptbin - 1) + ((massbin - 1) * mb.nptbins)) true))|)) ∧
        (1 ≤ |calcRe corrconf ((ptbin - 1) + ((massbin - 1) * mb.nptbins)) false
              / toFloat (calcRe corrconf ((ptbin - 1) + ((massbin - 1) * mb.nptbins)) true)| →
          leavesProfilesUnchanged (massBinStep calcRe corrconf tar mb ptbin cent massbin)) ∧
        (toFloat (calcRe corrconf ((ptbin - 1) + ((massbin - 1) * mb.nptbins)) true)
            = calcRe corrconf ((ptbin - 1) + ((massbin - 1) * mb.nptbins)) true →
          1 ≤ |calcRe corrconf ((ptbin - 1) + ((massbin - 1) * mb.nptbins)) false
                / calcRe corrconf ((ptbin - 1) + ((massbin - 1) * mb.nptbins)) true| →
          leavesProfilesUnchanged (massBinStep calcRe corrconf tar mb ptbin cent massbin))) := by
  refine ⟨?_, ?_, ?_, ?_, ?_⟩
  · intro calcRe corrconf tarName cent _ hv
    exact fillProfile_unchanged calcRe corrconf tarName cent hv
  · intro calcRe corrconf TProfile cent _ hv
    exact fillProfilePtr_unchanged calcRe corrconf TProfile cent hv
  · intro cfg calcRe corrconf tarName ptbin cent _
    have hiff := fillProfilepT_unchanged_iff cfg calcRe corrconf tarName ptbin cent
    refine ⟨hiff, fun hv => hiff.2 (Or.inr (one_le_abs_toFloat _ hv)), fun hd hv => ?_⟩
    apply hiff.2
    right
    apply one_le_abs_toFloat
    rw [hd]
    exact hv
  · intro cfg calcRe corrconf tarName ptbin PDGCode cent _
    have hiff := fillProfilepTMC_unchanged_iff cfg calcRe corrconf tarName ptbin PDGCode cent
    refine ⟨hiff, fun hv => hiff.2 (Or.inr (Or.inr (one_le_abs_toFloat _ hv))),
      fun hd hv => ?_⟩
    apply hiff.2
    right
    right
    apply one_le_abs_toFloat
    rw [hd]
    exact hv
  · intro calcRe corrconf tar mb ptbin cent massbin _
    have hiff := massBinStep_unchanged_iff calcRe corrconf tar mb ptbin cent massbin
    refine ⟨hiff, fun hv => hiff.2 (Or.inr (one_le_abs_toFloat _ hv)), fun hd hv => ?_⟩
    apply hiff.2
    right
    apply one_le_abs_toFloat
    rw [hd]
    exact hv

/-- C2 amended, at concrete inputs: ratio exactly `1` (numerator `2`, denominator `2`) in
`fillProfile` and in the mass-bin loop body, ratio exactly `-1` in `fillProfilepT`; the
denominator `2` is a `float`. -/
theorem computed_ratio_at_least_one_is_suppressed_witness :
    leavesProfilesUnchanged (fillProfile (constCalc 2 2) (corrconfigsAt 15) "c22" 35) ∧
      leavesProfilesUnchanged
        (fillProfilepT defaultConfig (constCalc (-2) 2) (corrconfigsAt 0) "c22dpt" 3 35) ∧
      leavesProfilesUnchanged
        (massBinStep (constCalc 2 2) (corrconfigsAt 9) (Target.slot JkArray.k0sc22 0)
          k0sBinning 3 35 2) :=
  ⟨computed_ratio_at_least_one_is_suppressed.1 (constCalc 2 2) (corrconfigsAt 15) "c22" 35
      (by norm_num [constCalc]) (by norm_num [constCalc]),
    (computed_ratio_at_least_one_is_suppressed.2.2.1 defaultConfig (constCalc (-2) 2)
      (corrconfigsAt 0) "c22dpt" 3 35 (by norm_num [constCalc, inFloatRange, abs_lt])).2.2
      (by simp [constCalc, toFloat_two]) (by norm_num [constCalc]),
    (computed_ratio_at_least_one_is_suppressed.2.2.2.2 (constCalc 2 2) (corrconfigsAt 9)
      (Target.slot JkArray.k0sc22 0) k0sBinning 3 35 2
      (by norm_num [constCalc, inFloatRange, abs_lt])).2.2
      (by simp [constCalc, toFloat_two]) (by norm_num [constCalc])⟩

/-! ## C3: the weighted push -/

theorem rounded_ratio_fillProfilepT :
    fillProfilepT defaultConfig (constCalc 99999999 100000000) (corrconfigsAt 0) "c22dpt" 3 35
      = [Effect.gfwCalculate (corrconfigsAt 0) (3 - 1) true,
         Effect.gfwCalculate (corrconfigsAt 0) (3 - 1) false] := by
  unfold fillProfilepT
  simp only [constCalc, if_true, Bool.false_eq_true, if_false, toFloat_100000000,
    toFloat_rounds_to_one]
  norm_num

theorem tiny_denominator_massBinStep :
    massBinStep (constCalc (1 / 10 ^ 50) (4 / 10 ^ 50)) (corrconfigsAt 9)
        (Target.slot JkArray.k0sc22 0) k0sBinning 3 35 2
      = [Effect.gfwCalculate (corrconfigsAt 9) ((3 - 1) + ((2 - 1) * k0sBinning.nptbins))
          true] := by
  unfold massBinStep
  simp only [constCalc, if_true, toFloat_tiny]

theorem rounded_weight_fillProfilepT :
    fillProfilepT defaultConfig (constCalc 4194305 16777219) (corrconfigsAt 0) "c22dpt" 3 35
      = [Effect.gfwCalculate (corrconfigsAt 0) (3 - 1) true,
         Effect.gfwCalculate (corrconfigsAt 0) (3 - 1) false,
         Effect.profFill (Target.hist "c22dpt")
           ⟨[(fPtAxis defaultConfig).GetBinCenter 3, 35], 1 / 4, 16777220⟩] := by
  have h : (4194305 / 16777220 : ℚ) = 1 / 4 := by norm_num
  unfold fillProfilepT
  simp only [constCalc, if_true, Bool.false_eq_true, if_false, toFloat_16777219, h,
    toFloat_quarter]
  norm_num [abs_lt]

/-- C3 fails for the helpers it names, which keep the denominator and the ratio in `float`
locals.  With numerator `99999999` and denominator `100000000` the denominator is not `0`
and the ratio is below `1`, but its `float` value is `1`, so `fillProfilepT` fills nothing.
With numerator `10^-50` and denominator `4 · 10^-50` (ratio `1/4`) the `float` value of the
denominator is `0`, so the mass-bin loop of `fillProfilepTMass` skips the bin after the
denominator call.  With numerator `4194305` and denominator `16777219` the fill is made
with weight `16777220`, the `float` value of the denominator, and value `1/4`: the sum of
weights of the cell grows by `16777220`, not by the denominator. -/
theorem rounded_ratio_is_not_pushed :
    constCalc 99999999 100000000 (corrconfigsAt 0) (3 - 1) true ≠ 0 ∧
    |constCalc 99999999 100000000 (corrconfigsAt 0) (3 - 1) false
        / constCalc 99999999 100000000 (corrconfigsAt 0) (3 - 1) true| < 1 ∧
    fillProfilepT defaultConfig (constCalc 99999999 100000000) (corrconfigsAt 0) "c22dpt" 3 35
      = [Effect.gfwCalculate (corrconfigsAt 0) (3 - 1) true,
         Effect.gfwCalculate (corrconfigsAt 0) (3 - 1) false] ∧
    fillsFor (Target.hist "c22dpt")
      (fillProfilepT defaultConfig (constCalc 99999999 100000000) (corrconfigsAt 0) "c22dpt"
        3 35) = [] ∧
    constCalc (1 / 10 ^ 50) (4 / 10 ^ 50) (corrconfigsAt 9)
        ((3 - 1) + ((2 - 1) * k0sBinning.nptbins)) true ≠ 0 ∧
    |constCalc (1 / 10 ^ 50) (4 / 10 ^ 50) (corrconfigsAt 9)
          ((3 - 1) + ((2 - 1) * k0sBinning.nptbins)) false
        / constCalc (1 / 10 ^ 50) (4 / 10 ^ 50) (corrconfigsAt 9)
            ((3 - 1) + ((2 - 1) * k0sBinning.nptbins)) true| < 1 ∧
    massBinStep (constCalc (1 / 10 ^ 50) (4 / 10 ^ 50)) (corrconfigsAt 9)
        (Target.slot JkArray.k0sc22 0) k0sBinning 3 35 2
      = [Effect.gfwCalculate (corrconfigsAt 9) ((3 - 1) + ((2 - 1) * k0sBinning.nptbins))
          true] ∧
    fillProfilepT defaultConfig (constCalc 4194305 16777219) (corrconfigsAt 0) "c22dpt" 3 35
      = [Effect.gfwCalculate (corrconfigsAt 0) (3 - 1) true,
         Effect.gfwCalculate (corrconfigsAt 0) (3 - 1) false,
         Effect.profFill (Target.hist "c22dpt")
           ⟨[(fPtAxis defaultConfig).GetBinCenter 3, 35], 1 / 4, 16777220⟩] ∧
    ¬ addsToCell
        (fillProfilepT defaultConfig (constCalc 4194305 16777219) (corrconfigsAt 0) "c22dpt"
          3 35)
        (Target.hist "c22dpt") [(fPtAxis defaultConfig).GetBinCenter 3, 35] 4194305
        16777219 := by
  refine ⟨by norm_num [constCalc], by norm_num [constCalc, abs_lt],
    rounded_ratio_fillProfilepT, ?_, by norm_num [constCalc],
    by norm_num [constCalc, abs_lt], tiny_denominator_massBinStep,
    rounded_weight_fillProfilepT, ?_⟩
  · rw [rounded_ratio_fillProfilepT]
    rfl
  · intro h
    have h1 := (h [] (fun _ => true)).1
    rw [rounded_weight_fillProfilepT] at h1
    norm_num [Profile.after, fillsFor, Profile.sumW] at h1

theorem fillProfilepT_pushes (cfg : Config) (calcRe : CorrConfig → Int → Bool → ℚ)
    (corrconf : CorrConfig) (tarName : String) (ptbin : Int) (cent : ℚ)
    (h0 : toFloat (calcRe corrconf (ptbin - 1) true) ≠ 0)
    (hv : |toFloat (calcRe corrconf (ptbin - 1) false
            / toFloat (calcRe corrconf (ptbin - 1) true))| < 1) :
    fillProfilepT cfg calcRe corrconf tarName ptbin cent
        = [Effect.gfwCalculate corrconf (ptbin - 1) true,
           Effect.gfwCalculate corrconf (ptbin - 1) false,
           Effect.profFill (Target.hist tarName)
             ⟨[(fPtAxis cfg).GetBinCenter ptbin, cent],
               toFloat (calcRe corrconf (ptbin - 1) false
                 / toFloat (calcRe corrconf (ptbin - 1) true)),
               toFloat (calcRe corrconf (ptbin - 1) true)⟩] ∧
      addsToCell (fillProfilepT cfg calcRe corrconf tarName ptbin cent)
        (Target.hist tarName) [(fPtAxis cfg).GetBinCenter ptbin, cent]
        (toFloat (calcRe corrconf (ptbin - 1) true)
          * toFloat (calcRe corrconf (ptbin - 1) false
              / toFloat (calcRe corrconf (ptbin - 1) true)))
        (toFloat (calcRe corrconf (ptbin - 1) true)) := by
  have hfill := fillProfilepT_fills cfg calcRe corrconf tarName ptbin cent
    (Target.hist tarName)
  rw [if_pos ⟨rfl, h0, hv⟩] at hfill
  exact ⟨by simp [fillProfilepT, h0, hv], addsToCell_of_fillsFor _ _ _ _ _ hfill⟩

theorem massBinStep_pushes (calcRe : CorrConfig → Int → Bool → ℚ) (corrconf : CorrConfig)
    (tar : Target) (mb : MassBinning) (ptbin : Int) (cent : ℚ) (massbin : Int)
    (h0 : toFloat (calcRe corrconf ((ptbin - 1) + ((massbin - 1) * mb.nptbins)) true) ≠ 0)
    (hv : |toFloat (calcRe corrconf ((ptbin - 1) + ((massbin - 1) * mb.nptbins)) false
            / toFloat (calcRe corrconf ((ptbin - 1) + ((massbin - 1) * mb.nptbins)) true))|
          < 1) :
    massBinStep calcRe corrconf tar mb ptbin cent massbin
        = [Effect.gfwCalculate corrconf ((ptbin - 1) + ((massbin - 1) * mb.nptbins)) true,
           Effect.gfwCalculate corrconf ((ptbin - 1) + ((massbin - 1) * mb.nptbins)) false,
           Effect.profFill tar
             ⟨[mb.fpt.GetBinCenter ptbin, mb.fMass.GetBinCenter massbin, cent],
               toFloat (calcRe corrconf ((ptbin - 1) + ((massbin - 1) * mb.nptbins)) false
                 / toFloat
                     (calcRe corrconf ((ptbin - 1) + ((massbin - 1) * mb.nptbins)) true)),
               toFloat (calcRe corrconf ((ptbin - 1) + ((massbin - 1) * mb.nptbins)) true)⟩] ∧
      addsToCell (massBinStep calcRe corrconf tar mb ptbin cent massbin) tar
        [mb.fpt.GetBinCenter ptbin, mb.fMass.GetBinCenter massbin, cent]
        (toFloat (calcRe corrconf ((ptbin - 1) + ((massbin - 1) * mb.nptbins)) true)
          * toFloat (calcRe corrconf ((ptbin - 1) + ((massbin - 1) * mb.nptbins)) false
              / toFloat
                  (calcRe corrconf ((ptbin - 1) + ((massbin - 1) * mb.nptbins)) true)))
        (toFloat (calcRe corrconf ((ptbin - 1) + ((massbin - 1) * mb.nptbins)) true)) := by
  have hfill := massBinStep_fills calcRe corrconf tar mb ptbin cent massbin tar
  rw [if_pos ⟨rfl, h0, hv⟩] at hfill
  exact ⟨by simp [massBinStep, h0, hv], addsToCell_of_fillsFor _ _ _ _ _ hfill⟩

theorem exact_push_of_float (den num : ℚ) (h0 : toFloat den ≠ 0) (hd : toFloat den = den)
    (hr : toFloat (num / den) = num / den) :
    toFloat den * toFloat (num / toFloat den) = num := by
  rw [hd] at h0 ⊢
  rw [hr, mul_div_cancel₀ _ h0]

/-- C3, amended.  `fillProfilepT` and the body of the mass-bin loop of `fillProfilepTMass`
(either overload, `tar` being its profile) store the denominator and the ratio in `float`
locals: `d = float(dnx)` and `val = float(num / d)`.  For `dnx` in the range of `float`, if
`d ≠ 0` and `|val| < 1` the helper calls the engine for the denominator and the numerator
and then fills the target exactly once, at the pt bin centre (and the mass bin centre) and
the centrality, with value `val` and weight `d`; the cells of the target containing these
coordinates gain `d * val` in their sum of weighted values and `d` in their sum of weights,
and no other cell changes.  When the denominator and the ratio are `float` values already
(`float(dnx) = dnx` and `float(num / dnx) = num / dnx`) the value is `num / dnx`, the weight
is `dnx`, and the gains are `num` and `dnx`. -/
theorem weighted_push_in_single_precision :
    (∀ (cfg : Config) (calcRe : CorrConfig → Int → Bool → ℚ) (corrconf : CorrConfig)
        (tarName : String) (ptbin : Int) (cent : ℚ),
        inFloatRange (calcRe corrconf (ptbin - 1) true) →
        toFloat (calcRe corrconf (ptbin - 1) true) ≠ 0 →
        |toFloat (calcRe corrconf (ptbin - 1) false
            / toFloat (calcRe corrconf (ptbin - 1) true))| < 1 →
        fillProfilepT cfg calcRe corrconf tarName ptbin cent
            = [Effect.gfwCalculate corrconf (ptbin - 1) true,
               Effect.gfwCalculate corrconf (ptbin - 1) false,
               Effect.profFill (Target.hist tarName)
                 ⟨[(fPtAxis cfg).GetBinCenter ptbin, cent],
                   toFloat (calcRe corrconf (ptbin - 1) false
                     / toFloat (calcRe corrconf (ptbin - 1) true)),
                   toFloat (calcRe corrconf (ptbin - 1) true)⟩] ∧
          addsToCell (fillProfilepT cfg calcRe corrconf tarName ptbin cent)
            (Target.hist tarName) [(fPtAxis cfg).GetBinCenter ptbin, cent]
            (toFloat (calcRe corrconf (ptbin - 1) true)
              * toFloat (calcRe corrconf (ptbin - 1) false
                  / toFloat (calcRe corrconf (ptbin - 1) true)))
            (toFloat (calcRe corrconf (ptbin - 1) true)) ∧
          (toFloat (calcRe corrconf (ptbin - 1) true) = calcRe corrconf (ptbin - 1) true →
            toFloat (calcRe corrconf (ptbin - 1) false / calcRe corrconf (ptbin - 1) true)
              = calcRe corrconf (ptbin - 1) false / calcRe corrconf (ptbin - 1) true →
            addsToCell (fillProfilepT cfg calcRe corrconf tarName ptbin cent)
              (Target.hist tarName) [(fPtAxis cfg).GetBinCenter ptbin, cent]
              (calcRe corrconf (ptbin - 1) false) (calcRe corrconf (ptbin - 1) true))) ∧
    (∀ (calcRe : CorrConfig → Int → Bool → ℚ) (corrconf : CorrConfig) (tar : Target)
        (mb : MassBinning) (ptbin : Int) (cent : ℚ) (massbin : Int),
        inFloatRange (calcRe corrconf ((ptbin - 1) + ((massbin - 1) * mb.nptbins)) true) →
        toFloat (calcRe corrconf ((ptbin - 1) + ((massbin - 1) * mb.nptbins)) true) ≠ 0 →
        |toFloat (calcRe corrconf ((ptbin - 1) + ((massbin - 1) * mb.nptbins)) false
            / toFloat (calcRe corrconf ((ptbin - 1) + ((massbin - 1) * mb.nptbins)) true))|
          < 1 →
        massBinStep calcRe corrconf tar mb ptbin cent massbin
            = [Effect.gfwCalculate corrconf ((ptbin - 1) + ((massbin - 1) * mb.nptbins)) true,
               Effect.gfwCalculate corrconf ((ptbin - 1) + ((massbin - 1) * mb.nptbins)) false,
               Effect.profFill tar
                 ⟨[mb.fpt.GetBinCenter ptbin, mb.fMass.GetBinCenter massbin, cent],
                   toFloat (calcRe corrconf ((ptbin - 1) + ((massbin - 1) * mb.nptbins)) false
                     / toFloat
                         (calcRe corrconf ((ptbin - 1) + ((massbin - 1) * mb.nptbins)) true)),
                   toFloat
                     (calcRe corrconf ((ptbin - 1) + ((massbin - 1) * mb.nptbins)) true)⟩] ∧
          addsToCell (massBinStep calcRe corrconf tar mb ptbin cent massbin) tar
            [mb.fpt.GetBinCenter ptbin, mb.fMass.GetBinCenter massbin, cent]
            (toFloat (calcRe corrconf ((ptbin - 1) + ((massbin - 1) * mb.nptbins)) true)
              * toFloat (calcRe corrconf ((ptbin - 1) + ((massbin - 1) * mb.nptbins)) false
                  / toFloat
                      (calcRe corrconf ((ptbin - 1) + ((massbin - 1) * mb.nptbins)) true)))
            (toFloat (calcRe corrconf ((ptbin - 1) + ((massbin - 1) * mb.nptbins)) true)) ∧
          (toFloat (calcRe corrconf ((ptbin - 1) + ((massbin - 1) * mb.nptbins)) true)
              = calcRe corrconf ((ptbin - 1) + ((massbin - 1) * mb.nptbins)) true →
            toFloat (calcRe corrconf ((ptbin - 1) + ((massbin - 1) * mb.nptbins)) false
                / calcRe corrconf ((ptbin - 1) + ((massbin - 1) * mb.nptbins)) true)
              = calcRe corrconf ((ptbin - 1) + ((massbin - 1) * mb.nptbins)) false
                / calcRe corrconf ((ptbin - 1) + ((massbin - 1) * mb.nptbins)) true →
            addsToCell (massBinStep calcRe corrconf tar mb ptbin cent massbin) tar
              [mb.fpt.GetBinCenter ptbin, mb.fMass.GetBinCenter massbin, cent]
              (calcRe corrconf ((ptbin - 1) + ((massbin - 1) * mb.nptbins)) false)
              (calcRe corrconf ((ptbin - 1) + ((massbin - 1) * mb.nptbins)) true))) := by
  constructor
  · intro cfg calcRe corrconf tarName ptbin cent _ h0 hv
    obtain ⟨h1, h2⟩ := fillProfilepT_pushes cfg calcRe corrconf tarName ptbin cent h0 hv
    refine ⟨h1, h2, fun hd hr => ?_⟩
    rw [exact_push_of_float _ _ h0 hd hr, hd] at h2
    exact h2
  · intro calcRe corrconf tar mb ptbin cent massbin _ h0 hv
    obtain ⟨h1, h2⟩ := massBinStep_pushes calcRe corrconf tar mb ptbin cent massbin h0 hv
    refine ⟨h1, h2, fun hd hr => ?_⟩
    rw [exact_push_of_float _ _ h0 hd hr, hd] at h2
    exact h2

theorem constCalc_quarter_facts (c : CorrConfig) (b : Int) :
    inFloatRange (constCalc 1 4 c b true) ∧ toFloat (constCalc 1 4 c b true) ≠ 0 ∧
      |toFloat (constCalc 1 4 c b false / toFloat (constCalc 1 4 c b true))| < 1 ∧
      toFloat (constCalc 1 4 c b true) = constCalc 1 4 c b true ∧
      toFloat (constCalc 1 4 c b false / constCalc 1 4 c b true)
        = constCalc 1 4 c b false / constCalc 1 4 c b true := by
  simp only [constCalc, if_true, Bool.false_eq_true, if_false, toFloat_four, toFloat_quarter]
  norm_num [inFloatRange, abs_lt]

/-- C3 amended, at a concrete input: numerator `1`, denominator `4` (both, and the ratio
`1/4`, are `float` values) in pt bin `3` of the default charged axis, and in pt bin `3`,
mass bin `2` of the K0s binning. -/
theorem weighted_push_in_single_precision_witness :
    addsToCell (fillProfilepT defaultConfig (constCalc 1 4) (corrconfigsAt 0) "c22dpt" 3 35)
        (Target.hist "c22dpt") [(fPtAxis defaultConfig).GetBinCenter 3, 35] 1 4 ∧
      addsToCell
        (massBinStep (constCalc 1 4) (corrconfigsAt 9) (Target.slot JkArray.k0sc22 0)
          k0sBinning 3 35 2)
        (Target.slot JkArray.k0sc22 0)
        [k0sBinning.fpt.GetBinCenter 3, k0sBinning.fMass.GetBinCenter 2, 35] 1 4 :=
  ⟨(weighted_push_in_single_precision.1 defaultConfig (constCalc 1 4) (corrconfigsAt 0)
      "c22dpt" 3 35 (constCalc_quarter_facts _ _).1 (constCalc_quarter_facts _ _).2.1
      (constCalc_quarter_facts _ _).2.2.1).2.2
      (constCalc_quarter_facts _ _).2.2.2.1 (constCalc_quarter_facts _ _).2.2.2.2,
    (weighted_push_in_single_precision.2 (constCalc 1 4) (corrconfigsAt 9)
      (Target.slot JkArray.k0sc22 0) k0sBinning 3 35 2 (constCalc_quarter_facts _ _).1
      (constCalc_quarter_facts _ _).2.1 (constCalc_quarter_facts _ _).2.2.1).2.2
      (constCalc_quarter_facts _ _).2.2.2.1 (constCalc_quarter_facts _ _).2.2.2.2⟩

/-! ## C9: non-differential correlators use bin 0 -/

/-- C9. A call of `fillProfile` (either overload) consists of the denominator call at bin
`0`, optionally followed by the numerator call at bin `0`, optionally followed by one fill of
its target: the engine is only asked for bin `0` and at most one fill is made.  When the
`pTDif` flag of the config is set the call never gets past the denominator, so nothing is
filled.  The configs handed to `fillProfile` by `processData` and `processMC`, catalog
entries 15, 16 and 25, were declared with `pTDif = false`. -/
theorem non_differential_uses_bin_zero :
    (∀ (calcRe : CorrConfig → Int → Bool → ℚ) (corrconf : CorrConfig) (tarName : String)
        (cent : ℚ),
        fillProfile calcRe corrconf tarName cent = [Effect.gfwCalculate corrconf 0 true] ∨
        fillProfile calcRe corrconf tarName cent
          = [Effect.gfwCalculate corrconf 0 true, Effect.gfwCalculate corrconf 0 false] ∨
        ∃ entry, fillProfile calcRe corrconf tarName cent
          = [Effect.gfwCalculate corrconf 0 true, Effect.gfwCalculate corrconf 0 false,
             Effect.profFill (Target.hist tarName) entry]) ∧
    (∀ (calcRe : CorrConfig → Int → Bool → ℚ) (corrconf : CorrConfig) (TProfile : Target)
        (cent : ℚ),
        fillProfilePtr calcRe corrconf TProfile cent = [Effect.gfwCalculate corrconf 0 true] ∨
        fillProfilePtr calcRe corrconf TProfile cent
          = [Effect.gfwCalculate corrconf 0 true, Effect.gfwCalculate corrconf 0 false] ∨
        ∃ entry, fillProfilePtr calcRe corrconf TProfile cent
          = [Effect.gfwCalculate corrconf 0 true, Effect.gfwCalculate corrconf 0 false,
             Effect.profFill TProfile entry]) ∧
    (∀ (calcRe : CorrConfig → Int → Bool → ℚ) (corrconf : CorrConfig) (tarName : String)
        (TProfile : Target) (cent : ℚ), corrconf.pTDif = true →
        fillProfile calcRe corrconf tarName cent = [Effect.gfwCalculate corrconf 0 true] ∧
        fillProfilePtr calcRe corrconf TProfile cent = [Effect.gfwCalculate corrconf 0 true]) ∧
    (corrconfigsAt 15).pTDif = false ∧ (corrconfigsAt 16).pTDif = false ∧
    (corrconfigsAt 25).pTDif = false := by
  refine ⟨?_, ?_, ?_, rfl, rfl, rfl⟩
  · intro calcRe corrconf tarName cent
    unfold fillProfile
    by_cases h0 : calcRe corrconf 0 true = 0
    · simp [h0]
    · by_cases hp : corrconf.pTDif = false
      · by_cases hv : |calcRe corrconf 0 false / calcRe corrconf 0 true| < 1
        · simp [h0, hp, hv]
        · simp [h0, hp, hv]
      · simp [h0, hp]
  · intro calcRe corrconf TProfile cent
    unfold fillProfilePtr
    by_cases h0 : calcRe corrconf 0 true = 0
    · simp [h0]
    · by_cases hp : corrconf.pTDif = false
      · by_cases hv : |calcRe corrconf 0 false / calcRe corrconf 0 true| < 1
        · simp [h0, hp, hv]
        · simp [h0, hp, hv]
      · simp [h0, hp]
  · intro calcRe corrconf tarName TProfile cent hp
    constructor
    · simp [fillProfile, hp]
    · simp [fillProfilePtr, hp]

/-- C9, at a concrete input: a pt-differential config (catalog entry 0) with numerator `1`
and denominator `4` makes `fillProfile` stop after the denominator call. -/
theorem non_differential_uses_bin_zero_witness :
    fillProfile (constCalc 1 4) (corrconfigsAt 0) "c22" 35
        = [Effect.gfwCalculate (corrconfigsAt 0) 0 true] ∧
      fillProfilePtr (constCalc 1 4) (corrconfigsAt 0) (Target.slot JkArray.refc22 0) 35
        = [Effect.gfwCalculate (corrconfigsAt 0) 0 true] :=
  non_differential_uses_bin_zero.2.2.1 (constCalc 1 4) (corrconfigsAt 0) "c22"
    (Target.slot JkArray.refc22 0) 35 rfl

/-! ## C4: the jackknife draw -/

theorem jackknifeSkips_of_int (k j : Int) : jackknifeSkips (k : ℚ) j = false := by
  simp only [jackknifeSkips, decide_eq_false_iff_not, not_and, not_lt]
  intro h
  have h1 : j - 1 < k := by exact_mod_cast h
  have h2 : j ≤ k := by omega
  exact_mod_cast h2

/-- C4, the code at the failing input: for the draw `Rndm() = 1/2` the scaled draw is the
integer `5`, the condition of the `continue` holds for no `j`, and the jackknife loop fills
all ten subsamples, whatever the configuration, engine state and centrality. -/
theorem jackknife_draw_one_half_excludes_none :
    (∀ j : Int, jackknifeSkips (10 * (1 / 2)) j = false) ∧
      ∀ (cfg : Config) (calcRe : CorrConfig → Int → Bool → ℚ) (cent : ℚ),
        fillJackknife cfg calcRe cent (10 * (1 / 2))
          = (loopFromOne 10).flatMap (fun j => fillSubsample cfg calcRe cent j) := by
  have h : ∀ j : Int, jackknifeSkips (10 * (1 / 2)) j = false := by
    intro j
    have h5 : (10 * (1 / 2) : ℚ) = ((5 : Int) : ℚ) := by norm_num
    rw [h5]
    exact jackknifeSkips_of_int 5 j
  refine ⟨h, ?_⟩
  intro cfg calcRe cent
  simp only [fillJackknife, h, Bool.false_eq_true, if_false]

/-! ## C6: the combined pt x mass index -/

theorem toNat_eighty : (80 : Int).toNat = 80 := rfl

theorem v0Step_overflow_pt :
    (v0Step nullEnv defaultConfig noCalibration ⟨TAxis.fix 400 (-nullEnv.TwoPI) nullEnv.TwoPI, []⟩
        0 ⟨1, 1, 1⟩ (k0sCandidate 12 0.401)).2 = [Effect.gfwFill 0.5 14 1 1 8] := by
  norm_num [v0Step, v0IsK0s, v0IsLambda, v0PassesCuts, k0sCandidate, goodDaughter, nullEnv,
    defaultConfig, cfgNSigma, candWeights, fV0PtAxis, fK0sMass, nV0PtBins, cfgmassbins,
    TAxis.FindBin, TAxis.GetXmin, TAxis.GetXmax, TAxis.GetNbins, TAxis.truncInt,
    toNat_eighty, TAxis.binarySearch, List.takeWhile, abs_lt, le_abs, lt_abs]

theorem v0Step_first_pt_bin :
    (v0Step nullEnv defaultConfig noCalibration ⟨TAxis.fix 400 (-nullEnv.TwoPI) nullEnv.TwoPI, []⟩
        0 ⟨1, 1, 1⟩ (k0sCandidate 1 0.4035)).2 = [Effect.gfwFill 0.5 14 1 1 8] := by
  norm_num [v0Step, v0IsK0s, v0IsLambda, v0PassesCuts, k0sCandidate, goodDaughter, nullEnv,
    defaultConfig, cfgNSigma, candWeights, fV0PtAxis, fK0sMass, nV0PtBins, cfgmassbins,
    TAxis.FindBin, TAxis.GetXmin, TAxis.GetXmax, TAxis.GetNbins, TAxis.truncInt,
    toNat_eighty, TAxis.binarySearch, List.takeWhile, abs_lt, le_abs, lt_abs]

theorem v0Step_underflow_pt :
    (v0Step nullEnv defaultConfig noCalibration ⟨TAxis.fix 400 (-nullEnv.TwoPI) nullEnv.TwoPI, []⟩
        0 ⟨1, 1, 1⟩ (k0sCandidate (1 / 2) 0.4035)).2 = [Effect.gfwFill 0.5 13 1 1 8] := by
  norm_num [v0Step, v0IsK0s, v0IsLambda, v0PassesCuts, k0sCandidate, goodDaughter, nullEnv,
    defaultConfig, cfgNSigma, candWeights, fV0PtAxis, fK0sMass, nV0PtBins, cfgmassbins,
    TAxis.FindBin, TAxis.GetXmin, TAxis.GetXmax, TAxis.GetNbins, TAxis.truncInt,
    toNat_eighty, TAxis.binarySearch, List.takeWhile, abs_lt, le_abs, lt_abs]

theorem v0_axis_lookups :
    (fV0PtAxis defaultConfig).FindBin 12 = nV0PtBins defaultConfig + 1 ∧
    (fV0PtAxis defaultConfig).FindBin 1 = 1 ∧
    (fV0PtAxis defaultConfig).FindBin (1 / 2) = 0 := by
  refine ⟨?_, ?_, ?_⟩
  · norm_num [fV0PtAxis, nV0PtBins, defaultConfig, TAxis.FindBin, TAxis.GetXmin,
      TAxis.GetXmax, TAxis.GetNbins]
  · norm_num [fV0PtAxis, defaultConfig, TAxis.FindBin, TAxis.GetXmin, TAxis.GetXmax,
      TAxis.GetNbins, TAxis.binarySearch, List.takeWhile]
  · norm_num [fV0PtAxis, defaultConfig, TAxis.FindBin, TAxis.GetXmin, TAxis.GetXmax,
      TAxis.GetNbins]

theorem k0s_mass_lookups :
    (fK0sMass defaultConfig).FindBin 0.401 = 1 ∧ (fK0sMass defaultConfig).FindBin 0.4035 = 2 := by
  constructor
  · norm_num [fK0sMass, defaultConfig, cfgmassbins, TAxis.FindBin, TAxis.GetXmin,
      TAxis.GetXmax, TAxis.GetNbins, TAxis.truncInt, toNat_eighty]
  · norm_num [fK0sMass, defaultConfig, cfgmassbins, TAxis.FindBin, TAxis.GetXmin,
      TAxis.GetXmax, TAxis.GetNbins, TAxis.truncInt, toNat_eighty]

/-- C6, the code at the failing inputs, default configuration.  A K0s of `pt = 12` lies in the
overflow bin of the V0 pt axis (`FindBin = nV0PtBins + 1 = 15`) and of mass `0.401` in mass
bin `1`; `processData` passes it to `Fill` with index `14`, the index that
`fillProfilepTMass` reads for pt bin `1`, mass bin `2` and that a K0s of `pt = 1`, mass
`0.4035` (pt bin `1`, mass bin `2`) is filled with.  A K0s of `pt = 1/2` lies in the
underflow bin (`FindBin = 0`) and with mass `0.4035` gets index `13`, the index of pt bin
`14`, mass bin `1`. -/
theorem overflow_pt_lands_on_other_bin :
    (fV0PtAxis defaultConfig).FindBin 12 = nV0PtBins defaultConfig + 1 ∧
    (fK0sMass defaultConfig).FindBin 0.401 = 1 ∧
    (v0Step nullEnv defaultConfig noCalibration ⟨TAxis.fix 400 (-nullEnv.TwoPI) nullEnv.TwoPI, []⟩
        0 ⟨1, 1, 1⟩ (k0sCandidate 12 0.401)).2 = [Effect.gfwFill 0.5 14 1 1 8] ∧
    (fV0PtAxis defaultConfig).FindBin 1 = 1 ∧
    (fK0sMass defaultConfig).FindBin 0.4035 = 2 ∧
    (v0Step nullEnv defaultConfig noCalibration ⟨TAxis.fix 400 (-nullEnv.TwoPI) nullEnv.TwoPI, []⟩
        0 ⟨1, 1, 1⟩ (k0sCandidate 1 0.4035)).2 = [Effect.gfwFill 0.5 14 1 1 8] ∧
    ((1 : Int) - 1) + ((2 - 1) * k0sBinning.nptbins) = 14 ∧
    (fV0PtAxis defaultConfig).FindBin (1 / 2) = 0 ∧
    (v0Step nullEnv defaultConfig noCalibration ⟨TAxis.fix 400 (-nullEnv.TwoPI) nullEnv.TwoPI, []⟩
        0 ⟨1, 1, 1⟩ (k0sCandidate (1 / 2) 0.4035)).2 = [Effect.gfwFill 0.5 13 1 1 8] ∧
    ((14 : Int) - 1) + ((1 - 1) * k0sBinning.nptbins) = 13 :=
  ⟨v0_axis_lookups.1, k0s_mass_lookups.1, v0Step_overflow_pt, v0_axis_lookups.2.1,
    k0s_mass_lookups.2, v0Step_first_pt_bin, by decide, v0_axis_lookups.2.2,
    v0Step_underflow_pt, by decide⟩

/-! ## C8: mass bins and cells of the output profile -/

theorem fix_findBin_center (n : Nat) (lo hi : ℚ) (h : lo < hi) (m : Int) (h1 : 1 ≤ m)
    (h2 : m ≤ n) :
    (TAxis.fix n lo hi).FindBin ((TAxis.fix n lo hi).GetBinCenter m) = m := by
  have hn : (0 : ℚ) < n := by
    have : (1 : Int) ≤ n := le_trans h1 h2
    have : (0 : Int) < n := by omega
    exact_mod_cast this
  have hd : (0 : ℚ) < hi - lo := by linarith
  have hm1 : (1 : ℚ) ≤ m := by exact_mod_cast h1
  have hm2 : (m : ℚ) ≤ n := by exact_mod_cast h2
  have hw : (0 : ℚ) < (hi - lo) / n := div_pos hd hn
  have hc : (TAxis.fix n lo hi).GetBinCenter m = lo + ((m : ℚ) - 1 / 2) * ((hi - lo) / n) := by
    simp only [TAxis.GetBinCenter]; ring
  have hq : (n : ℚ) * ((lo + ((m : ℚ) - 1 / 2) * ((hi - lo) / n)) - lo) / (hi - lo)
      = (m : ℚ) - 1 / 2 := by
    field_simp
    ring
  rw [hc]
  have hlo : ¬ (lo + ((m : ℚ) - 1 / 2) * ((hi - lo) / n) < lo) := by
    have : 0 ≤ ((m : ℚ) - 1 / 2) * ((hi - lo) / n) := mul_nonneg (by linarith) hw.le
    linarith
  have hhi : lo + ((m : ℚ) - 1 / 2) * ((hi - lo) / n) < hi := by
    have h3 : ((m : ℚ) - 1 / 2) * ((hi - lo) / n) < (n : ℚ) * ((hi - lo) / n) :=
      mul_lt_mul_of_pos_right (by linarith) hw
    have h4 : (n : ℚ) * ((hi - lo) / n) = hi - lo := by field_simp
    linarith
  have hfl : Int.floor ((m : ℚ) - 1 / 2) = m - 1 := by
    rw [Int.floor_eq_iff]
    constructor <;> push_cast <;> linarith
  have hnn : (0 : ℚ) ≤ (m : ℚ) - 1 / 2 := by linarith
  simp only [TAxis.FindBin, TAxis.GetXmin, TAxis.GetXmax, hlo, hhi, if_false, not_true, hq,
    TAxis.truncInt, not_lt, hnn, if_true, hfl]
  ring

/-- C8, the code at the failing input, default configuration.  The internal K0s mass axis
has `cfgMassBins[0] = 80` bins and the mass axis of the K0s output profiles
(`cfgaxisK0sMassforflow`) has `40`; the centres of the internal mass bins `1` and `2`, at
which `fillProfilepTMass` fills, both lie in bin `1` of the output axis.  For Lambda, Xi and
Omega the two axes agree and the centre of mass bin `m` lies in output bin `m`. -/
theorem k0s_mass_bins_share_output_cell :
    cfgmassbins defaultConfig 0 = 80 ∧
    defaultConfig.cfgaxisK0sMassforflow.toTAxis.GetNbins = 40 ∧
    defaultConfig.cfgaxisK0sMassforflow.toTAxis.FindBin
        ((fK0sMass defaultConfig).GetBinCenter 1) = 1 ∧
    defaultConfig.cfgaxisK0sMassforflow.toTAxis.FindBin
        ((fK0sMass defaultConfig).GetBinCenter 2) = 1 ∧
    (∀ m : Int, 1 ≤ m → m ≤ cfgmassbins defaultConfig 1 →
      defaultConfig.cfgaxisLambdaMassforflow.toTAxis.FindBin
        ((fLambdaMass defaultConfig).GetBinCenter m) = m) ∧
    (∀ m : Int, 1 ≤ m → m ≤ cfgmassbins defaultConfig 2 →
      defaultConfig.cfgaxisXiMassforflow.toTAxis.FindBin
        ((fXiMass defaultConfig).GetBinCenter m) = m) ∧
    (∀ m : Int, 1 ≤ m → m ≤ cfgmassbins defaultConfig 3 →
      defaultConfig.cfgaxisOmegaMassforflow.toTAxis.FindBin
        ((fOmegaMass defaultConfig).GetBinCenter m) = m) := by
  refine ⟨rfl, rfl, ?_, ?_, ?_, ?_, ?_⟩
  · norm_num [fK0sMass, defaultConfig, cfgmassbins, TAxis.GetBinCenter, AxisSpec.toTAxis,
      TAxis.FindBin, TAxis.GetXmin, TAxis.GetXmax, TAxis.GetNbins, TAxis.truncInt, toNat_eighty]
  · norm_num [fK0sMass, defaultConfig, cfgmassbins, TAxis.GetBinCenter, AxisSpec.toTAxis,
      TAxis.FindBin, TAxis.GetXmin, TAxis.GetXmax, TAxis.GetNbins, TAxis.truncInt, toNat_eighty]
  · intro m h1 h2
    have e1 : defaultConfig.cfgaxisLambdaMassforflow.toTAxis = TAxis.fix 32 1.08 1.16 := rfl
    have e2 : fLambdaMass defaultConfig = TAxis.fix 32 1.08 1.16 := rfl
    have e3 : cfgmassbins defaultConfig 1 = 32 := rfl
    rw [e1, e2]
    rw [e3] at h2
    exact fix_findBin_center 32 1.08 1.16 (by norm_num) m h1 (by exact_mod_cast h2)
  · intro m h1 h2
    have e1 : defaultConfig.cfgaxisXiMassforflow.toTAxis = TAxis.fix 14 1.3 1.37 := rfl
    have e2 : fXiMass defaultConfig = TAxis.fix 14 1.3 1.37 := rfl
    have e3 : cfgmassbins defaultConfig 2 = 14 := rfl
    rw [e1, e2]
    rw [e3] at h2
    exact fix_findBin_center 14 1.3 1.37 (by norm_num) m h1 (by exact_mod_cast h2)
  · intro m h1 h2
    have e1 : defaultConfig.cfgaxisOmegaMassforflow.toTAxis = TAxis.fix 16 1.63 1.71 := rfl
    have e2 : fOmegaMass defaultConfig = TAxis.fix 16 1.63 1.71 := rfl
    have e3 : cfgmassbins defaultConfig 3 = 16 := rfl
    rw [e1, e2]
    rw [e3] at h2
    exact fix_findBin_center 16 1.63 1.71 (by norm_num) m h1 (by exact_mod_cast h2)

/-! ## C10: `Clear` and the uses of the engine -/

theorem shape_of_parts (X Y Z : List Effect) (hX : ∀ e ∈ X, e.isGfwFill = true)
    (hY : ∀ e ∈ Y, e.isReadOrProfile = true) (hZ : ∀ e ∈ Z, e.isReadOrProfile = true) :
    ∃ fills rest : List Effect,
      (Effect.gfwClear :: X) ++ Y ++ Z = Effect.gfwClear :: (fills ++ rest) ∧
        (∀ e ∈ fills, e.isGfwFill = true) ∧ (∀ e ∈ rest, e.isReadOrProfile = true) := by
  refine ⟨X, Y ++ Z, by simp, hX, ?_⟩
  intro e he
  rcases List.mem_append.1 he with h | h
  · exact hY e h
  · exact hZ e h

theorem processData_effects_shape {G : Type} (E : Env G) (cfg : Config) (m : Members) (g0 : G)
    (rndm : ℚ) (collision : Collision) (tracks : List Track) (Cascades : List Cascade)
    (V0s : List V0) :
    (tracks.isEmpty = true ∧
        (processData E cfg m g0 rndm collision tracks Cascades V0s).1 = []) ∨
      (tracks.isEmpty = false ∧
        ∃ fills rest : List Effect,
          (processData E cfg m g0 rndm collision tracks Cascades V0s).1
              = Effect.gfwClear :: (fills ++ rest) ∧
            (∀ e ∈ fills, e.isGfwFill = true) ∧ (∀ e ∈ rest, e.isReadOrProfile = true)) := by
  cases tracks with
  | nil => left; simp [processData]
  | cons track others =>
    right
    refine ⟨rfl, ?_⟩
    have hlen : ¬ (((track :: others).length : Int) < 1) := by
      simp only [List.length_cons]; push_cast; omega
    unfold processData
    simp only [hlen, if_false]
    by_cases hsel : collision.sel8 = false
    · exact ⟨[], [], by simp [hsel], by simp, by simp⟩
    · by_cases hev : eventSelected E cfg collision collision.centFT0C = true
      · exact ⟨[], [], by simp [hsel, hev], by simp, by simp⟩
      · simp only [hsel, hev, if_false, Bool.true_eq_false, Bool.false_eq_true]
        apply shape_of_parts
        · intro e he
          simp only [List.mem_append] at he
          rcases he with (he | he) | he
          · exact trackLoop_isGfwFill _ _ _ _ _ _ e he
          · exact v0Loop_isGfwFill _ _ _ _ _ _ _ e he
          · exact cascLoop_isGfwFill _ _ _ _ _ _ _ e he
        · exact fillFullSample_isReadOrProfile _ _ _
        · intro e he
          split_ifs at he
          · exact fillJackknife_isReadOrProfile _ _ _ _ e he
          · simp at he

theorem processMC_effects_shape {G : Type} (E : Env G) (cfg : Config) (g0 : G)
    (tracksGen : List McParticle) (collisionsRec : List Collision) :
    ∃ fills rest : List Effect,
      processMC E cfg g0 tracksGen collisionsRec = Effect.gfwClear :: (fills ++ rest) ∧
        (∀ e ∈ fills, e.isGfwFill = true) ∧ (∀ e ∈ rest, e.isReadOrProfile = true) := by
  unfold processMC
  cases mcCentLoop E cfg (-1) collisionsRec with
  | none => exact ⟨[], [], by simp, by simp, by simp⟩
  | some cent =>
    by_cases hc : cent < 0
    · exact ⟨[], [], by simp [hc], by simp, by simp⟩
    · simp only [hc, if_false]
      have h := shape_of_parts _ _ [] (mcFills_isGfwFill cfg tracksGen)
        (fillMC_isReadOrProfile cfg
          (E.gfwCalculate (gfwRun E g0 (Effect.gfwClear ::
            (tracksGen.flatMap (mcRefStep cfg) ++ tracksGen.flatMap (mcCascStep cfg) ++
              tracksGen.flatMap (mcV0Step cfg))))) cent) (by simp)
      simpa using h

theorem count_clear_of_shape (fills rest : List Effect)
    (hf : ∀ e ∈ fills, e.isGfwFill = true) (hr : ∀ e ∈ rest, e.isReadOrProfile = true) :
    (Effect.gfwClear :: (fills ++ rest)).count Effect.gfwClear = 1 := by
  rw [List.count_cons_self, List.count_append, count_clear_of_isGfwFill fills hf,
    count_clear_of_isReadOrProfile rest hr]

/-- C10, as stated, fails: `processData` called with an empty track table returns at
`if (nTot < 1) return;`, before `fGFW->Clear()`; the invocation has no effect at all, so
`Clear` is called zero times, not once. -/
theorem processData_without_tracks_never_clears :
    (processData nullEnv defaultConfig noCalibration () (1 / 3) passingCollision [] [] []).1 = [] ∧
      (processData nullEnv defaultConfig noCalibration () (1 / 3) passingCollision [] [] []).1.count
          Effect.gfwClear ≠ 1 := by
  constructor
  · simp [processData]
  · simp [processData]

/-- C10 (amended). An invocation of `processData` calls `fGFW->Clear()` exactly once when the
track table is not empty and not at all when it is empty (it then returns before `Clear`
and has no effect); an invocation of `processMC` calls it exactly once.  In both, every
`fGFW->Fill` and every `fGFW->Calculate` of the invocation comes after a `Clear` of the same
invocation. -/
theorem clear_precedes_engine_use {G : Type} (E : Env G) (cfg : Config) (m : Members) (g0 : G)
    (rndm : ℚ) (collision : Collision) (tracks : List Track) (Cascades : List Cascade)
    (V0s : List V0) (tracksGen : List McParticle) (collisionsRec : List Collision) :
    (processData E cfg m g0 rndm collision tracks Cascades V0s).1.count Effect.gfwClear
        = (if tracks.isEmpty then 0 else 1) ∧
      clearPrecedesEveryUse (processData E cfg m g0 rndm collision tracks Cascades V0s).1 ∧
      (processMC E cfg g0 tracksGen collisionsRec).count Effect.gfwClear = 1 ∧
      clearPrecedesEveryUse (processMC E cfg g0 tracksGen collisionsRec) := by
  refine ⟨?_, ?_, ?_, ?_⟩
  · rcases processData_effects_shape E cfg m g0 rndm collision tracks Cascades V0s with
      ⟨ht, he⟩ | ⟨ht, fills, rest, he, hf, hr⟩
    · rw [he, ht]; rfl
    · rw [he, ht, count_clear_of_shape fills rest hf hr]; rfl
  · rcases processData_effects_shape E cfg m g0 rndm collision tracks Cascades V0s with
      ⟨_, he⟩ | ⟨_, fills, rest, he, _, _⟩
    · rw [he]; exact clearPrecedesEveryUse_nil
    · rw [he]; exact clearPrecedesEveryUse_cons_clear _
  · obtain ⟨fills, rest, he, hf, hr⟩ := processMC_effects_shape E cfg g0 tracksGen collisionsRec
    rw [he, count_clear_of_shape fills rest hf hr]
  · obtain ⟨fills, rest, he, _, _⟩ := processMC_effects_shape E cfg g0 tracksGen collisionsRec
    rw [he]; exact clearPrecedesEveryUse_cons_clear _

/-! ## C5: the jackknife replicas -/

theorem bookedSlots_eq (cfg : Config) (arr : JkArray) (h : cfg.cfgDoJackknife = true) :
    bookedSlots cfg arr = (loopFromOne (nPtBins cfg)).map (fun i => i - 1) := by
  unfold bookedSlots initJackknife
  rw [if_pos h]
  induction loopFromOne (nPtBins cfg) with
  | nil => rfl
  | cons i rest ih =>
    rw [List.flatMap_cons, List.filter_append, List.map_append, ih]
    cases arr <;> simp

theorem regions_names (cfg : Config) : (regions cfg).map (fun r => r.name) = regionNames := rfl

theorem regionNames_nodup : regionNames.Nodup := by decide

theorem etaGapPair_0 (cfg : Config) : etaGapPair cfg (corrconfigsAt 0) :=
  ⟨"poiP10dpt", "refN10", ⟨"poiP10dpt", 0.4, 0.8, nPtBins cfg, 32⟩, ⟨"refN10", (-0.8), (-0.4), 1, 1⟩, by decide, rfl, rfl,
    Or.inl ⟨rfl, rfl, rfl, rfl, by norm_num⟩⟩

theorem etaGapPair_1 (cfg : Config) : etaGapPair cfg (corrconfigsAt 1) :=
  ⟨"poiN10dpt", "refP10", ⟨"poiN10dpt", (-0.8), (-0.4), nPtBins cfg, 32⟩, ⟨"refP10", 0.4, 0.8, 1, 1⟩, by decide, rfl, rfl,
    Or.inr ⟨rfl, rfl, rfl, rfl, by norm_num⟩⟩

theorem etaGapPair_3 (cfg : Config) : etaGapPair cfg (corrconfigsAt 3) :=
  ⟨"poiXiPdpt", "refN10", ⟨"poiXiPdpt", 0.4, 0.8, nXiPtBins cfg * cfgmassbins cfg 2, 2⟩, ⟨"refN10", (-0.8), (-0.4), 1, 1⟩, by decide, rfl, rfl,
    Or.inl ⟨rfl, rfl, rfl, rfl, by norm_num⟩⟩

theorem etaGapPair_4 (cfg : Config) : etaGapPair cfg (corrconfigsAt 4) :=
  ⟨"poiXiNdpt", "refP10", ⟨"poiXiNdpt", (-0.8), (-0.4), nXiPtBins cfg * cfgmassbins cfg 2, 2⟩, ⟨"refP10", 0.4, 0.8, 1, 1⟩, by decide, rfl, rfl,
    Or.inr ⟨rfl, rfl, rfl, rfl, by norm_num⟩⟩

theorem etaGapPair_6 (cfg : Config) : etaGapPair cfg (corrconfigsAt 6) :=
  ⟨"poiOmegaPdpt", "refN10", ⟨"poiOmegaPdpt", 0.4, 0.8, nXiPtBins cfg * cfgmassbins cfg 3, 4⟩, ⟨"refN10", (-0.8), (-0.4), 1, 1⟩, by decide, rfl, rfl,
    Or.inl ⟨rfl, rfl, rfl, rfl, by norm_num⟩⟩

theorem etaGapPair_7 (cfg : Config) : etaGapPair cfg (corrconfigsAt 7) :=
  ⟨"poiOmegaNdpt", "refP10", ⟨"poiOmegaNdpt", (-0.8), (-0.4), nXiPtBins cfg * cfgmassbins cfg 3, 4⟩, ⟨"refP10", 0.4, 0.8, 1, 1⟩, by decide, rfl, rfl,
    Or.inr ⟨rfl, rfl, rfl, rfl, by norm_num⟩⟩

theorem etaGapPair_9 (cfg : Config) : etaGapPair cfg (corrconfigsAt 9) :=
  ⟨"poiK0sPdpt", "refN10", ⟨"poiK0sPdpt", 0.4, 0.8, nV0PtBins cfg * cfgmassbins cfg 0, 8⟩, ⟨"refN10", (-0.8), (-0.4), 1, 1⟩, by decide, rfl, rfl,
    Or.inl ⟨rfl, rfl, rfl, rfl, by norm_num⟩⟩

theorem etaGapPair_10 (cfg : Config) : etaGapPair cfg (corrconfigsAt 10) :=
  ⟨"poiK0sNdpt", "refP10", ⟨"poiK0sNdpt", (-0.8), (-0.4), nV0PtBins cfg * cfgmassbins cfg 0, 8⟩, ⟨"refP10", 0.4, 0.8, 1, 1⟩, by decide, rfl, rfl,
    Or.inr ⟨rfl, rfl, rfl, rfl, by norm_num⟩⟩

theorem etaGapPair_12 (cfg : Config) : etaGapPair cfg (corrconfigsAt 12) :=
  ⟨"poiLambdaPdpt", "refN10", ⟨"poiLambdaPdpt", 0.4, 0.8, nV0PtBins cfg * cfgmassbins cfg 1, 16⟩, ⟨"refN10", (-0.8), (-0.4), 1, 1⟩, by decide, rfl, rfl,
    Or.inl ⟨rfl, rfl, rfl, rfl, by norm_num⟩⟩

theorem etaGapPair_13 (cfg : Config) : etaGapPair cfg (corrconfigsAt 13) :=
  ⟨"poiLambdaNdpt", "refP10", ⟨"poiLambdaNdpt", (-0.8), (-0.4), nV0PtBins cfg * cfgmassbins cfg 1, 16⟩, ⟨"refP10", 0.4, 0.8, 1, 1⟩, by decide, rfl, rfl,
    Or.inr ⟨rfl, rfl, rfl, rfl, by norm_num⟩⟩

theorem etaGapPair_15 (cfg : Config) : etaGapPair cfg (corrconfigsAt 15) :=
  ⟨"refP10", "refN10", ⟨"refP10", 0.4, 0.8, 1, 1⟩, ⟨"refN10", (-0.8), (-0.4), 1, 1⟩, by decide, rfl, rfl,
    Or.inl ⟨rfl, rfl, rfl, rfl, by norm_num⟩⟩

theorem etaGapPair_17 (cfg : Config) : etaGapPair cfg (corrconfigsAt 17) :=
  ⟨"poiXiPdptMC", "refN10MC", ⟨"poiXiPdptMC", 0.4, 0.8, nXiPtBins cfg * cfgmassbins cfg 2, 128⟩, ⟨"refN10MC", (-0.8), (-0.4), 1, 64⟩, by decide, rfl, rfl,
    Or.inl ⟨rfl, rfl, rfl, rfl, by norm_num⟩⟩

theorem etaGapPair_18 (cfg : Config) : etaGapPair cfg (corrconfigsAt 18) :=
  ⟨"poiXiNdptMC", "refP10MC", ⟨"poiXiNdptMC", (-0.8), (-0.4), nXiPtBins cfg * cfgmassbins cfg 2, 128⟩, ⟨"refP10MC", 0.4, 0.8, 1, 64⟩, by decide, rfl, rfl,
    Or.inr ⟨rfl, rfl, rfl, rfl, by norm_num⟩⟩

theorem etaGapPair_19 (cfg : Config) : etaGapPair cfg (corrconfigsAt 19) :=
  ⟨"poiOmegaPdptMC", "refN10MC", ⟨"poiOmegaPdptMC", 0.4, 0.8, nXiPtBins cfg * cfgmassbins cfg 3, 256⟩, ⟨"refN10MC", (-0.8), (-0.4), 1, 64⟩, by decide, rfl, rfl,
    Or.inl ⟨rfl, rfl, rfl, rfl, by norm_num⟩⟩

theorem etaGapPair_20 (cfg : Config) : etaGapPair cfg (corrconfigsAt 20) :=
  ⟨"poiOmegaNdptMC", "refP10MC", ⟨"poiOmegaNdptMC", (-0.8), (-0.4), nXiPtBins cfg * cfgmassbins cfg 3, 256⟩, ⟨"refP10MC", 0.4, 0.8, 1, 64⟩, by decide, rfl, rfl,
    Or.inr ⟨rfl, rfl, rfl, rfl, by norm_num⟩⟩

theorem etaGapPair_21 (cfg : Config) : etaGapPair cfg (corrconfigsAt 21) :=
  ⟨"poiK0sPdptMC", "refN10MC", ⟨"poiK0sPdptMC", 0.4, 0.8, nV0PtBins cfg * cfgmassbins cfg 0, 512⟩, ⟨"refN10MC", (-0.8), (-0.4), 1, 64⟩, by decide, rfl, rfl,
    Or.inl ⟨rfl, rfl, rfl, rfl, by norm_num⟩⟩

theorem etaGapPair_22 (cfg : Config) : etaGapPair cfg (corrconfigsAt 22) :=
  ⟨"poiK0sNdptMC", "refP10MC", ⟨"poiK0sNdptMC", (-0.8), (-0.4), nV0PtBins cfg * cfgmassbins cfg 0, 512⟩, ⟨"refP10MC", 0.4, 0.8, 1, 64⟩, by decide, rfl, rfl,
    Or.inr ⟨rfl, rfl, rfl, rfl, by norm_num⟩⟩

theorem etaGapPair_23 (cfg : Config) : etaGapPair cfg (corrconfigsAt 23) :=
  ⟨"poiLambdaPdptMC", "refN10MC", ⟨"poiLambdaPdptMC", 0.4, 0.8, nV0PtBins cfg * cfgmassbins cfg 1, 1024⟩, ⟨"refN10MC", (-0.8), (-0.4), 1, 64⟩, by decide, rfl, rfl,
    Or.inl ⟨rfl, rfl, rfl, rfl, by norm_num⟩⟩

theorem etaGapPair_24 (cfg : Config) : etaGapPair cfg (corrconfigsAt 24) :=
  ⟨"poiLambdaNdptMC", "refP10MC", ⟨"poiLambdaNdptMC", (-0.8), (-0.4), nV0PtBins cfg * cfgmassbins cfg 1, 1024⟩, ⟨"refP10MC", 0.4, 0.8, 1, 64⟩, by decide, rfl, rfl,
    Or.inr ⟨rfl, rfl, rfl, rfl, by norm_num⟩⟩

theorem etaGapPair_25 (cfg : Config) : etaGapPair cfg (corrconfigsAt 25) :=
  ⟨"refP10MC", "refN10MC", ⟨"refP10MC", 0.4, 0.8, 1, 64⟩, ⟨"refN10MC", (-0.8), (-0.4), 1, 64⟩, by decide, rfl, rfl,
    Or.inl ⟨rfl, rfl, rfl, rfl, by norm_num⟩⟩

/-- C18. Every 2-particle correlator of the catalog built in `init` (an entry whose
expression carries two harmonics; data and MC alike) names two declared regions, one with
eta range `[0.4, 0.8]` and the other with `[-0.8, -0.4]`: the regions are disjoint, `0.8`
apart in pseudorapidity, and the first (POI) region lies on the side opposite to the second
(reference) region. -/
theorem two_particle_correlators_span_the_gap (cfg : Config) (c : CorrConfig)
    (hc : c ∈ corrconfigs) (h2 : (exprHarmonics c.expr).length = 2) : etaGapPair cfg c := by
  simp only [corrconfigs, List.mem_cons, List.mem_singleton, List.not_mem_nil, or_false] at hc
  rcases hc with rfl | rfl | rfl | rfl | rfl | rfl | rfl | rfl | rfl | rfl | rfl | rfl | rfl |
    rfl | rfl | rfl | rfl | rfl | rfl | rfl | rfl | rfl | rfl | rfl | rfl | rfl
  · exact etaGapPair_0 cfg
  · exact etaGapPair_1 cfg
  · exact absurd h2 (by decide)
  · exact etaGapPair_3 cfg
  · exact etaGapPair_4 cfg
  · exact absurd h2 (by decide)
  · exact etaGapPair_6 cfg
  · exact etaGapPair_7 cfg
  · exact absurd h2 (by decide)
  · exact etaGapPair_9 cfg
  · exact etaGapPair_10 cfg
  · exact absurd h2 (by decide)
  · exact etaGapPair_12 cfg
  · exact etaGapPair_13 cfg
  · exact absurd h2 (by decide)
  · exact etaGapPair_15 cfg
  · exact absurd h2 (by decide)
  · exact etaGapPair_17 cfg
  · exact etaGapPair_18 cfg
  · exact etaGapPair_19 cfg
  · exact etaGapPair_20 cfg
  · exact etaGapPair_21 cfg
  · exact etaGapPair_22 cfg
  · exact etaGapPair_23 cfg
  · exact etaGapPair_24 cfg
  · exact etaGapPair_25 cfg

/-- C18, at a concrete input: catalog entry 0, `poiP10dpt {2} refN10 {-2}`, under the
default configuration. -/
theorem two_particle_correlators_span_the_gap_witness :
    corrconfigsAt 0 ∈ corrconfigs ∧ (exprHarmonics (corrconfigsAt 0).expr).length = 2 ∧
      etaGapPair defaultConfig (corrconfigsAt 0) :=
  ⟨by decide, by decide,
    two_particle_correlators_span_the_gap defaultConfig (corrconfigsAt 0) (by decide)
      (by decide)⟩

/-- C19. The names of the regions that `init` declares through `AddRegion` are pairwise
distinct, whatever the configuration. -/
theorem region_names_are_distinct (cfg : Config) :
    ((regions cfg).map (fun r => r.name)).Nodup := by
  rw [regions_names]
  exact regionNames_nodup

theorem catalog_regions_declared :
    ∀ c ∈ corrconfigs, ∀ name ∈ exprRegions c.expr, name ∈ regionNames := by
  decide

/-- C20. The engine calls of `init` are 37 `AddRegion` calls, then the 26
`GetCorrelatorConfig` calls whose results form the catalog `corrconfigs`, then
`CreateRegions` as the last call; and every region name in a correlator expression of the
catalog is the name of a region declared by one of the `AddRegion` calls, all of which come
before every `GetCorrelatorConfig`. -/
theorem referenced_regions_are_declared (cfg : Config) :
    ∃ decl confs : List GfwInitCall,
      initGfwCalls cfg = decl ++ confs ++ [GfwInitCall.CreateRegions] ∧
        decl.filterMap GfwInitCall.region? = regions cfg ∧
        decl.length = (regions cfg).length ∧
        confs.filterMap GfwInitCall.config? = corrconfigs ∧
        confs.length = corrconfigs.length ∧
        ∀ c ∈ corrconfigs, ∀ name ∈ exprRegions c.expr,
          name ∈ (regions cfg).map (fun r => r.name) := by
  refine ⟨(initGfwCalls cfg).take 37, ((initGfwCalls cfg).drop 37).take 26,
    rfl, rfl, rfl, rfl, rfl, ?_⟩
  rw [regions_names]
  exact catalog_regions_declared

/-! ## C14: the jackknife profiles booked by `init` -/

/-- C14, the code at the failing inputs.  With the jackknife enabled, `init` books for every
jackknife array one profile per pt bin of `cfgaxisPt`, at the indices `0, ..., nPtBins - 1`.
Under the default pt axis `nPtBins = 38`: 38 profiles per family are booked, not 10, and
those from index `20` on are stored past the end of the arrays of length `20`.  Under a pt
axis of three bins only the indices `0, 1, 2` are booked, while the jackknife loop of
`processData` fills subsample `10` through slot `9` of `refc22`, which was never booked. -/
theorem jackknife_booking_follows_pt_bins :
    (∀ (cfg : Config) (arr : JkArray), cfg.cfgDoJackknife = true →
        bookedSlots cfg arr = (loopFromOne (nPtBins cfg)).map (fun i => i - 1)) ∧
      nPtBins jackknifeConfig = 38 ∧
      (∀ arr : JkArray, (bookedSlots jackknifeConfig arr).length = 38) ∧
      (∀ arr : JkArray, (37 : Int) ∈ bookedSlots jackknifeConfig arr ∧ jkArrayLength ≤ 37) ∧
      (∀ arr : JkArray, bookedSlots coarsePtConfig arr = [0, 1, 2]) ∧
      (∀ (calcRe : CorrConfig → Int → Bool → ℚ) (cent : ℚ), ∃ rest : List Effect,
        fillSubsample coarsePtConfig calcRe cent 10
          = fillProfilePtr calcRe (corrconfigsAt 15) (Target.slot JkArray.refc22 9) cent
              ++ rest) := by
  refine ⟨bookedSlots_eq, rfl, ?_, ?_, ?_, ?_⟩
  · intro arr
    rw [bookedSlots_eq jackknifeConfig arr rfl]
    rfl
  · intro arr
    rw [bookedSlots_eq jackknifeConfig arr rfl]
    exact ⟨by decide, by decide⟩
  · intro arr
    rw [bookedSlots_eq coarsePtConfig arr rfl]
    decide
  · intro calcRe cent
    simp only [fillSubsample, List.append_assoc]
    exact ⟨_, rfl⟩

/-! ## C15: the slices left out by the jackknife -/

theorem jackknifeSkips_iff (eventrdm : ℚ) (j : Int) :
    jackknifeSkips eventrdm j = true ↔ ((j : ℚ) - 1 < eventrdm ∧ eventrdm < j) := by
  simp [jackknifeSkips]

/-- C15. Subsample `j` is left out exactly when the scaled draw lies in the open interval
`(j - 1, j)`.  The exclusion sets of two different subsamples are disjoint.  Each exclusion
interval has length `1` (also as a Lebesgue measure of the real interval), the draw range
`(0, 10)` has length `10`, and for `1 ≤ j ≤ 10` the draws of the range at which subsample
`j` receives the event form `(0, j - 1] ∪ [j, 10)`, of total length `9`, a `9/10` fraction of
the range. -/
theorem exclusion_slices_are_uniform :
    (∀ j : Int, exclusionSet j = Set.Ioo ((j : ℚ) - 1) (j : ℚ)) ∧
    (∀ j k : Int, j ≠ k → Disjoint (exclusionSet j) (exclusionSet k)) ∧
    (∀ j : Int, (j : ℚ) - ((j : ℚ) - 1) = 1 ∧
        MeasureTheory.volume (Set.Ioo ((j : ℝ) - 1) (j : ℝ)) = 1) ∧
    (∀ j : Int, 1 ≤ j → j ≤ 10 →
        Set.Ioo (0 : ℚ) 10 \ exclusionSet j = Set.Ioc 0 ((j : ℚ) - 1) ∪ Set.Ico (j : ℚ) 10 ∧
          (((j : ℚ) - 1) - 0) + (10 - (j : ℚ)) = 9 ∧ (9 : ℚ) / (10 - 0) = 9 / 10) := by
  have hset : ∀ j : Int, exclusionSet j = Set.Ioo ((j : ℚ) - 1) (j : ℚ) := by
    intro j
    ext x
    simp [exclusionSet, jackknifeSkips_iff]
  refine ⟨hset, ?_, ?_, ?_⟩
  · intro j k hjk
    rw [hset, hset, Set.disjoint_left]
    intro x hx hx2
    simp only [Set.mem_Ioo] at hx hx2
    apply hjk
    have h1 : (j : ℚ) - 1 < k := lt_trans hx.1 hx2.2
    have h2 : (k : ℚ) - 1 < j := lt_trans hx2.1 hx.2
    have h3 : j - 1 < k := by exact_mod_cast h1
    have h4 : k - 1 < j := by exact_mod_cast h2
    omega
  · intro j
    refine ⟨by ring, ?_⟩
    rw [Real.volume_Ioo]
    simp
  · intro j h1 h10
    refine ⟨?_, by ring, by norm_num⟩
    rw [hset]
    ext x
    simp only [Set.mem_diff, Set.mem_Ioo, Set.mem_union, Set.mem_Ioc, Set.mem_Ico, not_and,
      not_lt]
    have hj1 : (1 : ℚ) ≤ j := by exact_mod_cast h1
    have hj10 : (j : ℚ) ≤ 10 := by exact_mod_cast h10
    constructor
    · rintro ⟨⟨h0, hx10⟩, hx⟩
      by_cases hc : (j : ℚ) - 1 < x
      · right; exact ⟨hx hc, hx10⟩
      · left; exact ⟨h0, not_lt.1 hc⟩
    · rintro (⟨h0, hx⟩ | ⟨hx, hx10⟩)
      · exact ⟨⟨h0, by linarith⟩, fun hc => absurd hc (not_lt.2 hx)⟩
      · exact ⟨⟨by linarith, hx10⟩, fun _ => hx⟩


/-- C15, at concrete subsamples: the exclusion sets of subsamples `3` and `4` are disjoint,
and subsample `3` receives the event exactly for the draws in `(0, 2] ∪ [3, 10)`. -/
theorem exclusion_slices_are_uniform_witness :
    Disjoint (exclusionSet 3) (exclusionSet 4) ∧
      Set.Ioo (0 : ℚ) 10 \ exclusionSet 3
        = Set.Ioc 0 (((3 : Int) : ℚ) - 1) ∪ Set.Ico ((3 : Int) : ℚ) 10 :=
  ⟨exclusion_slices_are_uniform.2.1 3 4 (by decide),
    (exclusion_slices_are_uniform.2.2.2 3 (by decide) (by decide)).1⟩

/-! ## C11: the reconstructed and the generated pathway -/

theorem fillProfile_within (masks : List Nat) (confs : List CorrConfig) (ok : Target → Bool)
    (calcRe : CorrConfig → Int → Bool → ℚ) (corrconf : CorrConfig) (tarName : String) (cent : ℚ)
    (hc : corrconf ∈ confs) (ht : ok (Target.hist tarName) = true) :
    ∀ e ∈ fillProfile calcRe corrconf tarName cent, e.within masks confs ok = true := by
  have h : ((fillProfile calcRe corrconf tarName cent).all (Effect.within masks confs ok))
      = true := by
    unfold fillProfile
    simp only
    split_ifs <;> simp [Effect.within, hc, ht]
  exact List.all_eq_true.mp h

theorem fillProfilePtr_within (masks : List Nat) (confs : List CorrConfig) (ok : Target → Bool)
    (calcRe : CorrConfig → Int → Bool → ℚ) (corrconf : CorrConfig) (tar : Target) (cent : ℚ)
    (hc : corrconf ∈ confs) (ht : ok tar = true) :
    ∀ e ∈ fillProfilePtr calcRe corrconf tar cent, e.within masks confs ok = true := by
  have h : ((fillProfilePtr calcRe corrconf tar cent).all (Effect.within masks confs ok))
      = true := by
    unfold fillProfilePtr
    simp only
    split_ifs <;> simp [Effect.within, hc, ht]
  exact List.all_eq_true.mp h

theorem fillProfilepT_within (masks : List Nat) (confs : List CorrConfig) (ok : Target → Bool)
    (cfg : Config) (calcRe : CorrConfig → Int → Bool → ℚ) (corrconf : CorrConfig)
    (tarName : String) (ptbin : Int) (cent : ℚ)
    (hc : corrconf ∈ confs) (ht : ok (Target.hist tarName) = true) :
    ∀ e ∈ fillProfilepT cfg calcRe corrconf tarName ptbin cent,
      e.within masks confs ok = true := by
  have h : ((fillProfilepT cfg calcRe corrconf tarName ptbin cent).all
      (Effect.within masks confs ok)) = true := by
    unfold fillProfilepT
    simp only
    split_ifs <;> simp [Effect.within, hc, ht]
  exact List.all_eq_true.mp h

theorem fillProfilepTMC_within (masks : List Nat) (confs : List CorrConfig) (ok : Target → Bool)
    (cfg : Config) (calcRe : CorrConfig → Int → Bool → ℚ) (corrconf : CorrConfig)
    (tarName : String) (ptbin PDGCode : Int) (cent : ℚ)
    (hc : corrconf ∈ confs) (ht : ok (Target.hist tarName) = true) :
    ∀ e ∈ fillProfilepTMC cfg calcRe corrconf tarName ptbin PDGCode cent,
      e.within masks confs ok = true := by
  have h : ((fillProfilepTMC cfg calcRe corrconf tarName ptbin PDGCode cent).all
      (Effect.within masks confs ok)) = true := by
    unfold fillProfilepTMC
    cases ptAxisOfPDG cfg PDGCode with
    | none => simp
    | some fpt =>
      simp only
      split_ifs <;> simp [Effect.within, hc, ht]
  exact List.all_eq_true.mp h

theorem massBinStep_within (masks : List Nat) (confs : List CorrConfig) (ok : Target → Bool)
    (calcRe : CorrConfig → Int → Bool → ℚ) (corrconf : CorrConfig) (tar : Target)
    (mb : MassBinning) (ptbin : Int) (cent : ℚ) (massbin : Int)
    (hc : corrconf ∈ confs) (ht : ok tar = true) :
    ∀ e ∈ massBinStep calcRe corrconf tar mb ptbin cent massbin,
      e.within masks confs ok = true := by
  have h : ((massBinStep calcRe corrconf tar mb ptbin cent massbin).all
      (Effect.within masks confs ok)) = true := by
    unfold massBinStep
    simp only
    split_ifs <;> simp [Effect.within, hc, ht]
  exact List.all_eq_true.mp h

theorem fillProfilepTMass_within (masks : List Nat) (confs : List CorrConfig)
    (ok : Target → Bool) (cfg : Config) (calcRe : CorrConfig → Int → Bool → ℚ)
    (corrconf : CorrConfig) (tarName : String) (ptbin PDGCode : Int) (cent : ℚ)
    (hc : corrconf ∈ confs) (ht : ok (Target.hist tarName) = true) :
    ∀ e ∈ fillProfilepTMass cfg calcRe corrconf tarName ptbin PDGCode cent,
      e.within masks confs ok = true := by
  intro e he
  unfold fillProfilepTMass at he
  cases hmb : massBinningOfPDG cfg PDGCode with
  | none => simp [hmb] at he
  | some mb =>
    simp only [hmb, List.mem_flatMap] at he
    obtain ⟨massbin, -, hm⟩ := he
    exact massBinStep_within masks confs ok _ _ _ _ _ _ _ hc ht e hm

theorem fillProfilepTMassPtr_within (masks : List Nat) (confs : List CorrConfig)
    (ok : Target → Bool) (cfg : Config) (calcRe : CorrConfig → Int → Bool → ℚ)
    (corrconf : CorrConfig) (tar : Target) (ptbin PDGCode : Int) (cent : ℚ)
    (hc : corrconf ∈ confs) (ht : ok tar = true) :
    ∀ e ∈ fillProfilepTMassPtr cfg calcRe corrconf tar ptbin PDGCode cent,
      e.within masks confs ok = true := by
  intro e he
  unfold fillProfilepTMassPtr at he
  cases hmb : massBinningOfPDG cfg PDGCode with
  | none => simp [hmb] at he
  | some mb =>
    simp only [hmb, List.mem_flatMap] at he
    obtain ⟨massbin, -, hm⟩ := he
    exact massBinStep_within masks confs ok _ _ _ _ _ _ _ hc ht e hm

theorem fillFullSample_within (cfg : Config) (calcRe : CorrConfig → Int → Bool → ℚ)
    (cent : ℚ) :
    ∀ e ∈ fillFullSample cfg calcRe cent,
      e.within dataMasks dataConfigs isDataTarget = true := by
  intro e he
  simp only [fillFullSample, List.mem_append, List.mem_flatMap] at he
  rcases he with (((he | he) | ⟨i, -, he⟩) | ⟨i, -, he⟩) | ⟨i, -, he⟩
  · exact fillProfile_within _ _ _ _ _ _ _ (by decide) (by decide) e he
  · exact fillProfile_within _ _ _ _ _ _ _ (by decide) (by decide) e he
  · rcases he with (he | he) | he <;>
      exact fillProfilepT_within _ _ _ _ _ _ _ _ _ (by decide) (by decide) e he
  · rcases he with ((((he | he) | he) | he) | he) | he <;>
      exact fillProfilepTMass_within _ _ _ _ _ _ _ _ _ _ (by decide) (by decide) e he
  · rcases he with ((((he | he) | he) | he) | he) | he <;>
      exact fillProfilepTMass_within _ _ _ _ _ _ _ _ _ _ (by decide) (by decide) e he

theorem fillSubsample_within (cfg : Config) (calcRe : CorrConfig → Int → Bool → ℚ)
    (cent : ℚ) (j : Int) :
    ∀ e ∈ fillSubsample cfg calcRe cent j,
      e.within dataMasks dataConfigs isDataTarget = true := by
  intro e he
  simp only [fillSubsample, List.mem_append, List.mem_flatMap] at he
  rcases he with ((he | he) | ⟨i, -, he⟩) | ⟨i, -, he⟩
  · exact fillProfilePtr_within _ _ _ _ _ _ _ (by decide) rfl e he
  · exact fillProfilePtr_within _ _ _ _ _ _ _ (by decide) rfl e he
  · rcases he with ((((he | he) | he) | he) | he) | he <;>
      exact fillProfilepTMassPtr_within _ _ _ _ _ _ _ _ _ _ (by decide) rfl e he
  · rcases he with ((((he | he) | he) | he) | he) | he <;>
      exact fillProfilepTMassPtr_within _ _ _ _ _ _ _ _ _ _ (by decide) rfl e he

theorem fillJackknife_within (cfg : Config) (calcRe : CorrConfig → Int → Bool → ℚ)
    (cent eventrdm : ℚ) :
    ∀ e ∈ fillJackknife cfg calcRe cent eventrdm,
      e.within dataMasks dataConfigs isDataTarget = true := by
  intro e he
  simp only [fillJackknife, List.mem_flatMap] at he
  obtain ⟨j, -, he⟩ := he
  split_ifs at he
  · simp at he
  · exact fillSubsample_within _ _ _ _ e he

theorem fillMC_within (cfg : Config) (calcRe : CorrConfig → Int → Bool → ℚ) (cent : ℚ) :
    ∀ e ∈ fillMC cfg calcRe cent, e.within mcMasks mcConfigs isMcTarget = true := by
  intro e he
  simp only [fillMC, List.mem_append, List.mem_flatMap] at he
  rcases he with (he | ⟨i, -, he⟩) | ⟨i, -, he⟩
  · exact fillProfile_within _ _ _ _ _ _ _ (by decide) (by decide) e he
  · rcases he with ((he | he) | he) | he <;>
      exact fillProfilepTMC_within _ _ _ _ _ _ _ _ _ _ (by decide) (by decide) e he
  · rcases he with ((he | he) | he) | he <;>
      exact fillProfilepTMC_within _ _ _ _ _ _ _ _ _ _ (by decide) (by decide) e he

theorem trackLoop_within {G : Type} (E : Env G) (cfg : Config) (m : Members) (vtxz : ℚ)
    (confs : List CorrConfig) (ok : Target → Bool) (tracks : List Track) :
    ∀ (s : TrackLoopState), ∀ e ∈ (trackLoop E cfg m vtxz s tracks).2,
      e.within dataMasks confs ok = true := by
  induction tracks with
  | nil => intro s e he; simp [trackLoop] at he
  | cons track rest ih =>
    intro s e he
    simp only [trackLoop, List.mem_append] at he
    rcases he with he | he
    · have h : ((trackStep E cfg m vtxz s track).2.all (Effect.within dataMasks confs ok))
          = true := by
        unfold trackStep
        simp only
        split_ifs <;> simp [Effect.within, dataMasks]
      exact List.all_eq_true.mp h e he
    · exact ih _ e he

theorem v0Loop_within {G : Type} (E : Env G) (cfg : Config) (m : Members)
    (hLocalDensity : TH1D) (vtxz : ℚ) (confs : List CorrConfig) (ok : Target → Bool)
    (V0s : List V0) :
    ∀ (w : Weights), ∀ e ∈ (v0Loop E cfg m hLocalDensity vtxz w V0s).2,
      e.within dataMasks confs ok = true := by
  induction V0s with
  | nil => intro w e he; simp [v0Loop] at he
  | cons v0 rest ih =>
    intro w e he
    simp only [v0Loop, List.mem_append] at he
    rcases he with he | he
    · have h : ((v0Step E cfg m hLocalDensity vtxz w v0).2.all
          (Effect.within dataMasks confs ok)) = true := by
        unfold v0Step
        simp only
        split_ifs <;> simp [Effect.within, dataMasks]
      exact List.all_eq_true.mp h e he
    · exact ih _ e he

theorem cascLoop_within {G : Type} (E : Env G) (cfg : Config) (m : Members)
    (hLocalDensity : TH1D) (vtxz : ℚ) (confs : List CorrConfig) (ok : Target → Bool)
    (Cascades : List Cascade) :
    ∀ (w : Weights), ∀ e ∈ (cascLoop E cfg m hLocalDensity vtxz w Cascades).2,
      e.within dataMasks confs ok = true := by
  induction Cascades with
  | nil => intro w e he; simp [cascLoop] at he
  | cons casc rest ih =>
    intro w e he
    simp only [cascLoop, List.mem_append] at he
    rcases he with he | he
    · have h : ((cascStep E cfg m hLocalDensity vtxz w casc).2.all
          (Effect.within dataMasks confs ok)) = true := by
        unfold cascStep
        simp only
        split_ifs <;> simp [Effect.within, dataMasks]
      exact List.all_eq_true.mp h e he
    · exact ih _ e he

theorem mcFills_within (cfg : Config) (confs : List CorrConfig) (ok : Target → Bool)
    (tracksGen : List McParticle) :
    ∀ e ∈ tracksGen.flatMap (mcRefStep cfg) ++ tracksGen.flatMap (mcCascStep cfg) ++
        tracksGen.flatMap (mcV0Step cfg), e.within mcMasks confs ok = true := by
  intro e he
  simp only [List.mem_append, List.mem_flatMap] at he
  rcases he with (⟨p, -, he⟩ | ⟨p, -, he⟩) | ⟨p, -, he⟩
  · unfold mcRefStep at he
    split_ifs at he
    · simp at he
    · simp only [List.mem_flatMap] at he
      obtain ⟨track, -, ht⟩ := he
      have h : ((mcTrackStep cfg track).all (Effect.within mcMasks confs ok)) = true := by
        unfold mcTrackStep
        simp only
        split_ifs <;> simp [Effect.within, mcMasks]
      exact List.all_eq_true.mp h e ht
    · simp at he
  · have h : ((mcCascStep cfg p).all (Effect.within mcMasks confs ok)) = true := by
      unfold mcCascStep
      simp only
      split_ifs <;> simp [Effect.within, mcMasks]
    exact List.all_eq_true.mp h e he
  · have h : ((mcV0Step cfg p).all (Effect.within mcMasks confs ok)) = true := by
      unfold mcV0Step
      simp only
      split_ifs <;> simp [Effect.within, mcMasks]
    exact List.all_eq_true.mp h e he

theorem processData_within {G : Type} (E : Env G) (cfg : Config) (m : Members) (g0 : G)
    (rndm : ℚ) (collision : Collision) (tracks : List Track) (Cascades : List Cascade)
    (V0s : List V0) :
    ∀ e ∈ (processData E cfg m g0 rndm collision tracks Cascades V0s).1,
      e.within dataMasks dataConfigs isDataTarget = true := by
  unfold processData
  by_cases hlen : ((tracks.length : Int) < 1)
  · simp [hlen]
  · by_cases hsel : collision.sel8 = false
    · simp [hlen, hsel, Effect.within]
    · by_cases hev : eventSelected E cfg collision collision.centFT0C = true
      · simp [hlen, hsel, hev, Effect.within]
      · simp only [hlen, hsel, hev, if_false, Bool.true_eq_false, Bool.false_eq_true]
        intro e he
        simp only [List.mem_append, List.mem_cons] at he
        rcases he with ((rfl | ((he | he) | he)) | he) | he
        · rfl
        · exact trackLoop_within _ _ _ _ _ _ _ _ e he
        · exact v0Loop_within _ _ _ _ _ _ _ _ _ e he
        · exact cascLoop_within _ _ _ _ _ _ _ _ _ e he
        · exact fillFullSample_within _ _ _ e he
        · split_ifs at he
          · exact fillJackknife_within _ _ _ _ e he
          · simp at he

theorem processMC_within {G : Type} (E : Env G) (cfg : Config) (g0 : G)
    (tracksGen : List McParticle) (collisionsRec : List Collision) :
    ∀ e ∈ processMC E cfg g0 tracksGen collisionsRec,
      e.within mcMasks mcConfigs isMcTarget = true := by
  unfold processMC
  cases mcCentLoop E cfg (-1) collisionsRec with
  | none => simp [Effect.within]
  | some cent =>
    by_cases hc : cent < 0
    · simp [hc, Effect.within]
    · simp only [hc, if_false]
      intro e he
      rcases List.mem_append.1 he with he | he
      · rcases List.mem_cons.1 he with rfl | he
        · rfl
        · exact mcFills_within cfg _ _ tracksGen e he
      · exact fillMC_within _ _ _ e he

theorem catalog_tags_disjoint :
    (∀ c ∈ dataConfigs, ∀ t ∈ exprTags c.expr, ∀ mk ∈ mcMasks, mk &&& t = 0) ∧
      (∀ c ∈ mcConfigs, ∀ t ∈ exprTags c.expr, ∀ mk ∈ dataMasks, mk &&& t = 0) := by
  constructor <;> decide

theorem regionTags_eq (cfg : Config) :
    (regions cfg).map (fun r => (r.name, r.mask)) = regionTags := rfl

theorem targets_disjoint (tar : Target) : ¬ (isDataTarget tar = true ∧ isMcTarget tar = true) := by
  cases tar with
  | hist name =>
    intro ⟨h1, h2⟩
    have h3 : name ∈ mcProfiles := by simpa [isMcTarget] using h2
    simp only [mcProfiles, List.mem_cons, List.mem_singleton, List.not_mem_nil, or_false] at h3
    rcases h3 with rfl | rfl | rfl | rfl | rfl <;> revert h1 <;> decide
  | slot arr idx => simp [isMcTarget]

/-- C11. The two pathways never share storage or tags.  Every profile that `processData`
fills is a profile of the reconstructed pathway (one of the twelve `HIST` profiles `c22`, ...,
`Omegac24dpt`, or a jackknife slot), every profile that `processMC` fills is one of
`MC/c22MC`, `MC/K0sc22dptMC`, `MC/Lambdac22dptMC`, `MC/Xic22dptMC`, `MC/Omegac22dptMC`, and
no profile is in both sets.  Every `fGFW->Fill` of `processMC` uses a tag mask of
`64, 128, 256, 512, 1024` and every `fGFW->Fill` of `processData` one of `1, 32, 8, 16, 4, 2`;
`processData` evaluates only catalog entries 0..16 and `processMC` only entries 17..25; no
mask of `processMC` shares a bit with the tag of a region that an entry 0..16 refers to, and
no mask of `processData` shares a bit with the tag of a region that an entry 17..25 refers
to, the tags being those of the regions declared in `init` under any configuration. -/
theorem pathways_never_share_storage {G : Type} (E : Env G) (cfg : Config) (m : Members)
    (g0 : G) (rndm : ℚ) (collision : Collision) (tracks : List Track)
    (Cascades : List Cascade) (V0s : List V0) (tracksGen : List McParticle)
    (collisionsRec : List Collision) :
    (∀ tar entry, Effect.profFill tar entry
        ∈ (processData E cfg m g0 rndm collision tracks Cascades V0s).1 →
      isDataTarget tar = true) ∧
    (∀ tar entry, Effect.profFill tar entry ∈ processMC E cfg g0 tracksGen collisionsRec →
      isMcTarget tar = true) ∧
    (∀ tar, ¬ (isDataTarget tar = true ∧ isMcTarget tar = true)) ∧
    (∀ eta ptin phi weight mask, Effect.gfwFill eta ptin phi weight mask
        ∈ processMC E cfg g0 tracksGen collisionsRec → mask ∈ mcMasks) ∧
    (∀ eta ptin phi weight mask, Effect.gfwFill eta ptin phi weight mask
        ∈ (processData E cfg m g0 rndm collision tracks Cascades V0s).1 → mask ∈ dataMasks) ∧
    (∀ corrconf bin flag, Effect.gfwCalculate corrconf bin flag
        ∈ (processData E cfg m g0 rndm collision tracks Cascades V0s).1 →
      corrconf ∈ dataConfigs) ∧
    (∀ corrconf bin flag, Effect.gfwCalculate corrconf bin flag
        ∈ processMC E cfg g0 tracksGen collisionsRec → corrconf ∈ mcConfigs) ∧
    dataConfigs ++ mcConfigs = corrconfigs ∧
    (regions cfg).map (fun r => (r.name, r.mask)) = regionTags ∧
    (∀ c ∈ dataConfigs, ∀ t ∈ exprTags c.expr, ∀ mk ∈ mcMasks, mk &&& t = 0) ∧
    (∀ c ∈ mcConfigs, ∀ t ∈ exprTags c.expr, ∀ mk ∈ dataMasks, mk &&& t = 0) := by
  have hd := processData_within E cfg m g0 rndm collision tracks Cascades V0s
  have hm := processMC_within E cfg g0 tracksGen collisionsRec
  refine ⟨?_, ?_, targets_disjoint, ?_, ?_, ?_, ?_, by decide, regionTags_eq cfg,
    catalog_tags_disjoint.1, catalog_tags_disjoint.2⟩
  · intro tar entry h
    exact hd _ h
  · intro tar entry h
    exact hm _ h
  · intro eta ptin phi weight mask h
    simpa [Effect.within] using hm _ h
  · intro eta ptin phi weight mask h
    simpa [Effect.within] using hd _ h
  · intro corrconf bin flag h
    simpa [Effect.within] using hd _ h
  · intro corrconf bin flag h
    simpa [Effect.within] using hm _ h


/-! ## C12: weights without calibration -/

theorem candWeights_off {G : Type} (E : Env G) (cfg : Config) (m : Members)
    (hLocalDensity : TH1D) (vtxz : ℚ) (w : Weights) (pt phi eta : ℚ) (ispecies : Nat)
    (hacc : cfg.cfgDoAccEffCorr = false) (hloc : cfg.cfgDoLocDenCorr = false) :
    candWeights E cfg m hLocalDensity vtxz w pt phi eta ispecies = w := by
  simp [candWeights, hacc, hloc]

theorem trackStep_unweighted {G : Type} (E : Env G) (cfg : Config) (m : Members) (vtxz : ℚ)
    (s : TrackLoopState) (track : Track) (hacc : cfg.cfgDoAccEffCorr = false)
    (h1 : s.weff = 1) (h2 : s.wacc = 1) :
    (trackStep E cfg m vtxz s track).1.weff = 1 ∧ (trackStep E cfg m vtxz s track).1.wacc = 1 ∧
      (trackStep E cfg m vtxz s track).2.all Effect.fillWeightIsOne = true := by
  unfold trackStep
  simp only [hacc, Bool.false_eq_true, if_false]
  split_ifs <;> simp [Effect.fillWeightIsOne, h1, h2]

theorem trackLoop_unweighted {G : Type} (E : Env G) (cfg : Config) (m : Members) (vtxz : ℚ)
    (hacc : cfg.cfgDoAccEffCorr = false) (tracks : List Track) :
    ∀ (s : TrackLoopState), s.weff = 1 → s.wacc = 1 →
      (trackLoop E cfg m vtxz s tracks).1.weff = 1 ∧
        (trackLoop E cfg m vtxz s tracks).1.wacc = 1 ∧
        ∀ e ∈ (trackLoop E cfg m vtxz s tracks).2, e.fillWeightIsOne = true := by
  induction tracks with
  | nil =>
    intro s h1 h2
    exact ⟨h1, h2, by simp [trackLoop]⟩
  | cons track rest ih =>
    intro s h1 h2
    obtain ⟨a1, a2, a3⟩ := trackStep_unweighted E cfg m vtxz s track hacc h1 h2
    obtain ⟨b1, b2, b3⟩ := ih (trackStep E cfg m vtxz s track).1 a1 a2
    refine ⟨b1, b2, ?_⟩
    intro e he
    simp only [trackLoop, List.mem_append] at he
    rcases he with he | he
    · exact List.all_eq_true.mp a3 e he
    · exact b3 e he

theorem v0Step_unweighted {G : Type} (E : Env G) (cfg : Config) (m : Members)
    (hLocalDensity : TH1D) (vtxz : ℚ) (v0 : V0)
    (hacc : cfg.cfgDoAccEffCorr = false) (hloc : cfg.cfgDoLocDenCorr = false) :
    (v0Step E cfg m hLocalDensity vtxz ⟨1, 1, 1⟩ v0).1 = ⟨1, 1, 1⟩ ∧
      (v0Step E cfg m hLocalDensity vtxz ⟨1, 1, 1⟩ v0).2.all Effect.fillWeightIsOne = true := by
  unfold v0Step
  simp only [candWeights_off E cfg m hLocalDensity vtxz _ _ _ _ _ hacc hloc]
  split_ifs <;> simp [Effect.fillWeightIsOne]

theorem v0Loop_unweighted {G : Type} (E : Env G) (cfg : Config) (m : Members)
    (hLocalDensity : TH1D) (vtxz : ℚ)
    (hacc : cfg.cfgDoAccEffCorr = false) (hloc : cfg.cfgDoLocDenCorr = false)
    (V0s : List V0) :
    (v0Loop E cfg m hLocalDensity vtxz ⟨1, 1, 1⟩ V0s).1 = ⟨1, 1, 1⟩ ∧
      ∀ e ∈ (v0Loop E cfg m hLocalDensity vtxz ⟨1, 1, 1⟩ V0s).2,
        e.fillWeightIsOne = true := by
  induction V0s with
  | nil => exact ⟨rfl, by simp [v0Loop]⟩
  | cons v0 rest ih =>
    obtain ⟨a1, a2⟩ := v0Step_unweighted E cfg m hLocalDensity vtxz v0 hacc hloc
    simp only [v0Loop, a1]
    refine ⟨ih.1, ?_⟩
    intro e he
    rcases List.mem_append.1 he with he | he
    · exact List.all_eq_true.mp a2 e he
    · exact ih.2 e he

theorem cascStep_unweighted {G : Type} (E : Env G) (cfg : Config) (m : Members)
    (hLocalDensity : TH1D) (vtxz : ℚ) (casc : Cascade)
    (hacc : cfg.cfgDoAccEffCorr = false) (hloc : cfg.cfgDoLocDenCorr = false) :
    (cascStep E cfg m hLocalDensity vtxz ⟨1, 1, 1⟩ casc).1 = ⟨1, 1, 1⟩ ∧
      (cascStep E cfg m hLocalDensity vtxz ⟨1, 1, 1⟩ casc).2.all Effect.fillWeightIsOne
        = true := by
  unfold cascStep
  simp only [candWeights_off E cfg m hLocalDensity vtxz _ _ _ _ _ hacc hloc]
  split_ifs <;> simp [Effect.fillWeightIsOne]

theorem cascLoop_unweighted {G : Type} (E : Env G) (cfg : Config) (m : Members)
    (hLocalDensity : TH1D) (vtxz : ℚ)
    (hacc : cfg.cfgDoAccEffCorr = false) (hloc : cfg.cfgDoLocDenCorr = false)
    (Cascades : List Cascade) :
    (cascLoop E cfg m hLocalDensity vtxz ⟨1, 1, 1⟩ Cascades).1 = ⟨1, 1, 1⟩ ∧
      ∀ e ∈ (cascLoop E cfg m hLocalDensity vtxz ⟨1, 1, 1⟩ Cascades).2,
        e.fillWeightIsOne = true := by
  induction Cascades with
  | nil => exact ⟨rfl, by simp [cascLoop]⟩
  | cons casc rest ih =>
    obtain ⟨a1, a2⟩ := cascStep_unweighted E cfg m hLocalDensity vtxz casc hacc hloc
    simp only [cascLoop, a1]
    refine ⟨ih.1, ?_⟩
    intro e he
    rcases List.mem_append.1 he with he | he
    · exact List.all_eq_true.mp a2 e he
    · exact ih.2 e he

theorem fillWeightIsOne_of_isReadOrProfile (e : Effect) (h : e.isReadOrProfile = true) :
    e.fillWeightIsOne = true := by
  cases e <;> simp_all [Effect.isReadOrProfile, Effect.fillWeightIsOne]

theorem processData_unweighted {G : Type} (E : Env G) (cfg : Config) (m : Members) (g0 : G)
    (rndm : ℚ) (collision : Collision) (tracks : List Track) (Cascades : List Cascade)
    (V0s : List V0) (hacc : cfg.cfgDoAccEffCorr = false) (hloc : cfg.cfgDoLocDenCorr = false) :
    ∀ e ∈ (processData E cfg m g0 rndm collision tracks Cascades V0s).1,
      e.fillWeightIsOne = true := by
  unfold processData
  by_cases hlen : ((tracks.length : Int) < 1)
  · simp [hlen]
  · by_cases hsel : collision.sel8 = false
    · simp [hlen, hsel, Effect.fillWeightIsOne]
    · by_cases hev : eventSelected E cfg collision collision.centFT0C = true
      · simp [hlen, hsel, hev, Effect.fillWeightIsOne]
      · simp only [hlen, hsel, hev, if_false, Bool.true_eq_false, Bool.false_eq_true]
        obtain ⟨t1, t2, t3⟩ := trackLoop_unweighted E cfg
          (loadCorrections E cfg m collision.timestamp) collision.posZ hacc tracks
          ⟨1, 1, ⟨TAxis.fix 400 (-E.TwoPI) E.TwoPI, []⟩, 0⟩ rfl rfl
        rw [t1, t2]
        obtain ⟨v1, v2⟩ := v0Loop_unweighted E cfg (loadCorrections E cfg m collision.timestamp)
          (trackLoop E cfg (loadCorrections E cfg m collision.timestamp) collision.posZ
            ⟨1, 1, ⟨TAxis.fix 400 (-E.TwoPI) E.TwoPI, []⟩, 0⟩ tracks).1.hLocalDensity
          collision.posZ hacc hloc V0s
        rw [v1]
        obtain ⟨c1, c2⟩ := cascLoop_unweighted E cfg
          (loadCorrections E cfg m collision.timestamp)
          (trackLoop E cfg (loadCorrections E cfg m collision.timestamp) collision.posZ
            ⟨1, 1, ⟨TAxis.fix 400 (-E.TwoPI) E.TwoPI, []⟩, 0⟩ tracks).1.hLocalDensity
          collision.posZ hacc hloc Cascades
        intro e he
        rcases List.mem_append.1 he with he | he
        · rcases List.mem_append.1 he with he | he
          · rcases List.mem_cons.1 he with rfl | he
            · rfl
            · rcases List.mem_append.1 he with he | he
              · rcases List.mem_append.1 he with he | he
                · exact t3 e he
                · exact v2 e he
              · exact c2 e he
          · exact fillWeightIsOne_of_isReadOrProfile e
              (fillFullSample_isReadOrProfile _ _ _ e he)
        · split_ifs at he
          · exact fillWeightIsOne_of_isReadOrProfile e
              (fillJackknife_isReadOrProfile _ _ _ _ e he)
          · simp at he

/-- C12. When neither calibration list holds five objects (`mEfficiency.size() != 5` and
`mAcceptance.size() != 5`), `setCurrentParticleWeights` returns `true` with
`weight_nue = 1` and `weight_nua = 1`, whatever the values on entry, the particle, the
vertex and the species.  When `cfgDoAccEffCorr` and `cfgDoLocDenCorr` are both `false`, the
weight of every `fGFW->Fill` of `processData` is `1`. -/
theorem unweighted_fallback {G : Type} (E : Env G) (cfg : Config) (m : Members) (g0 : G)
    (rndm : ℚ) (collision : Collision) (tracks : List Track) (Cascades : List Cascade)
    (V0s : List V0) :
    (m.mEfficiency.length ≠ 5 → m.mAcceptance.length ≠ 5 →
      ∀ (weight_nue weight_nua pt phi eta vtxz : ℚ) (ispecies : Nat),
        setCurrentParticleWeights m weight_nue weight_nua pt phi eta vtxz ispecies
          = (true, 1, 1)) ∧
    (cfg.cfgDoAccEffCorr = false → cfg.cfgDoLocDenCorr = false →
      ∀ eta ptin phi weight mask, Effect.gfwFill eta ptin phi weight mask
          ∈ (processData E cfg m g0 rndm collision tracks Cascades V0s).1 →
        weight = 1) := by
  constructor
  · intro h1 h2 weight_nue weight_nua pt phi eta vtxz ispecies
    simp [setCurrentParticleWeights, h1, h2]
  · intro hacc hloc eta ptin phi weight mask h
    simpa [Effect.fillWeightIsOne] using
      processData_unweighted E cfg m g0 rndm collision tracks Cascades V0s hacc hloc _ h

/-- C12, at a concrete input: no calibration object is loaded, the entry values of the
reference parameters are `7` and `9`, and both switches are off in the default
configuration. -/
theorem unweighted_fallback_witness :
    setCurrentParticleWeights noCalibration 7 9 1 1 (1 / 2) 0 3 = (true, 1, 1) ∧
      ∀ eta ptin phi weight mask, Effect.gfwFill eta ptin phi weight mask
          ∈ (processData nullEnv defaultConfig noCalibration () (1 / 3) passingCollision
              [sampleTrack] [] [k0sCandidate 1 0.4035]).1 →
        weight = 1 :=
  ⟨(unweighted_fallback nullEnv defaultConfig noCalibration () (1 / 3) passingCollision
      [sampleTrack] [] [k0sCandidate 1 0.4035]).1 (by decide) (by decide) 7 9 1 1 (1 / 2) 0 3,
    (unweighted_fallback nullEnv defaultConfig noCalibration () (1 / 3) passingCollision
      [sampleTrack] [] [k0sCandidate 1 0.4035]).2 rfl rfl⟩

/-! ## C13: the weights of a candidate and the particles before it -/

theorem gfwFillsOf_append (a b : List Effect) :
    gfwFillsOf (a ++ b) = gfwFillsOf a ++ gfwFillsOf b := by
  simp [gfwFillsOf]

theorem gfwFillsOf_of_isGfwFill (effs : List Effect) (h : ∀ e ∈ effs, e.isGfwFill = true) :
    gfwFillsOf effs = effs := by
  unfold gfwFillsOf
  exact List.filter_eq_self.2 h

theorem gfwFillsOf_of_isReadOrProfile (effs : List Effect)
    (h : ∀ e ∈ effs, e.isReadOrProfile = true) : gfwFillsOf effs = [] := by
  unfold gfwFillsOf
  rw [List.filter_eq_nil_iff]
  intro e he
  have := h e he
  cases e <;> simp_all [Effect.isReadOrProfile, Effect.isGfwFill]

theorem processData_fills_accepted {G : Type} (E : Env G) (cfg : Config) (m : Members) (g0 : G)
    (rndm : ℚ) (collision : Collision) (tracks : List Track) (Cascades : List Cascade)
    (V0s : List V0) (hlen : tracks ≠ []) (hsel : collision.sel8 = true)
    (hev : eventSelected E cfg collision collision.centFT0C = false)
    (hload : loadCorrections E cfg m collision.timestamp = m) :
    gfwFillsOf (processData E cfg m g0 rndm collision tracks Cascades V0s).1
      = (trackLoop E cfg m collision.posZ
            ⟨1, 1, ⟨TAxis.fix 400 (-E.TwoPI) E.TwoPI, []⟩, 0⟩ tracks).2 ++
        (v0Loop E cfg m
          (trackLoop E cfg m collision.posZ
            ⟨1, 1, ⟨TAxis.fix 400 (-E.TwoPI) E.TwoPI, []⟩, 0⟩ tracks).1.hLocalDensity
          collision.posZ
          ⟨(trackLoop E cfg m collision.posZ
              ⟨1, 1, ⟨TAxis.fix 400 (-E.TwoPI) E.TwoPI, []⟩, 0⟩ tracks).1.weff,
            (trackLoop E cfg m collision.posZ
              ⟨1, 1, ⟨TAxis.fix 400 (-E.TwoPI) E.TwoPI, []⟩, 0⟩ tracks).1.wacc, 1⟩ V0s).2 ++
        (cascLoop E cfg m
          (trackLoop E cfg m collision.posZ
            ⟨1, 1, ⟨TAxis.fix 400 (-E.TwoPI) E.TwoPI, []⟩, 0⟩ tracks).1.hLocalDensity
          collision.posZ
          (v0Loop E cfg m
            (trackLoop E cfg m collision.posZ
              ⟨1, 1, ⟨TAxis.fix 400 (-E.TwoPI) E.TwoPI, []⟩, 0⟩ tracks).1.hLocalDensity
            collision.posZ
            ⟨(trackLoop E cfg m collision.posZ
                ⟨1, 1, ⟨TAxis.fix 400 (-E.TwoPI) E.TwoPI, []⟩, 0⟩ tracks).1.weff,
              (trackLoop E cfg m collision.posZ
                ⟨1, 1, ⟨TAxis.fix 400 (-E.TwoPI) E.TwoPI, []⟩, 0⟩ tracks).1.wacc, 1⟩ V0s).1
          Cascades).2 := by
  have hl : ¬ ((tracks.length : Int) < 1) := by
    cases tracks with
    | nil => exact absurd rfl hlen
    | cons t ts => simp only [List.length_cons]; push_cast; omega
  unfold processData
  simp only [hl, hsel, hev, hload, if_false, Bool.true_eq_false, Bool.false_eq_true]
  rw [gfwFillsOf_append, gfwFillsOf_append]
  rw [gfwFillsOf_of_isReadOrProfile _ (fillFullSample_isReadOrProfile _ _ _)]
  have hj : gfwFillsOf (if cfg.cfgDoJackknife = true then
      fillJackknife cfg (E.gfwCalculate (gfwRun E g0 (Effect.gfwClear ::
        ((trackLoop E cfg m collision.posZ
            ⟨1, 1, ⟨TAxis.fix 400 (-E.TwoPI) E.TwoPI, []⟩, 0⟩ tracks).2 ++
        (v0Loop E cfg m
          (trackLoop E cfg m collision.posZ
            ⟨1, 1, ⟨TAxis.fix 400 (-E.TwoPI) E.TwoPI, []⟩, 0⟩ tracks).1.hLocalDensity
          collision.posZ
          ⟨(trackLoop E cfg m collision.posZ
              ⟨1, 1, ⟨TAxis.fix 400 (-E.TwoPI) E.TwoPI, []⟩, 0⟩ tracks).1.weff,
            (trackLoop E cfg m collision.posZ
              ⟨1, 1, ⟨TAxis.fix 400 (-E.TwoPI) E.TwoPI, []⟩, 0⟩ tracks).1.wacc, 1⟩ V0s).2 ++
        (cascLoop E cfg m
          (trackLoop E cfg m collision.posZ
            ⟨1, 1, ⟨TAxis.fix 400 (-E.TwoPI) E.TwoPI, []⟩, 0⟩ tracks).1.hLocalDensity
          collision.posZ
          (v0Loop E cfg m
            (trackLoop E cfg m collision.posZ
              ⟨1, 1, ⟨TAxis.fix 400 (-E.TwoPI) E.TwoPI, []⟩, 0⟩ tracks).1.hLocalDensity
            collision.posZ
            ⟨(trackLoop E cfg m collision.posZ
                ⟨1, 1, ⟨TAxis.fix 400 (-E.TwoPI) E.TwoPI, []⟩, 0⟩ tracks).1.weff,
              (trackLoop E cfg m collision.posZ
                ⟨1, 1, ⟨TAxis.fix 400 (-E.TwoPI) E.TwoPI, []⟩, 0⟩ tracks).1.wacc, 1⟩ V0s).1
          Cascades).2)))) collision.centFT0C (10 * rndm) else []) = [] := by
    apply gfwFillsOf_of_isReadOrProfile
    intro e he
    split_ifs at he
    · exact fillJackknife_isReadOrProfile _ _ _ _ e he
    · simp at he
  rw [hj, List.append_nil, List.append_nil]
  show gfwFillsOf (_ ++ _ ++ _) = _
  apply gfwFillsOf_of_isGfwFill
  intro e he
  rcases List.mem_append.1 he with he | he
  · rcases List.mem_append.1 he with he | he
    · exact trackLoop_isGfwFill _ _ _ _ _ _ e he
    · exact v0Loop_isGfwFill _ _ _ _ _ _ _ e he
  · exact cascLoop_isGfwFill _ _ _ _ _ _ _ e he

theorem trackLoop_low_efficiency :
    trackLoop nullEnv accEffConfig loadedEfficiency 1
        ⟨1, 1, ⟨TAxis.fix 400 (-nullEnv.TwoPI) nullEnv.TwoPI, []⟩, 0⟩ [trackOfPt 1]
      = (⟨2, 1, ⟨TAxis.fix 400 (-nullEnv.TwoPI) nullEnv.TwoPI, []⟩, 0⟩,
          [Effect.gfwFill 0.5 16 1 2 1, Effect.gfwFill 0.5 16 1 2 32]) := by
  norm_num [trackLoop, trackStep, setCurrentParticleWeights, accEffConfig, defaultConfig,
    loadedEfficiency, refEfficiency, trackOfPt, TH1D.GetBinContent, TH1D.FindBin, fPtAxis,
    TAxis.FindBin, TAxis.GetXmin, TAxis.GetXmax, TAxis.GetNbins, TAxis.truncInt,
    TAxis.binarySearch, List.takeWhile]

theorem trackLoop_full_efficiency :
    trackLoop nullEnv accEffConfig loadedEfficiency 1
        ⟨1, 1, ⟨TAxis.fix 400 (-nullEnv.TwoPI) nullEnv.TwoPI, []⟩, 0⟩ [trackOfPt 6]
      = (⟨1, 1, ⟨TAxis.fix 400 (-nullEnv.TwoPI) nullEnv.TwoPI, []⟩, 0⟩,
          [Effect.gfwFill 0.5 37 1 1 1, Effect.gfwFill 0.5 37 1 1 32]) := by
  norm_num [trackLoop, trackStep, setCurrentParticleWeights, accEffConfig, defaultConfig,
    loadedEfficiency, refEfficiency, trackOfPt, TH1D.GetBinContent, TH1D.FindBin, fPtAxis,
    TAxis.FindBin, TAxis.GetXmin, TAxis.GetXmax, TAxis.GetNbins, TAxis.truncInt,
    TAxis.binarySearch, List.takeWhile]

theorem k0s_zero_efficiency (weight_nue weight_nua : ℚ) :
    setCurrentParticleWeights loadedEfficiency weight_nue weight_nua 1 1 0.5 1 1
      = (false, weight_nue, weight_nua) := by
  norm_num [setCurrentParticleWeights, loadedEfficiency, zeroEfficiency, TH1D.GetBinContent]

theorem v0Step_stale_weights (weff : ℚ) :
    v0Step nullEnv accEffConfig loadedEfficiency
        ⟨TAxis.fix 400 (-nullEnv.TwoPI) nullEnv.TwoPI, []⟩ 1 ⟨weff, 1, 1⟩
        (k0sCandidate 1 0.4035)
      = (⟨weff, 1, 1⟩, [Effect.gfwFill 0.5 14 1 (1 * weff * 1) 8]) := by
  have hk : ∀ a b : ℚ, setCurrentParticleWeights loadedEfficiency a b 1 1 (1 / 2) 1 1
      = (false, a, b) := by
    intro a b
    have := k0s_zero_efficiency a b
    norm_num at this
    exact this
  norm_num [v0Step, v0IsK0s, v0IsLambda, v0PassesCuts, k0sCandidate, goodDaughter, nullEnv,
    accEffConfig, defaultConfig, cfgNSigma, candWeights, hk, fV0PtAxis, fK0sMass, nV0PtBins,
    cfgmassbins, TAxis.FindBin, TAxis.GetXmin, TAxis.GetXmax, TAxis.GetNbins, TAxis.truncInt,
    toNat_eighty, TAxis.binarySearch, List.takeWhile, abs_lt, le_abs, lt_abs]

theorem passingCollision_proceeds (cfg : Config) :
    eventSelected nullEnv cfg passingCollision passingCollision.centFT0C = false := by
  simp [eventSelected, passingCollision]

/-- C13, the code at the failing input.  Efficiency correction is on and five efficiency
histograms are loaded; the one for K0s is empty, so the efficiency looked up for the K0s
candidate is `0`.  `setCurrentParticleWeights` then returns `false` and leaves `weff` and
`wacc` as they were; `processData` ignores the result for V0s (for tracks it skips the
track) and fills the candidate with the weights of the last track.  The same event with the
same candidate passes the weight `2` for it after a track of `pt = 1` (efficiency `1/2`) and
the weight `1` after a track of `pt = 6` (efficiency `1`). -/
theorem candidate_weight_depends_on_earlier_track :
    (∀ weight_nue weight_nua : ℚ,
      setCurrentParticleWeights loadedEfficiency weight_nue weight_nua
          (k0sCandidate 1 0.4035).pt (k0sCandidate 1 0.4035).phi (k0sCandidate 1 0.4035).eta
          passingCollision.posZ 1
        = (false, weight_nue, weight_nua)) ∧
    gfwFillsOf (processData nullEnv accEffConfig loadedEfficiency () (1 / 3) passingCollision
        [trackOfPt 1] [] [k0sCandidate 1 0.4035]).1
      = [Effect.gfwFill 0.5 16 1 2 1, Effect.gfwFill 0.5 16 1 2 32,
          Effect.gfwFill 0.5 14 1 2 8] ∧
    gfwFillsOf (processData nullEnv accEffConfig loadedEfficiency () (1 / 3) passingCollision
        [trackOfPt 6] [] [k0sCandidate 1 0.4035]).1
      = [Effect.gfwFill 0.5 37 1 1 1, Effect.gfwFill 0.5 37 1 1 32,
          Effect.gfwFill 0.5 14 1 1 8] := by
  refine ⟨fun a b => k0s_zero_efficiency a b, ?_, ?_⟩
  · rw [processData_fills_accepted nullEnv accEffConfig loadedEfficiency () (1 / 3)
      passingCollision [trackOfPt 1] [] [k0sCandidate 1 0.4035] (by simp) rfl
      (passingCollision_proceeds _) rfl]
    have hz : passingCollision.posZ = 1 := rfl
    rw [hz, trackLoop_low_efficiency]
    simp only [v0Loop, cascLoop, v0Step_stale_weights]
    norm_num
  · rw [processData_fills_accepted nullEnv accEffConfig loadedEfficiency () (1 / 3)
      passingCollision [trackOfPt 6] [] [k0sCandidate 1 0.4035] (by simp) rfl
      (passingCollision_proceeds _) rfl]
    have hz : passingCollision.posZ = 1 := rfl
    rw [hz, trackLoop_full_efficiency]
    simp only [v0Loop, cascLoop, v0Step_stale_weights]
    norm_num


/-! ## C16, C17: the 2-particle correlator of the engine -/

theorem QC.normSq_mul (a b : QC) : QC.normSq (QC.mul a b) = QC.normSq a * QC.normSq b := by
  simp only [QC.normSq, QC.mul]
  ring

theorem QC.normSq_conj (a : QC) : QC.normSq (QC.conj a) = QC.normSq a := by
  simp only [QC.normSq, QC.conj]
  ring

theorem QC.normSq_npow (a : QC) (h : QC.normSq a = 1) (k : Nat) :
    QC.normSq (QC.npow a k) = 1 := by
  induction k with
  | zero => simp [QC.npow, QC.one, QC.normSq]
  | succ k ih => rw [QC.npow, QC.normSq_mul, ih, h, one_mul]

theorem QC.normSq_phasePow (a : QC) (h : QC.normSq a = 1) (n : Int) :
    QC.normSq (QC.phasePow a n) = 1 := by
  unfold QC.phasePow
  split_ifs
  · exact QC.normSq_npow a h _
  · exact QC.normSq_npow _ (by rw [QC.normSq_conj, h]) _

theorem foldr_add_const (g : FillCall → QC) (z : QC) (l : List FillCall)
    (h : ∀ f ∈ l, g f = z) :
    (l.map g).foldr QC.add QC.zero = ⟨(l.length : ℚ) * z.re, (l.length : ℚ) * z.im⟩ := by
  induction l with
  | nil => simp [QC.zero]
  | cons f rest ih =>
    have hf := h f (List.mem_cons_self _ _)
    have hr := ih (fun x hx => h x (List.mem_cons_of_mem _ hx))
    simp only [List.map_cons, List.foldr_cons, hr, hf, QC.add, List.length_cons, QC.mk.injEq]
    constructor <;> push_cast <;> ring

theorem flowVector_same_azimuth (cis : ℚ → QC) (fills : List FillCall) (A : Region)
    (phi0 : ℚ) (n : Int) (p : Nat)
    (hsame : ∀ f ∈ fills, A.accepts f = true → f.phi = phi0 ∧ f.weight = 1) :
    flowVector cis fills A n p
      = ⟨((fills.filter A.accepts).length : ℚ) * (QC.phasePow (cis phi0) n).re,
          ((fills.filter A.accepts).length : ℚ) * (QC.phasePow (cis phi0) n).im⟩ := by
  unfold flowVector
  apply foldr_add_const
  intro f hf
  rw [List.mem_filter] at hf
  obtain ⟨h1, h2⟩ := hsame f hf.1 hf.2
  rw [h1, h2]
  simp [QC.smul]

theorem self_correlator_values (cis : ℚ → QC) (fills : List FillCall) (A : Region)
    (phi0 : ℚ) (n : Nat) (hunit : QC.normSq (cis phi0) = 1)
    (hsame : ∀ f ∈ fills, A.accepts f = true → f.phi = phi0 ∧ f.weight = 1) :
    numerator2 cis fills A A n
        = QC.ofRat (((fills.filter A.accepts).length : ℚ)
            * (((fills.filter A.accepts).length : ℚ) - 1)) ∧
      denominator2 cis fills A A
        = ((fills.filter A.accepts).length : ℚ)
            * (((fills.filter A.accepts).length : ℚ) - 1) := by
  have hz := QC.normSq_phasePow (cis phi0) hunit (n : Int)
  have h0 : QC.phasePow (cis phi0) 0 = QC.one := by simp [QC.phasePow, QC.npow]
  unfold numerator2 denominator2
  simp only [if_true]
  rw [flowVector_same_azimuth cis fills A phi0 (n : Int) 1 hsame,
    flowVector_same_azimuth cis fills A phi0 0 2 hsame,
    flowVector_same_azimuth cis fills A phi0 0 1 hsame, h0]
  simp only [QC.normSq] at hz
  constructor
  · simp only [QC.sub, QC.mul, QC.conj, QC.ofRat, QC.one, QC.mk.injEq]
    constructor
    · linear_combination
        ((fills.filter A.accepts).length : ℚ) * ((fills.filter A.accepts).length : ℚ) * hz
    · ring
  · simp only [QC.one]
    ring

/-- C16, as stated, fails for an event with a single particle: with one unit-weight fill in
`reffull` the numerator and the denominator of the same-region 2-particle correlator are both
`0 = 1·(1 - 1)`, so every number `q` satisfies `q · denominator = numerator` and no ratio
is determined; the quotient is not `1`. -/
theorem single_particle_has_no_ratio :
    numerator2 fixedCis [unitFill 0] regReffull regReffull 2 = QC.ofRat 0 ∧
      denominator2 fixedCis [unitFill 0] regReffull regReffull = 0 ∧
      (∀ q : ℚ, q * denominator2 fixedCis [unitFill 0] regReffull regReffull
          = (numerator2 fixedCis [unitFill 0] regReffull regReffull 2).re) ∧
      (numerator2 fixedCis [unitFill 0] regReffull regReffull 2).re
          / denominator2 fixedCis [unitFill 0] regReffull regReffull ≠ 1 := by
  have hacc : ∀ f ∈ [unitFill 0], regReffull.accepts f = true → f.phi = 1 ∧ f.weight = 1 := by
    intro f hf _
    rw [List.mem_singleton] at hf
    rw [hf]
    exact ⟨rfl, rfl⟩
  have hunit : QC.normSq (fixedCis 1) = 1 := by norm_num [QC.normSq, fixedCis]
  have hlen : ([unitFill 0].filter regReffull.accepts).length = 1 := by
    norm_num [List.filter, Region.accepts, unitFill, regReffull]
  obtain ⟨hn, hd⟩ := self_correlator_values fixedCis [unitFill 0] regReffull 1 2 hunit hacc
  rw [hlen] at hn hd
  norm_num at hn hd
  refine ⟨hn, hd, ?_, ?_⟩
  · intro q
    rw [hn, hd]
    simp [QC.ofRat]
  · rw [hn, hd]
    norm_num

/-- C16 (amended).  Modelled engine, same-region 2-particle correlator with harmonics `n`
and `-n`: when every fill that the region `A` accepts has the azimuth `phi0` and the weight
`1`, and `exp(i·phi0)` has modulus one, then with `N` the number of accepted fills the
numerator is `N(N-1)` (imaginary part `0`) and the denominator is `N(N-1)`; when `N ≥ 2` the
denominator is not zero and the ratio is exactly `1`. -/
theorem self_overlap_ratio_is_one (cis : ℚ → QC) (fills : List FillCall) (A : Region)
    (phi0 : ℚ) (n : Nat) (hunit : QC.normSq (cis phi0) = 1)
    (hsame : ∀ f ∈ fills, A.accepts f = true → f.phi = phi0 ∧ f.weight = 1) :
    numerator2 cis fills A A n
        = QC.ofRat (((fills.filter A.accepts).length : ℚ)
            * (((fills.filter A.accepts).length : ℚ) - 1)) ∧
      denominator2 cis fills A A
        = ((fills.filter A.accepts).length : ℚ)
            * (((fills.filter A.accepts).length : ℚ) - 1) ∧
      (2 ≤ (fills.filter A.accepts).length →
        denominator2 cis fills A A ≠ 0 ∧
          (numerator2 cis fills A A n).re / denominator2 cis fills A A = 1) := by
  obtain ⟨hn, hd⟩ := self_correlator_values cis fills A phi0 n hunit hsame
  refine ⟨hn, hd, ?_⟩
  intro h2
  have hN : (2 : ℚ) ≤ ((fills.filter A.accepts).length : ℚ) := by exact_mod_cast h2
  have hpos : ((fills.filter A.accepts).length : ℚ)
      * (((fills.filter A.accepts).length : ℚ) - 1) ≠ 0 := by
    apply mul_ne_zero <;> linarith
  rw [hn, hd]
  exact ⟨hpos, by simp only [QC.ofRat]; exact div_self hpos⟩

/-- C16 (amended), at a concrete input: three unit-weight fills at the same azimuth in
`reffull`, harmonic `2`. -/
theorem self_overlap_ratio_is_one_witness :
    numerator2 fixedCis [unitFill 0, unitFill 0.5, unitFill (-0.5)] regReffull regReffull 2
        = QC.ofRat (3 * (3 - 1)) ∧
      denominator2 fixedCis [unitFill 0, unitFill 0.5, unitFill (-0.5)] regReffull regReffull
        = 3 * (3 - 1) ∧
      (numerator2 fixedCis [unitFill 0, unitFill 0.5, unitFill (-0.5)] regReffull
          regReffull 2).re
        / denominator2 fixedCis [unitFill 0, unitFill 0.5, unitFill (-0.5)] regReffull
            regReffull = 1 := by
  have hlen : ([unitFill 0, unitFill 0.5, unitFill (-0.5)].filter regReffull.accepts).length
      = 3 := by
    norm_num [List.filter, Region.accepts, unitFill, regReffull]
  have h := self_overlap_ratio_is_one fixedCis [unitFill 0, unitFill 0.5, unitFill (-0.5)]
    regReffull 1 2 (by norm_num [QC.normSq, fixedCis])
    (by
      intro f hf _
      simp only [List.mem_cons, List.mem_singleton, List.not_mem_nil, or_false] at hf
      rcases hf with rfl | rfl | rfl <;> exact ⟨rfl, rfl⟩)
  rw [hlen] at h
  exact ⟨by exact_mod_cast h.1, by exact_mod_cast h.2.1, (h.2.2 (by decide)).2⟩

theorem not_both_accept (A B : Region) (hgap : A.etaMax < B.etaMin ∨ B.etaMax < A.etaMin)
    (f : FillCall) : ¬ (A.accepts f = true ∧ B.accepts f = true) := by
  simp only [Region.accepts, decide_eq_true_eq]
  rintro ⟨⟨-, h1, h2⟩, ⟨-, h3, h4⟩⟩
  rcases hgap with h | h <;> linarith

/-- C17.  Modelled engine, 2-particle correlator of two different regions `A`, `B` whose eta
ranges are disjoint (one ends below the start of the other): no fill is accepted by both, the
numerator is the plain product `Q[n]_A · conj Q[n]_B` with nothing subtracted, and the
numerator of the same-region correlator of `A` is the plain product of `A` with itself minus
the self-term `Q[0][2]`: the two cases differ by exactly that term. -/
theorem eta_gap_numerator_is_plain_product (cis : ℚ → QC) (fills : List FillCall)
    (A B : Region) (n : Nat) (hname : A.name ≠ B.name)
    (hgap : A.etaMax < B.etaMin ∨ B.etaMax < A.etaMin) :
    (∀ f ∈ fills, ¬ (A.accepts f = true ∧ B.accepts f = true)) ∧
      numerator2 cis fills A B n
        = QC.mul (flowVector cis fills A n 1) (QC.conj (flowVector cis fills B n 1)) ∧
      numerator2 cis fills A A n
        = QC.sub (QC.mul (flowVector cis fills A n 1) (QC.conj (flowVector cis fills A n 1)))
            (flowVector cis fills A 0 2) ∧
      QC.sub (QC.mul (flowVector cis fills A n 1) (QC.conj (flowVector cis fills A n 1)))
          (numerator2 cis fills A A n)
        = flowVector cis fills A 0 2 := by
  refine ⟨fun f _ => not_both_accept A B hgap f, ?_, ?_, ?_⟩
  · unfold numerator2
    rw [if_neg hname]
    simp [QC.sub, QC.zero]
  · unfold numerator2
    rw [if_pos rfl]
  · unfold numerator2
    rw [if_pos rfl]
    simp [QC.sub]

/-- C17, at a concrete input: `refP10` and `refN10` with one fill on each side. -/
theorem eta_gap_numerator_is_plain_product_witness :
    regRefP10.name ≠ regRefN10.name ∧ regRefN10.etaMax < regRefP10.etaMin ∧
      numerator2 fixedCis [unitFill (-0.5), unitFill 0.5] regRefP10 regRefN10 2
        = QC.mul (flowVector fixedCis [unitFill (-0.5), unitFill 0.5] regRefP10 2 1)
            (QC.conj (flowVector fixedCis [unitFill (-0.5), unitFill 0.5] regRefN10 2 1)) :=
  ⟨by decide, by norm_num [regRefN10, regRefP10],
    (eta_gap_numerator_is_plain_product fixedCis [unitFill (-0.5), unitFill 0.5] regRefP10
      regRefN10 2 (by decide) (Or.inr (by norm_num [regRefN10, regRefP10]))).2.1⟩


/-! ## C21: the labels of the catalog -/

/-- C21, the code at the failing input.  The label `Xi10Gap24` is given to three different
correlators of the catalog: entry 5 (Xi), entry 8 (Omega) and entry 11 (K0s), all 4-particle;
the labels are therefore not pairwise distinct, and the 26 entries carry 24 different
labels. -/
theorem catalog_labels_repeat :
    (corrconfigsAt 5).Head = "Xi10Gap24" ∧ (corrconfigsAt 8).Head = "Xi10Gap24" ∧
      (corrconfigsAt 11).Head = "Xi10Gap24" ∧
      (corrconfigsAt 5).expr = "poiXifulldpt reffull {2 2 -2 -2}" ∧
      (corrconfigsAt 8).expr = "poiOmegafulldpt reffull {2 2 -2 -2}" ∧
      (corrconfigsAt 11).expr = "poiK0sfulldpt reffull {2 2 -2 -2}" ∧
      ¬ (corrconfigs.map (fun c => c.Head)).Nodup ∧
      (corrconfigs.filter (fun c => decide (c.Head = "Xi10Gap24"))).length = 3 ∧
      corrconfigs.length = 26 ∧ (corrconfigs.map (fun c => c.Head)).eraseDups.length = 24 ∧
      ∀ cfg : Config, (initGfwCalls cfg).filterMap GfwInitCall.config? = corrconfigs := by
  refine ⟨rfl, rfl, rfl, rfl, rfl, rfl, by decide, by decide, rfl, by decide, fun _ => rfl⟩

/-! ## C26: the eta range of the side regions -/

theorem regionRanges_eq (cfg : Config) :
    (regions cfg).map (fun r => (r.name, r.etaMin, r.etaMax)) = regionRanges := rfl

theorem regionRanges_table :
    regionRanges =
    [("reffull", -0.8, 0.8),
     ("refN10", -0.8, -0.4),
     ("refP10", 0.4, 0.8),
     ("poiN10dpt", -0.8, -0.4),
     ("poiP10dpt", 0.4, 0.8),
     ("poifulldpt", -0.8, 0.8),
     ("poioldpt", -0.8, 0.8),
     ("poiXiPdpt", 0.4, 0.8),
     ("poiXiNdpt", -0.8, -0.4),
     ("poiXifulldpt", -0.8, 0.8),
     ("poiXiP", 0.4, 0.8),
     ("poiXiN", -0.8, -0.4),
     ("poiOmegaPdpt", 0.4, 0.8),
     ("poiOmegaNdpt", -0.8, -0.4),
     ("poiOmegafulldpt", -0.8, 0.8),
     ("poiOmegaP", 0.4, 0.8),
     ("poiOmegaN", -0.8, -0.4),
     ("poiK0sPdpt", 0.4, 0.8),
     ("poiK0sNdpt", -0.8, -0.4),
     ("poiK0sfulldpt", -0.8, 0.8),
     ("poiK0sP", 0.4, 0.8),
     ("poiK0sN", -0.8, 0.4),
     ("poiLambdaPdpt", 0.4, 0.8),
     ("poiLambdaNdpt", -0.8, -0.4),
     ("poiLambdafulldpt", -0.8, 0.8),
     ("poiLambdaP", 0.4, 0.8),
     ("poiLambdaN", -0.8, -0.4),
     ("refN10MC", -0.8, -0.4),
     ("refP10MC", 0.4, 0.8),
     ("poiXiPdptMC", 0.4, 0.8),
     ("poiXiNdptMC", -0.8, -0.4),
     ("poiOmegaPdptMC", 0.4, 0.8),
     ("poiOmegaNdptMC", -0.8, -0.4),
     ("poiK0sPdptMC", 0.4, 0.8),
     ("poiK0sNdptMC", -0.8, -0.4),
     ("poiLambdaPdptMC", 0.4, 0.8),
     ("poiLambdaNdptMC", -0.8, -0.4)] := rfl

theorem side_ranges_but_one :
    ∀ t ∈ regionRanges, t.1 ≠ "poiK0sN" →
      ∃ s : Side, regionSide t.1 = some s ∧ t.2 = rangeOfSide s := by
  intro t ht
  rw [regionRanges_table] at ht
  simp only [List.mem_cons, List.mem_singleton, List.not_mem_nil, or_false] at ht
  rcases ht with rfl | rfl | rfl | rfl | rfl | rfl | rfl | rfl | rfl | rfl | rfl | rfl | rfl | rfl | rfl | rfl | rfl | rfl | rfl | rfl | rfl | rfl | rfl | rfl | rfl | rfl | rfl | rfl | rfl | rfl | rfl | rfl | rfl | rfl | rfl | rfl | rfl <;>
    first
    | exact fun h => absurd rfl h
    | exact fun _ => ⟨Side.negative, by decide, by rfl⟩
    | exact fun _ => ⟨Side.positive, by decide, by rfl⟩
    | exact fun _ => ⟨Side.full, by decide, by rfl⟩

/-- C26, the code at the failing input.  The region `poiK0sN`, whose name marks the negative
side, is declared with the eta range `[-0.8, 0.4]`, which reaches across mid-rapidity into
the positive side and is not `[-0.8, -0.4]`; its siblings `poiK0sNdpt`, `poiXiN`, `poiOmegaN`
and `poiLambdaN` are declared with `[-0.8, -0.4]`.  Every other region has the range of the
side its name marks, under every configuration. -/
theorem negative_k0s_region_crosses_midrapidity (cfg : Config) :
    regionSide "poiK0sN" = some Side.negative ∧
      regionNamed cfg "poiK0sN" = some ⟨"poiK0sN", -0.8, 0.4, 1, 8⟩ ∧
      ((-0.8 : ℚ), (0.4 : ℚ)) ≠ rangeOfSide Side.negative ∧
      regionNamed cfg "poiK0sNdpt"
        = some ⟨"poiK0sNdpt", -0.8, -0.4, nV0PtBins cfg * cfgmassbins cfg 0, 8⟩ ∧
      regionNamed cfg "poiXiN" = some ⟨"poiXiN", -0.8, -0.4, 1, 2⟩ ∧
      regionNamed cfg "poiOmegaN" = some ⟨"poiOmegaN", -0.8, -0.4, 1, 4⟩ ∧
      regionNamed cfg "poiLambdaN" = some ⟨"poiLambdaN", -0.8, -0.4, 1, 16⟩ ∧
      ∀ r ∈ regions cfg, r.name ≠ "poiK0sN" →
        ∃ s : Side, regionSide r.name = some s ∧ (r.etaMin, r.etaMax) = rangeOfSide s := by
  refine ⟨by decide, rfl, ?_, rfl, rfl, rfl, rfl, ?_⟩
  · norm_num [rangeOfSide]
  · intro r hr hne
    have hm : (r.name, r.etaMin, r.etaMax) ∈ regionRanges := by
      rw [← regionRanges_eq cfg]
      exact List.mem_map.2 ⟨r, hr, rfl⟩
    obtain ⟨s, h1, h2⟩ := side_ranges_but_one (r.name, r.etaMin, r.etaMax) hm hne
    exact ⟨s, h1, h2⟩

/-! ## C28: the calibration tables -/

theorem loadCorrections_loaded {G : Type} (E : Env G) (cfg : Config) (m : Members)
    (timestamp : Nat) (h : m.correctionsLoaded = true) :
    loadCorrections E cfg m timestamp = m := by
  simp [loadCorrections, h]

theorem loadCorrections_sets_flag {G : Type} (E : Env G) (cfg : Config) (m : Members)
    (timestamp : Nat) : (loadCorrections E cfg m timestamp).correctionsLoaded = true := by
  by_cases h : m.correctionsLoaded = true
  · rw [loadCorrections_loaded E cfg m timestamp h]
    exact h
  · simp [loadCorrections, h]

theorem foldl_loadCorrections_loaded {G : Type} (E : Env G) (cfg : Config)
    (timestamps : List Nat) :
    ∀ m : Members, m.correctionsLoaded = true →
      timestamps.foldl (loadCorrections E cfg) m = m := by
  induction timestamps with
  | nil => intro m _; rfl
  | cons t ts ih =>
    intro m h
    rw [List.foldl_cons, loadCorrections_loaded E cfg m t h]
    exact ih m h

theorem loadCorrections_first_sizes {G : Type} (E : Env G) (cfg : Config) (timestamp : Nat) :
    (loadCorrections E cfg noCalibration timestamp).mAcceptance.length
        = (if cfg.cfgAcceptancePath.length = 5 then 5 else 0) ∧
      (loadCorrections E cfg noCalibration timestamp).mEfficiency.length
        = (if cfg.cfgEfficiencyPath.length = 5 then 5 else 0) := by
  unfold loadCorrections noCalibration
  simp only [Bool.false_eq_true, if_false]
  constructor <;> split_ifs <;> simp

/-- C28. Starting from the members as constructed (both tables empty, `correctionsLoaded`
false), after any sequence of `loadCorrections` calls each of `mAcceptance` and
`mEfficiency` has size `0` or `5`, whatever the fetches return; after at least one call a
table has size `5` exactly when its path list has five entries (so the size test that
follows each push loop succeeds), the members are those left by the first call, and
every further call leaves `mAcceptance`, `mEfficiency` and `correctionsLoaded` unchanged. -/
theorem calibration_tables_all_or_nothing {G : Type} (E : Env G) (cfg : Config)
    (timestamps : List Nat) :
    ((timestamps.foldl (loadCorrections E cfg) noCalibration).mAcceptance.length = 0 ∨
        (timestamps.foldl (loadCorrections E cfg) noCalibration).mAcceptance.length = 5) ∧
      ((timestamps.foldl (loadCorrections E cfg) noCalibration).mEfficiency.length = 0 ∨
        (timestamps.foldl (loadCorrections E cfg) noCalibration).mEfficiency.length = 5) ∧
      (∀ (first : Nat) (later : List Nat),
        (first :: later).foldl (loadCorrections E cfg) noCalibration
            = loadCorrections E cfg noCalibration first ∧
          ((first :: later).foldl (loadCorrections E cfg) noCalibration).mAcceptance.length
            = (if cfg.cfgAcceptancePath.length = 5 then 5 else 0) ∧
          ((first :: later).foldl (loadCorrections E cfg) noCalibration).mEfficiency.length
            = (if cfg.cfgEfficiencyPath.length = 5 then 5 else 0) ∧
          ∀ timestamp : Nat,
            loadCorrections E cfg
                ((first :: later).foldl (loadCorrections E cfg) noCalibration) timestamp
              = (first :: later).foldl (loadCorrections E cfg) noCalibration) := by
  have hfirst : ∀ (first : Nat) (later : List Nat),
      (first :: later).foldl (loadCorrections E cfg) noCalibration
        = loadCorrections E cfg noCalibration first := by
    intro first later
    rw [List.foldl_cons]
    exact foldl_loadCorrections_loaded E cfg later _ (loadCorrections_sets_flag E cfg _ _)
  have hsz := loadCorrections_first_sizes E cfg
  refine ⟨?_, ?_, ?_⟩
  · cases timestamps with
    | nil => left; rfl
    | cons t ts =>
      rw [hfirst, (hsz t).1]
      split_ifs
      · right; rfl
      · left; rfl
  · cases timestamps with
    | nil => left; rfl
    | cons t ts =>
      rw [hfirst, (hsz t).2]
      split_ifs
      · right; rfl
      · left; rfl
  · intro first later
    rw [hfirst]
    exact ⟨rfl, (hsz first).1, (hsz first).2,
      fun timestamp => loadCorrections_loaded E cfg _ timestamp
        (loadCorrections_sets_flag E cfg _ _)⟩


/-! ## C22: event selection in `processData` -/

theorem processData_of_selected {G : Type} (E : Env G) (cfg : Config) (m : Members) (g0 : G)
    (rndm : ℚ) (collision : Collision) (tracks : List Track) (Cascades : List Cascade)
    (V0s : List V0) (hev : eventSelected E cfg collision collision.centFT0C = true) :
    (processData E cfg m g0 rndm collision tracks Cascades V0s).1 = [] ∨
      (processData E cfg m g0 rndm collision tracks Cascades V0s).1 = [Effect.gfwClear] := by
  unfold processData
  by_cases hlen : ((tracks.length : Int) < 1)
  · left; simp [hlen]
  · by_cases hsel : collision.sel8 = false
    · right; simp [hlen, hsel]
    · right; simp [hlen, hsel, hev]

theorem selectedCollision_selected :
    eventSelected nullEnv defaultConfig selectedCollision selectedCollision.centFT0C = true := by
  norm_num [eventSelected, selectedCollision, passingCollision, nullEnv, defaultConfig]

theorem fillProfile_mem (calcRe : CorrConfig → Int → Bool → ℚ) (corrconf : CorrConfig)
    (tarName : String) (cent : ℚ) (h0 : calcRe corrconf 0 true ≠ 0)
    (hp : corrconf.pTDif = false)
    (hv : |calcRe corrconf 0 false / calcRe corrconf 0 true| < 1) :
    Effect.profFill (Target.hist tarName)
        ⟨[cent], calcRe corrconf 0 false / calcRe corrconf 0 true, calcRe corrconf 0 true⟩
      ∈ fillProfile calcRe corrconf tarName cent := by
  unfold fillProfile
  simp [h0, hp, hv]

theorem rejected_collision_fills_profile :
    Effect.profFill (Target.hist "c22") ⟨[35], 1 / 2, 1⟩
      ∈ (processData (constEnv (1 / 2) 1) defaultConfig noCalibration () (1 / 3)
          passingCollision [sampleTrack] [] []).1 := by
  have hev : eventSelected (constEnv (1 / 2) 1) defaultConfig passingCollision
      passingCollision.centFT0C = false := by
    simp [eventSelected, passingCollision]
  have hlen : ¬ ((([sampleTrack] : List Track).length : Int) < 1) := by decide
  have hsel : ¬ (passingCollision.sel8 = false) := by decide
  have key : Effect.profFill (Target.hist "c22") ⟨[35], 1 / 2, 1⟩
      ∈ fillProfile (constCalc (1 / 2) 1) (corrconfigsAt 15) "c22" 35 := by
    have h := fillProfile_mem (constCalc (1 / 2) 1) (corrconfigsAt 15) "c22" 35
      (by norm_num [constCalc]) rfl (by norm_num [constCalc, abs_lt])
    norm_num [constCalc] at h
    exact h
  unfold processData
  simp only [hlen, hsel, hev, if_false, Bool.false_eq_true]
  apply List.mem_append_left
  apply List.mem_append_right
  unfold fillFullSample
  apply List.mem_append_left
  apply List.mem_append_left
  apply List.mem_append_left
  apply List.mem_append_left
  exact key

theorem selected_collision_only_clears :
    (processData nullEnv defaultConfig noCalibration () (1 / 3) selectedCollision
        [sampleTrack] [] []).1 = [Effect.gfwClear] := by
  have hlen : ¬ ((([sampleTrack] : List Track).length : Int) < 1) := by decide
  unfold processData
  simp only [hlen, if_false]
  rw [if_neg (by decide : ¬ selectedCollision.sel8 = false), if_pos selectedCollision_selected]

theorem rejected_collision_fills_engine :
    gfwFillsOf (processData nullEnv defaultConfig loadedEfficiency () (1 / 3) passingCollision
        [sampleTrack] [] []).1
      = [Effect.gfwFill 0.5 16 1 1 1, Effect.gfwFill 0.5 16 1 1 32] := by
  rw [processData_fills_accepted nullEnv defaultConfig loadedEfficiency () (1 / 3)
    passingCollision [sampleTrack] [] [] (by simp) rfl (passingCollision_proceeds _) rfl]
  norm_num [trackLoop, trackStep, v0Loop, cascLoop, sampleTrack, defaultConfig, fPtAxis,
    TAxis.FindBin, TAxis.GetXmin, TAxis.GetXmax, TAxis.GetNbins, TAxis.binarySearch,
    List.takeWhile]

/-- C22, the code at the failing inputs.  `processData` returns right after `Clear` exactly
when `eventSelected` returns `true`: a collision that `eventSelected` accepts contributes to
no `Fill` and to no profile, and a collision that it rejects (here one with the TRD trigger
alias, the first rejection of `eventSelected`) is processed, its track is filled into the
engine with the tags `1` and `32`, and the profile `c22` is filled. -/
theorem selected_collision_is_dropped :
    (∀ {G : Type} (E : Env G) (cfg : Config) (m : Members) (g0 : G) (rndm : ℚ)
        (collision : Collision) (tracks : List Track) (Cascades : List Cascade) (V0s : List V0),
      eventSelected E cfg collision collision.centFT0C = true →
        (processData E cfg m g0 rndm collision tracks Cascades V0s).1 = [] ∨
          (processData E cfg m g0 rndm collision tracks Cascades V0s).1 = [Effect.gfwClear]) ∧
    eventSelected nullEnv defaultConfig selectedCollision selectedCollision.centFT0C = true ∧
    (processData nullEnv defaultConfig noCalibration () (1 / 3) selectedCollision
        [sampleTrack] [] []).1 = [Effect.gfwClear] ∧
    eventSelected nullEnv defaultConfig passingCollision passingCollision.centFT0C = false ∧
    gfwFillsOf (processData nullEnv defaultConfig loadedEfficiency () (1 / 3) passingCollision
        [sampleTrack] [] []).1
      = [Effect.gfwFill 0.5 16 1 1 1, Effect.gfwFill 0.5 16 1 1 32] ∧
    Effect.profFill (Target.hist "c22") ⟨[35], 1 / 2, 1⟩
      ∈ (processData (constEnv (1 / 2) 1) defaultConfig noCalibration () (1 / 3)
          passingCollision [sampleTrack] [] []).1 :=
  ⟨fun E cfg m g0 rndm collision tracks Cascades V0s hev =>
      processData_of_selected E cfg m g0 rndm collision tracks Cascades V0s hev,
    selectedCollision_selected, selected_collision_only_clears, passingCollision_proceeds _,
    rejected_collision_fills_engine, rejected_collision_fills_profile⟩

/-! ## C27: the centrality passed to `eventSelected` in `processMC` -/

theorem lowMultCollision_selection :
    eventSelected centralityEnv defaultConfig lowMultCollision (-1) = true ∧
      eventSelected centralityEnv defaultConfig lowMultCollision lowMultCollision.centFT0C
        = false := by
  constructor
  · norm_num [eventSelected, lowMultCollision, passingCollision, centralityEnv, nullEnv,
      defaultConfig]
  · norm_num [eventSelected, lowMultCollision, passingCollision, centralityEnv, nullEnv,
      defaultConfig]

/-- C27, the code at the failing input.  In the loop over the reconstructed collisions of
`processMC` the running variable `cent` is passed to `eventSelected` and is set to the
centrality of the collision only afterwards: the first collision is tested with `-1` and
every later one with the centrality of the collision before it.  With a lower multiplicity
cut that grows with the centrality, a collision of centrality `35` gets the answer `true`
for `-1` and `false` for its own centrality, so `processMC` returns at this collision and
fills nothing, while the test with the collision's own centrality would let the loop go on
with `cent = 35`. -/
theorem first_collision_tested_with_minus_one :
    (∀ {G : Type} (E : Env G) (cfg : Config) (collision : Collision) (rest : List Collision),
      mcCentLoop E cfg (-1) (collision :: rest)
        = if collision.sel8 = false then none
          else if eventSelected E cfg collision (-1) then none
          else mcCentLoop E cfg collision.centFT0C rest) ∧
    (∀ {G : Type} (E : Env G) (cfg : Config) (first second : Collision)
        (rest : List Collision),
      first.sel8 = true → eventSelected E cfg first (-1) = false →
        mcCentLoop E cfg (-1) (first :: second :: rest)
          = if second.sel8 = false then none
            else if eventSelected E cfg second first.centFT0C then none
            else mcCentLoop E cfg second.centFT0C rest) ∧
    lowMultCollision.centFT0C = 35 ∧
    eventSelected centralityEnv defaultConfig lowMultCollision (-1) = true ∧
    eventSelected centralityEnv defaultConfig lowMultCollision lowMultCollision.centFT0C
      = false ∧
    mcCentLoop centralityEnv defaultConfig (-1) [lowMultCollision] = none ∧
    (∀ tracksGen : List McParticle,
      processMC centralityEnv defaultConfig () tracksGen [lowMultCollision]
        = [Effect.gfwClear]) := by
  have hloop : mcCentLoop centralityEnv defaultConfig (-1) [lowMultCollision] = none := by
    show (if lowMultCollision.sel8 = false then none
      else if eventSelected centralityEnv defaultConfig lowMultCollision (-1) = true then none
      else mcCentLoop centralityEnv defaultConfig lowMultCollision.centFT0C []) = none
    rw [if_neg (by decide), if_pos lowMultCollision_selection.1]
  refine ⟨fun E cfg collision rest => rfl, ?_, rfl, lowMultCollision_selection.1,
    lowMultCollision_selection.2, hloop, ?_⟩
  · intro G E cfg first second rest h1 h2
    simp [mcCentLoop, h1, h2]
  · intro tracksGen
    simp [processMC, hloop]


/-! ## C23: the indices of the jackknife arrays -/

theorem fillFullSample_slots (cfg : Config) (calcRe : CorrConfig → Int → Bool → ℚ)
    (cent : ℚ) :
    ∀ e ∈ fillFullSample cfg calcRe cent,
      e.within dataMasks dataConfigs slotOfJackknifeLoop = true := by
  intro e he
  simp only [fillFullSample, List.mem_append, List.mem_flatMap] at he
  rcases he with (((he | he) | ⟨i, -, he⟩) | ⟨i, -, he⟩) | ⟨i, -, he⟩
  · exact fillProfile_within _ _ _ _ _ _ _ (by decide) rfl e he
  · exact fillProfile_within _ _ _ _ _ _ _ (by decide) rfl e he
  · rcases he with (he | he) | he <;>
      exact fillProfilepT_within _ _ _ _ _ _ _ _ _ (by decide) rfl e he
  · rcases he with ((((he | he) | he) | he) | he) | he <;>
      exact fillProfilepTMass_within _ _ _ _ _ _ _ _ _ _ (by decide) rfl e he
  · rcases he with ((((he | he) | he) | he) | he) | he <;>
      exact fillProfilepTMass_within _ _ _ _ _ _ _ _ _ _ (by decide) rfl e he

theorem fillSubsample_slots (cfg : Config) (calcRe : CorrConfig → Int → Bool → ℚ)
    (cent : ℚ) (j : Int) (hj : j ∈ loopFromOne 10) :
    ∀ e ∈ fillSubsample cfg calcRe cent j,
      e.within dataMasks dataConfigs slotOfJackknifeLoop = true := by
  have hs : ∀ arr : JkArray, slotOfJackknifeLoop (Target.slot arr (j - 1)) = true := by
    intro arr
    simp only [slotOfJackknifeLoop, decide_eq_true_eq]
    exact ⟨j, hj, rfl⟩
  intro e he
  simp only [fillSubsample, List.mem_append, List.mem_flatMap] at he
  rcases he with ((he | he) | ⟨i, -, he⟩) | ⟨i, -, he⟩
  · exact fillProfilePtr_within _ _ _ _ _ _ _ (by decide) (hs _) e he
  · exact fillProfilePtr_within _ _ _ _ _ _ _ (by decide) (hs _) e he
  · rcases he with ((((he | he) | he) | he) | he) | he <;>
      exact fillProfilepTMassPtr_within _ _ _ _ _ _ _ _ _ _ (by decide) (hs _) e he
  · rcases he with ((((he | he) | he) | he) | he) | he <;>
      exact fillProfilepTMassPtr_within _ _ _ _ _ _ _ _ _ _ (by decide) (hs _) e he

theorem processData_slots {G : Type} (E : Env G) (cfg : Config) (m : Members) (g0 : G)
    (rndm : ℚ) (collision : Collision) (tracks : List Track) (Cascades : List Cascade)
    (V0s : List V0) :
    ∀ e ∈ (processData E cfg m g0 rndm collision tracks Cascades V0s).1,
      e.within dataMasks dataConfigs slotOfJackknifeLoop = true := by
  unfold processData
  by_cases hlen : ((tracks.length : Int) < 1)
  · simp [hlen]
  · by_cases hsel : collision.sel8 = false
    · simp [hlen, hsel, Effect.within]
    · by_cases hev : eventSelected E cfg collision collision.centFT0C = true
      · simp [hlen, hsel, hev, Effect.within]
      · simp only [hlen, hsel, hev, if_false, Bool.true_eq_false, Bool.false_eq_true]
        intro e he
        simp only [List.mem_append, List.mem_cons] at he
        rcases he with ((rfl | ((he | he) | he)) | he) | he
        · rfl
        · exact trackLoop_within _ _ _ _ _ _ _ _ e he
        · exact v0Loop_within _ _ _ _ _ _ _ _ _ e he
        · exact cascLoop_within _ _ _ _ _ _ _ _ _ e he
        · exact fillFullSample_slots _ _ _ e he
        · split_ifs at he
          · simp only [fillJackknife, List.mem_flatMap] at he
            obtain ⟨j, hj, he⟩ := he
            split_ifs at he
            · simp at he
            · exact fillSubsample_slots _ _ _ j hj e he
          · simp at he

/-- C23, the code at the failing input.  Default pt axis (39 edges, `nPtBins = 38`) and
`cfgDoJackknife = true`: `init` stores a profile at every index `0, ..., 37` of each of the
ten arrays, so the stores at the indices `20, ..., 37` lie beyond the declared length `20`.
The other half of the sentence holds: the indices `j - 1` that `processData` uses are
`0, ..., 9`, each smaller than `20` and each stored by `init`, and every jackknife slot that
`processData` fills has such an index. -/
theorem jackknife_stores_pass_the_array_end :
    nPtBins jackknifeConfig = 38 ∧ jkArrayLength = 20 ∧
    (∀ arr : JkArray,
      (bookedSlots jackknifeConfig arr).filter (fun idx => decide (jkArrayLength ≤ idx))
        = [20, 21, 22, 23, 24, 25, 26, 27, 28, 29, 30, 31, 32, 33, 34, 35, 36, 37]) ∧
    (∀ (arr : JkArray), ∀ j ∈ loopFromOne 10,
      0 ≤ j - 1 ∧ j - 1 < jkArrayLength ∧ j - 1 ∈ bookedSlots jackknifeConfig arr) ∧
    (∀ {G : Type} (E : Env G) (m : Members) (g0 : G) (rndm : ℚ) (collision : Collision)
        (tracks : List Track) (Cascades : List Cascade) (V0s : List V0) (arr : JkArray)
        (idx : Int) (entry : ProfileFill),
      Effect.profFill (Target.slot arr idx) entry
          ∈ (processData E jackknifeConfig m g0 rndm collision tracks Cascades V0s).1 →
        ∃ j ∈ loopFromOne 10, idx = j - 1) := by
  refine ⟨rfl, rfl, ?_, ?_, ?_⟩
  · intro arr
    rw [bookedSlots_eq jackknifeConfig arr rfl]
    decide
  · intro arr j hj
    rw [bookedSlots_eq jackknifeConfig arr rfl]
    revert j
    decide
  · intro G E m g0 rndm collision tracks Cascades V0s arr idx entry h
    have hw := processData_slots E jackknifeConfig m g0 rndm collision tracks Cascades V0s _ h
    simpa [Effect.within, slotOfJackknifeLoop] using hw

/-! ## C25: the pt axis of generated V0s -/

theorem mcV0Step_bin (cfg : Config) (v0Gen : McParticle) :
    ∀ e ∈ mcV0Step cfg v0Gen,
      e = Effect.gfwFill v0Gen.eta ((fXiPtAxis cfg).FindBin v0Gen.pt - 1) v0Gen.phi 1 512 ∨
        e = Effect.gfwFill v0Gen.eta ((fXiPtAxis cfg).FindBin v0Gen.pt - 1) v0Gen.phi 1
          1024 := by
  have h : (mcV0Step cfg v0Gen).all (fun e => decide
      (e = Effect.gfwFill v0Gen.eta ((fXiPtAxis cfg).FindBin v0Gen.pt - 1) v0Gen.phi 1 512 ∨
        e = Effect.gfwFill v0Gen.eta ((fXiPtAxis cfg).FindBin v0Gen.pt - 1) v0Gen.phi 1
          1024)) = true := by
    unfold mcV0Step
    simp only
    split_ifs <;> simp
  intro e he
  exact of_decide_eq_true (List.all_eq_true.mp h e he)

theorem generated_k0s_split_axes :
    mcV0Step splitAxesConfig (generatedParticle kK0Short 2) = [Effect.gfwFill 0.5 5 1 1 512] ∧
      (fXiPtAxis splitAxesConfig).FindBin 2 - 1 = 5 ∧
      (fV0PtAxis splitAxesConfig).FindBin 2 - 1 = 1 := by
  refine ⟨?_, ?_, ?_⟩
  · norm_num [mcV0Step, generatedParticle, kK0Short, kLambda0, splitAxesConfig, defaultConfig,
      fXiPtAxis, TAxis.FindBin, TAxis.GetXmin, TAxis.GetXmax, TAxis.GetNbins,
      TAxis.binarySearch, List.takeWhile, abs_lt, le_abs, lt_abs]
  · norm_num [splitAxesConfig, defaultConfig, fXiPtAxis, TAxis.FindBin, TAxis.GetXmin,
      TAxis.GetXmax, TAxis.GetNbins, TAxis.binarySearch, List.takeWhile]
  · norm_num [splitAxesConfig, defaultConfig, fV0PtAxis, TAxis.FindBin, TAxis.GetXmin,
      TAxis.GetXmax, TAxis.GetNbins, TAxis.binarySearch, List.takeWhile]

/-- C25, the code at the failing input.  Under every configuration `processMC` passes a
generated K0s or Lambda to `Fill` with the bin of the Xi pt axis (`fXiPtAxis`), while
`fillProfilepTMC` uses the V0 pt axis (`fV0PtAxis`) for `kK0Short` and `kLambda0` and the
profile loop runs over `nV0PtBins`.  The default axes are equal, but with a V0 axis of two
bins `{0.9, 1.9, 9.9}` and the default Xi axis a generated K0s of `pt = 2` is filled at
index `5`, its bin on the V0 axis has index `1`, and the loop reads the indices `0` and `1`
only. -/
theorem generated_v0_binned_on_xi_axis :
    (∀ (cfg : Config) (v0Gen : McParticle), ∀ e ∈ mcV0Step cfg v0Gen,
      e = Effect.gfwFill v0Gen.eta ((fXiPtAxis cfg).FindBin v0Gen.pt - 1) v0Gen.phi 1 512 ∨
        e = Effect.gfwFill v0Gen.eta ((fXiPtAxis cfg).FindBin v0Gen.pt - 1) v0Gen.phi 1
          1024) ∧
    (∀ cfg : Config, ptAxisOfPDG cfg kK0Short = some (fV0PtAxis cfg) ∧
      ptAxisOfPDG cfg kLambda0 = some (fV0PtAxis cfg)) ∧
    fXiPtAxis defaultConfig = fV0PtAxis defaultConfig ∧
    mcV0Step splitAxesConfig (generatedParticle kK0Short 2) = [Effect.gfwFill 0.5 5 1 1 512] ∧
    (fXiPtAxis splitAxesConfig).FindBin 2 - 1 = 5 ∧
    (fV0PtAxis splitAxesConfig).FindBin 2 - 1 = 1 ∧
    nV0PtBins splitAxesConfig = 2 ∧
    (loopFromOne (nV0PtBins splitAxesConfig)).map (fun i => i - 1) = [0, 1] :=
  ⟨mcV0Step_bin, fun _ => ⟨rfl, rfl⟩, rfl, generated_k0s_split_axes.1,
    generated_k0s_split_axes.2.1, generated_k0s_split_axes.2.2, rfl, by decide⟩


/-! ## C29: reference tracks and charged POI tracks -/

theorem trackStep_ref_has_poi {G : Type} (E : Env G) (cfg : Config) (m : Members) (vtxz : ℚ)
    (s : TrackLoopState) (track : Track)
    (hpoi : track.pt > cfg.cfgCutPtPOIMin ∧ track.pt < cfg.cfgCutPtPOIMax)
    (eta : ℚ) (ptin : Int) (phi weight : ℚ)
    (h : Effect.gfwFill eta ptin phi weight 1 ∈ (trackStep E cfg m vtxz s track).2) :
    Effect.gfwFill eta ptin phi weight 32 ∈ (trackStep E cfg m vtxz s track).2 := by
  unfold trackStep at h ⊢
  simp only [hpoi, and_self, if_true] at h ⊢
  split_ifs at h ⊢ <;> simp_all

theorem trackLoop_ref_has_poi {G : Type} (E : Env G) (cfg : Config) (m : Members) (vtxz : ℚ)
    (eta : ℚ) (ptin : Int) (phi weight : ℚ) (tracks : List Track) :
    (∀ track ∈ tracks, track.pt > cfg.cfgCutPtPOIMin ∧ track.pt < cfg.cfgCutPtPOIMax) →
    ∀ s : TrackLoopState,
      Effect.gfwFill eta ptin phi weight 1 ∈ (trackLoop E cfg m vtxz s tracks).2 →
        Effect.gfwFill eta ptin phi weight 32 ∈ (trackLoop E cfg m vtxz s tracks).2 := by
  induction tracks with
  | nil => intro _ s h; simp [trackLoop] at h
  | cons track rest ih =>
    intro hf s h
    simp only [trackLoop, List.mem_append] at h ⊢
    rcases h with h | h
    · left
      exact trackStep_ref_has_poi E cfg m vtxz s track (hf track (List.mem_cons_self _ _))
        eta ptin phi weight h
    · right
      exact ih (fun t ht => hf t (List.mem_cons_of_mem _ ht)) _ h

theorem v0Loop_masks {G : Type} (E : Env G) (cfg : Config) (m : Members)
    (hLocalDensity : TH1D) (vtxz : ℚ) (V0s : List V0) :
    ∀ (w : Weights), ∀ e ∈ (v0Loop E cfg m hLocalDensity vtxz w V0s).2,
      e.within [8, 16] [] (fun _ => false) = true := by
  induction V0s with
  | nil => intro w e he; simp [v0Loop] at he
  | cons v0 rest ih =>
    intro w e he
    simp only [v0Loop, List.mem_append] at he
    rcases he with he | he
    · have h : ((v0Step E cfg m hLocalDensity vtxz w v0).2.all
          (Effect.within [8, 16] [] (fun _ => false))) = true := by
        unfold v0Step
        simp only
        split_ifs <;> simp [Effect.within]
      exact List.all_eq_true.mp h e he
    · exact ih _ e he

theorem cascLoop_masks {G : Type} (E : Env G) (cfg : Config) (m : Members)
    (hLocalDensity : TH1D) (vtxz : ℚ) (Cascades : List Cascade) :
    ∀ (w : Weights), ∀ e ∈ (cascLoop E cfg m hLocalDensity vtxz w Cascades).2,
      e.within [4, 2] [] (fun _ => false) = true := by
  induction Cascades with
  | nil => intro w e he; simp [cascLoop] at he
  | cons casc rest ih =>
    intro w e he
    simp only [cascLoop, List.mem_append] at he
    rcases he with he | he
    · have h : ((cascStep E cfg m hLocalDensity vtxz w casc).2.all
          (Effect.within [4, 2] [] (fun _ => false))) = true := by
        unfold cascStep
        simp only
        split_ifs <;> simp [Effect.within]
      exact List.all_eq_true.mp h e he
    · exact ih _ e he

/-- C29. When every track of the table satisfies the pt part of `trackFilter`
(`cfgCutPtPOIMin < pt < cfgCutPtPOIMax`), every `fGFW->Fill` of `processData` with the
reference tag `1` is accompanied by a `Fill` with the POI tag `32` and the same
pseudorapidity, pt bin, azimuth and weight.  The tag `1` feeds `reffull` and the overlap
region `poioldpt`, the tag `32` feeds `poifulldpt`, and `poioldpt` and `poifulldpt` are
declared with the same eta range and the same number of bins. -/
theorem reference_tracks_are_poi_tracks {G : Type} (E : Env G) (cfg : Config) (m : Members)
    (g0 : G) (rndm : ℚ) (collision : Collision) (tracks : List Track)
    (Cascades : List Cascade) (V0s : List V0)
    (hfilter : ∀ track ∈ tracks,
      track.pt > cfg.cfgCutPtPOIMin ∧ track.pt < cfg.cfgCutPtPOIMax) :
    (∀ (eta : ℚ) (ptin : Int) (phi weight : ℚ),
      Effect.gfwFill eta ptin phi weight 1
          ∈ (processData E cfg m g0 rndm collision tracks Cascades V0s).1 →
        Effect.gfwFill eta ptin phi weight 32
          ∈ (processData E cfg m g0 rndm collision tracks Cascades V0s).1) ∧
      regionNamed cfg "reffull" = some ⟨"reffull", -0.8, 0.8, 1, 1⟩ ∧
      regionNamed cfg "poioldpt" = some ⟨"poioldpt", -0.8, 0.8, nPtBins cfg, 1⟩ ∧
      regionNamed cfg "poifulldpt" = some ⟨"poifulldpt", -0.8, 0.8, nPtBins cfg, 32⟩ := by
  refine ⟨?_, rfl, rfl, rfl⟩
  intro eta ptin phi weight
  unfold processData
  by_cases hlen : ((tracks.length : Int) < 1)
  · simp [hlen]
  · by_cases hsel : collision.sel8 = false
    · simp [hlen, hsel]
    · by_cases hev : eventSelected E cfg collision collision.centFT0C = true
      · simp [hlen, hsel, hev]
      · simp only [hlen, hsel, hev, if_false, Bool.true_eq_false, Bool.false_eq_true]
        intro he
        rcases List.mem_append.1 he with he | he
        · rcases List.mem_append.1 he with he | he
          · rcases List.mem_cons.1 he with he | he
            · cases he
            · apply List.mem_append_left
              apply List.mem_append_left
              apply List.mem_cons_of_mem
              rcases List.mem_append.1 he with he | he
              · rcases List.mem_append.1 he with he | he
                · apply List.mem_append_left
                  apply List.mem_append_left
                  exact trackLoop_ref_has_poi E cfg _ _ eta ptin phi weight tracks hfilter _ he
                · have := v0Loop_masks _ _ _ _ _ _ _ _ he
                  simp [Effect.within] at this
              · have := cascLoop_masks _ _ _ _ _ _ _ _ he
                simp [Effect.within] at this
          · have := fillFullSample_isReadOrProfile _ _ _ _ he
            simp [Effect.isReadOrProfile] at this
        · split_ifs at he
          · have := fillJackknife_isReadOrProfile _ _ _ _ _ he
            simp [Effect.isReadOrProfile] at this
          · simp at he

theorem sampleTrack_ref_fill :
    Effect.gfwFill 0.5 16 1 1 1
      ∈ (processData nullEnv defaultConfig loadedEfficiency () (1 / 3) passingCollision
          [sampleTrack] [] []).1 := by
  have h : Effect.gfwFill 0.5 16 1 1 1
      ∈ gfwFillsOf (processData nullEnv defaultConfig loadedEfficiency () (1 / 3)
          passingCollision [sampleTrack] [] []).1 := by
    rw [rejected_collision_fills_engine]
    exact List.mem_cons_self _ _
  exact (List.mem_filter.1 h).1

/-- C29, at a concrete input: one track of `pt = 1` under the default cuts `0.2 < pt < 10`;
its reference fill is accompanied by the POI fill. -/
theorem reference_tracks_are_poi_tracks_witness :
    (∀ track ∈ [sampleTrack],
      track.pt > defaultConfig.cfgCutPtPOIMin ∧ track.pt < defaultConfig.cfgCutPtPOIMax) ∧
    Effect.gfwFill 0.5 16 1 1 1
      ∈ (processData nullEnv defaultConfig loadedEfficiency () (1 / 3) passingCollision
          [sampleTrack] [] []).1 ∧
    Effect.gfwFill 0.5 16 1 1 32
      ∈ (processData nullEnv defaultConfig loadedEfficiency () (1 / 3) passingCollision
          [sampleTrack] [] []).1 := by
  have hf : ∀ track ∈ [sampleTrack],
      track.pt > defaultConfig.cfgCutPtPOIMin ∧ track.pt < defaultConfig.cfgCutPtPOIMax := by
    intro track ht
    rw [List.mem_singleton] at ht
    rw [ht]
    norm_num [sampleTrack, defaultConfig]
  exact ⟨hf, sampleTrack_ref_fill,
    (reference_tracks_are_poi_tracks nullEnv defaultConfig loadedEfficiency () (1 / 3)
      passingCollision [sampleTrack] [] [] hf).1 0.5 16 1 1 sampleTrack_ref_fill⟩


/-! ## C30: the parameter lookup of the local-density weight -/

theorem getLastD_mem_cons (t : List ℚ) : ∀ (a d : ℚ), (a :: t).getLastD d ∈ a :: t := by
  induction t with
  | nil => intro a d; simp
  | cons b t ih =>
    intro a d
    rw [List.getLastD_cons]
    exact List.mem_cons_of_mem _ (ih b a)

theorem takeWhile_length_lt (p : ℚ → Bool) (l : List ℚ) (a : ℚ) (ha : a ∈ l)
    (hp : p a = false) : (l.takeWhile p).length < l.length := by
  induction l with
  | nil => simp at ha
  | cons b t ih =>
    by_cases hb : p b = true
    · rw [List.takeWhile_cons_of_pos hb]
      rcases List.mem_cons.1 ha with h | h
      · rw [h, hb] at hp
        cases hp
      · simp only [List.length_cons]
        exact Nat.succ_lt_succ (ih h)
    · rw [List.takeWhile_cons_of_neg hb]
      simp

theorem var_findBin_inner (xs : List ℚ) (x : ℚ)
    (h0 : (TAxis.var xs).FindBin x ≠ 0)
    (h1 : (TAxis.var xs).FindBin x ≠ ((TAxis.var xs).GetNbins : Int) + 1) :
    1 ≤ (TAxis.var xs).FindBin x ∧ (TAxis.var xs).FindBin x + 1 ≤ (xs.length : Int) := by
  unfold TAxis.FindBin at h0 h1 ⊢
  by_cases hlo : x < (TAxis.var xs).GetXmin
  · simp [hlo] at h0
  · by_cases hhi : x < (TAxis.var xs).GetXmax
    · simp only [hlo, hhi, if_false, not_true, TAxis.binarySearch]
      cases xs with
      | nil =>
        simp only [TAxis.GetXmin, TAxis.GetXmax, List.headD_nil, List.getLastD_nil] at hlo hhi
        exact absurd hhi hlo
      | cons a t =>
        simp only [TAxis.GetXmin, List.headD_cons, not_lt] at hlo
        simp only [TAxis.GetXmax] at hhi
        have hpos : 1 ≤ ((a :: t).takeWhile (fun e => decide (e ≤ x))).length := by
          rw [List.takeWhile_cons_of_pos (by simpa using hlo)]
          simp
        have hlt : ((a :: t).takeWhile (fun e => decide (e ≤ x))).length < (a :: t).length :=
          takeWhile_length_lt _ _ _ (getLastD_mem_cons t a 0) (by simpa using hhi)
        constructor <;> omega
    · simp [hlo, hhi] at h1

theorem xi_axis_default_bins : ((fXiPtAxis defaultConfig).GetNbins : Int) = 14 := rfl

/-- C30. For a species index `1..4`, `setCurrentLocalDensityWeights` selects the table
`cfgLocDenParaK0s`, `cfgLocDenParaLambda`, `cfgLocDenParaXi`, `cfgLocDenParaOmega` in that
order.  When the pt lies in the underflow or overflow bin of the Xi pt axis it returns `true`
with weight `1`; otherwise it returns `true` with the weight `1 / exp(A · density + B)` where
`A` and `B` are the entries `2·ptbin - 2` and `2·ptbin - 1` of the table, and `ptbin` lies in
`1..GetNbins`.  Under the default configuration (14 pt bins, 28 parameters in each table)
both positions are valid indices: `0 ≤ 2·ptbin - 2` and `2·ptbin - 1 < 28`. -/
theorem local_density_lookup_in_bounds {G : Type} (E : Env G) (cfg : Config)
    (pt locDensity : ℚ) (ispecies : Int) (h1 : 1 ≤ ispecies) (h4 : ispecies ≤ 4) :
    (∃ table : List ℚ,
      [cfg.cfgLocDenParaK0s, cfg.cfgLocDenParaLambda, cfg.cfgLocDenParaXi,
          cfg.cfgLocDenParaOmega].get? (ispecies - 1).toNat = some table ∧
      (((fXiPtAxis cfg).FindBin pt = 0 ∨
          (fXiPtAxis cfg).FindBin pt = ((fXiPtAxis cfg).GetNbins : Int) + 1) →
        setCurrentLocalDensityWeights E cfg pt locDensity ispecies = (true, 1)) ∧
      (¬ ((fXiPtAxis cfg).FindBin pt = 0 ∨
          (fXiPtAxis cfg).FindBin pt = ((fXiPtAxis cfg).GetNbins : Int) + 1) →
        setCurrentLocalDensityWeights E cfg pt locDensity ispecies
            = (true, 1 / E.exp
                (table.getD (2 * (fXiPtAxis cfg).FindBin pt - 2).toNat 0
                    * (locDensity * 200 / ((2 * cfg.cfgDeltaPhiLocDen + 1 : Int) : ℚ))
                  + table.getD (2 * (fXiPtAxis cfg).FindBin pt - 1).toNat 0)) ∧
          1 ≤ (fXiPtAxis cfg).FindBin pt ∧
          (fXiPtAxis cfg).FindBin pt + 1 ≤ (cfg.cfgaxisPtXi.binEdges.length : Int))) ∧
    defaultConfig.cfgLocDenParaK0s.length = 28 ∧
    defaultConfig.cfgLocDenParaLambda.length = 28 ∧
    defaultConfig.cfgLocDenParaXi.length = 28 ∧
    defaultConfig.cfgLocDenParaOmega.length = 28 ∧
    ((fXiPtAxis defaultConfig).GetNbins : Int) = 14 ∧
    (¬ ((fXiPtAxis defaultConfig).FindBin pt = 0 ∨
        (fXiPtAxis defaultConfig).FindBin pt = ((fXiPtAxis defaultConfig).GetNbins : Int) + 1) →
      0 ≤ 2 * (fXiPtAxis defaultConfig).FindBin pt - 2 ∧
        (2 * (fXiPtAxis defaultConfig).FindBin pt - 2).toNat < 28 ∧
        (2 * (fXiPtAxis defaultConfig).FindBin pt - 1).toNat < 28) := by
  refine ⟨?_, rfl, rfl, rfl, rfl, rfl, ?_⟩
  · have hsp : ispecies = 1 ∨ ispecies = 2 ∨ ispecies = 3 ∨ ispecies = 4 := by omega
    have hget : ∀ table : List ℚ,
        [cfg.cfgLocDenParaK0s, cfg.cfgLocDenParaLambda, cfg.cfgLocDenParaXi,
          cfg.cfgLocDenParaOmega].get? (ispecies - 1).toNat = some table →
        [cfg.cfgLocDenParaK0s, cfg.cfgLocDenParaLambda, cfg.cfgLocDenParaXi,
          cfg.cfgLocDenParaOmega].getD (ispecies - 1).toNat [] = table := by
      intro table h
      rw [List.getD_eq_getElem?_getD, ← List.get?_eq_getElem?, h]
      rfl
    have hex : ∃ table : List ℚ,
        [cfg.cfgLocDenParaK0s, cfg.cfgLocDenParaLambda, cfg.cfgLocDenParaXi,
          cfg.cfgLocDenParaOmega].get? (ispecies - 1).toNat = some table := by
      rcases hsp with h | h | h | h <;> subst h
      · exact ⟨_, rfl⟩
      · exact ⟨_, rfl⟩
      · exact ⟨_, rfl⟩
      · exact ⟨_, rfl⟩
    obtain ⟨table, ht⟩ := hex
    refine ⟨table, ht, ?_, ?_⟩
    · intro hb
      unfold setCurrentLocalDensityWeights
      simp only [hb, if_true]
    · intro hb
      refine ⟨?_, ?_⟩
      · unfold setCurrentLocalDensityWeights
        simp only [hb, if_false, hget table ht]
      · have hb0 : (fXiPtAxis cfg).FindBin pt ≠ 0 := fun h => hb (Or.inl h)
        have hb1 : (fXiPtAxis cfg).FindBin pt ≠ ((fXiPtAxis cfg).GetNbins : Int) + 1 :=
          fun h => hb (Or.inr h)
        exact var_findBin_inner cfg.cfgaxisPtXi.binEdges pt hb0 hb1
  · intro hb
    have hb0 : (fXiPtAxis defaultConfig).FindBin pt ≠ 0 := fun h => hb (Or.inl h)
    have hb1 : (fXiPtAxis defaultConfig).FindBin pt
        ≠ ((fXiPtAxis defaultConfig).GetNbins : Int) + 1 := fun h => hb (Or.inr h)
    have h := var_findBin_inner defaultConfig.cfgaxisPtXi.binEdges pt hb0 hb1
    have hlen : (defaultConfig.cfgaxisPtXi.binEdges.length : Int) = 15 := rfl
    rw [hlen] at h
    have h' : 1 ≤ (fXiPtAxis defaultConfig).FindBin pt ∧
        (fXiPtAxis defaultConfig).FindBin pt + 1 ≤ 15 := h
    omega

theorem xi_axis_bin_of_one : (fXiPtAxis defaultConfig).FindBin 1 = 1 := by
  norm_num [fXiPtAxis, defaultConfig, TAxis.FindBin, TAxis.GetXmin, TAxis.GetXmax,
    TAxis.GetNbins, TAxis.binarySearch, List.takeWhile]

/-- C30, at a concrete input: species `3` (Xi) and `pt = 1`, which lies in bin `1` of the
default Xi pt axis, so the positions read are `0` and `1` of a table of `28` entries. -/
theorem local_density_lookup_in_bounds_witness :
    (1 : Int) ≤ 3 ∧ (3 : Int) ≤ 4 ∧ (fXiPtAxis defaultConfig).FindBin 1 = 1 ∧
      defaultConfig.cfgLocDenParaXi.length = 28 ∧
      0 ≤ 2 * (fXiPtAxis defaultConfig).FindBin 1 - 2 ∧
      (2 * (fXiPtAxis defaultConfig).FindBin 1 - 2).toNat < 28 ∧
      (2 * (fXiPtAxis defaultConfig).FindBin 1 - 1).toNat < 28 := by
  have hnot : ¬ ((fXiPtAxis defaultConfig).FindBin 1 = 0 ∨
      (fXiPtAxis defaultConfig).FindBin 1 = ((fXiPtAxis defaultConfig).GetNbins : Int) + 1) := by
    rw [xi_axis_bin_of_one, xi_axis_default_bins]
    decide
  have h := local_density_lookup_in_bounds nullEnv defaultConfig 1 0 3 (by decide) (by decide)
  exact ⟨by decide, by decide, xi_axis_bin_of_one, h.2.2.2.1, h.2.2.2.2.2.2 hnot⟩

/-! ## C24: the bins passed to `Calculate` -/

end FlowGfwOmegaXi
